import Mathlib

/-!
# srs-librtmp: a shallow embedding of `trunk/src/libs/srs_librtmp.cpp`

The definitions below follow the C++ functions of `srs_librtmp.cpp` one by one and keep
their names.  Bytes are `Fin 256`.  Machine integers are `Int`/`Nat` with explicit
wrap-around (`toInt32`, `toUInt32`).  The socket is an oracle (`SrsRtmpClient`): the
outcome of the n-th send and of the n-th receive is given by a function of n, and the
session keeps the list of packets handed to `srs_rtmp_write_packet` and the number of
`recv_message` calls made so far.

Classes of the repository that are used by `srs_librtmp.cpp` but whose sources are other
files (`SrsBuffer`, `SrsRawH264Stream`, `SrsRawAacStream`, `SrsFlvVideo`, the error
constants) are either parameters of the functions or modelled from the specification; each
such definition says so in its doc comment.
-/

namespace SrsLibrtmp

/-! ## Machine integers and bytes -/

/-- One octet. -/
abbrev Byte := Fin 256

/-- Reinterpretation of an integer as a two's complement `int32_t` / `int`. -/
def toInt32 (x : Int) : Int := (x + 2147483648) % 4294967296 - 2147483648

/-- Reinterpretation of an integer as a `uint32_t` bit pattern. -/
def toUInt32 (x : Int) : Nat := (x % 4294967296).toNat

/-- Value of a byte read as `int8_t` (what `SrsBuffer::read_1bytes` returns). -/
def toInt8 (b : Byte) : Int := if b.val < 128 then (b.val : Int) else (b.val : Int) - 256

/-! ## Error codes -/

/-- Modelled from the spec: the error constants of `srs_kernel_error.hpp`, which is not
under src/.  The spec lists them by name (section 6, "Error codes", 0 = success) and gives
no numeric values, so a return code is one of the named codes used by `srs_librtmp.cpp`
or any other code `ERROR_OTHER n` (the codes returned by the socket and by the codec
helpers). -/
inductive SrsErrorCode where
  | ERROR_SUCCESS
  | ERROR_RTMP_AGGREGATE
  | ERROR_H264_DROP_BEFORE_SPS_PPS
  | ERROR_H264_DUPLICATED_SPS
  | ERROR_H264_DUPLICATED_PPS
  | ERROR_AAC_REQUIRED_ADTS
  | ERROR_FLV_INVALID_VIDEO_TAG
  | ERROR_OTHER (code : Nat)
  deriving DecidableEq, Repr

open SrsErrorCode

/-! ## SrsBuffer -/

/-- Modelled from the spec: `SrsBuffer` of `srs_kernel_buffer.hpp`, which is not under
src/ (spec 4.1: a bounded cursor over a borrowed byte slice with `require`, big-endian
`read_u8/u24/u32`, `read_bytes`, `empty`).  The cursor is represented by the bytes that
remain after it. -/
structure SrsBuffer where
  left : List Byte
  deriving DecidableEq, Repr

namespace SrsBuffer

/-- Cursor is at the end: `empty()`. -/
def empty (s : SrsBuffer) : Bool := s.left.isEmpty

/-- At least `n` bytes remain: `require(n)`. -/
def require (s : SrsBuffer) (n : Nat) : Bool := decide (n ≤ s.left.length)

/-- Read one byte as `int8_t` and advance: `read_1bytes()`. -/
def read_1bytes (s : SrsBuffer) : Int × SrsBuffer :=
  match s.left with
  | [] => (0, s)
  | b :: r => (toInt8 b, ⟨r⟩)

/-- Read a big-endian 24-bit unsigned value and advance: `read_3bytes()`. -/
def read_3bytes (s : SrsBuffer) : Int × SrsBuffer :=
  match s.left with
  | b0 :: b1 :: b2 :: r => ((b0.val * 65536 + b1.val * 256 + b2.val : Nat), ⟨r⟩)
  | _ => (0, s)

/-- Read a big-endian 32-bit value as `int32_t` and advance: `read_4bytes()`. -/
def read_4bytes (s : SrsBuffer) : Int × SrsBuffer :=
  match s.left with
  | b0 :: b1 :: b2 :: b3 :: r =>
      (toInt32 (b0.val * 16777216 + b1.val * 65536 + b2.val * 256 + b3.val : Nat), ⟨r⟩)
  | _ => (0, s)

/-- Copy `n` bytes out and advance: `read_bytes(data, n)`. -/
def read_bytes (s : SrsBuffer) (n : Nat) : List Byte × SrsBuffer :=
  (s.left.take n, ⟨s.left.drop n⟩)

end SrsBuffer

/-! ## Messages and the session context -/

/-- The fields of `SrsMessageHeader` that `srs_librtmp.cpp` reads and writes. -/
structure SrsMessageHeader where
  message_type : Int := 0
  payload_length : Int := 0
  timestamp_delta : Int := 0
  timestamp : Int := 0
  stream_id : Int := 0
  perfer_cid : Int := 0
  deriving DecidableEq, Repr

namespace SrsMessageHeader

/-- Modelled from the spec: `SrsMessageHeader::is_audio` (the class is not under src/);
spec 3 gives message type 8 for audio. -/
def is_audio (h : SrsMessageHeader) : Bool := h.message_type == 8

/-- Modelled from the spec: `SrsMessageHeader::is_video`; spec 3 gives message type 9. -/
def is_video (h : SrsMessageHeader) : Bool := h.message_type == 9

/-- Modelled from the spec: `SrsMessageHeader::is_amf0_data`; spec 3 gives type 18. -/
def is_amf0_data (h : SrsMessageHeader) : Bool := h.message_type == 18

/-- Modelled from the spec: `SrsMessageHeader::is_amf3_data`; spec 3 gives type 15. -/
def is_amf3_data (h : SrsMessageHeader) : Bool := h.message_type == 15

/-- Modelled from the spec: `SrsMessageHeader::is_aggregate`; spec 3 gives type 22. -/
def is_aggregate (h : SrsMessageHeader) : Bool := h.message_type == 22

end SrsMessageHeader

/-- A received message: `SrsCommonMessage`.  `payload = none` is the NULL pointer. -/
structure SrsCommonMessage where
  header : SrsMessageHeader := {}
  size : Int := 0
  payload : Option (List Byte) := none
  deriving DecidableEq, Repr

/-- One call of `srs_rtmp_write_packet(context, type, timestamp, data, size)`. -/
structure RtmpPacket where
  type : Int
  timestamp : Nat
  data : List Byte
  deriving DecidableEq, Repr

/-- The fields of `struct Context` used by the functions below.  `sent` is the list of
packets handed to `srs_rtmp_write_packet` so far, oldest first, and `nb_recv` counts the
calls of `rtmp->recv_message`; both stand for the state of the `rtmp`/`skt` members. -/
structure Context where
  msgs : List SrsCommonMessage := []
  stream_id : Int := 0
  h264_sps : List Byte := []
  h264_pps : List Byte := []
  h264_sps_pps_sent : Bool := false
  h264_sps_changed : Bool := false
  h264_pps_changed : Bool := false
  aac_specific_config : List Byte := []
  sent : List RtmpPacket := []
  nb_recv : Nat := 0
  deriving DecidableEq, Repr

/-- The socket side of the session (`context->rtmp`): `send n p` is the code returned by
the send of packet `p` when `n` packets were handed over before it, `recv n` is what the
`n`-th call of `recv_message` yields (an error, no message, or a message). -/
structure SrsRtmpClient where
  send : Nat → RtmpPacket → SrsErrorCode
  recv : Nat → Except SrsErrorCode (Option SrsCommonMessage)

/-! ## srs_rtmp_on_aggregate -/

/-- The two statements `timestamp |= time_h<<24; timestamp &= 0x7FFFFFFF;` of
`srs_rtmp_on_aggregate` on the 32-bit patterns of its `int32_t` operands. -/
def aggregate_timestamp (timestamp time_h : Int) : Int :=
  (((toUInt32 timestamp ||| (toUInt32 time_h <<< 24) % 4294967296) &&& 0x7FFFFFFF : Nat) : Int)

/-- The `while (!stream->empty())` loop of `srs_rtmp_on_aggregate`; `T` is
`msg->header.timestamp`, `cid` is `msg->header.perfer_cid`, `delta` the local variable and
`msgs` is `context->msgs`.  The first component is `none` when the fuel ran out. -/
def srs_rtmp_on_aggregate_loop (T cid : Int) :
    Nat → SrsBuffer → Int → List SrsCommonMessage → Option SrsErrorCode × List SrsCommonMessage
  | 0, _, _, msgs => (none, msgs)
  | fuel + 1, stream, delta, msgs =>
    if stream.empty then (some ERROR_SUCCESS, msgs) else
    if !stream.require 1 then (some ERROR_RTMP_AGGREGATE, msgs) else
    let type := stream.read_1bytes.1
    let s1 := stream.read_1bytes.2
    if !s1.require 3 then (some ERROR_RTMP_AGGREGATE, msgs) else
    let data_size := s1.read_3bytes.1
    let s2 := s1.read_3bytes.2
    if data_size < 0 then (some ERROR_RTMP_AGGREGATE, msgs) else
    if !s2.require 3 then (some ERROR_RTMP_AGGREGATE, msgs) else
    let timestamp0 := s2.read_3bytes.1
    let s3 := s2.read_3bytes.2
    if !s3.require 1 then (some ERROR_RTMP_AGGREGATE, msgs) else
    let time_h := s3.read_1bytes.1
    let s4 := s3.read_1bytes.2
    let timestamp1 := aggregate_timestamp timestamp0 time_h
    -- adjust abs timestamp in aggregate msg.
    let delta1 := if delta < 0 then toInt32 (toInt32 T - timestamp1) else delta
    let timestamp := toInt32 (timestamp1 + delta1)
    if !s4.require 3 then (some ERROR_RTMP_AGGREGATE, msgs) else
    let stream_id := s4.read_3bytes.1
    let s5 := s4.read_3bytes.2
    if data_size > 0 && !s5.require data_size.toNat then (some ERROR_RTMP_AGGREGATE, msgs) else
    let header : SrsMessageHeader :=
      { message_type := type, payload_length := data_size, timestamp_delta := timestamp,
        timestamp := timestamp, stream_id := stream_id, perfer_cid := cid }
    let o : SrsCommonMessage :=
      if data_size > 0 then
        { header := header, size := data_size, payload := some (s5.read_bytes data_size.toNat).1 }
      else
        { header := header }
    let s6 := if data_size > 0 then (s5.read_bytes data_size.toNat).2 else s5
    if !s6.require 4 then (some ERROR_RTMP_AGGREGATE, msgs) else
    let s7 := s6.read_4bytes.2
    srs_rtmp_on_aggregate_loop T cid fuel s7 delta1 (msgs ++ [o])

/-- The function `srs_rtmp_on_aggregate(context, msg)`: the buffer is the first
`msg->size` bytes of the payload and `delta` starts at -1.  Every iteration that does not
return consumes at least 15 bytes, so the fuel given here never runs out
(`srs_rtmp_on_aggregate_loop_fuel`). -/
def srs_rtmp_on_aggregate (context : Context) (msg : SrsCommonMessage) :
    Option SrsErrorCode × Context :=
  let stream : SrsBuffer := ⟨(msg.payload.getD []).take msg.size.toNat⟩
  let r := srs_rtmp_on_aggregate_loop msg.header.timestamp msg.header.perfer_cid
    (stream.left.length + 1) stream (-1) context.msgs
  (r.1, { context with msgs := r.2 })

/-! ## Sub-records of an aggregate, as the specification describes them -/

/-- Big-endian encoding of the low 24 bits of `n`. -/
def u24be (n : Nat) : List Byte :=
  [Fin.ofNat (n / 65536), Fin.ofNat (n / 256), Fin.ofNat n]

/-- Big-endian encoding of the low 32 bits of `n`. -/
def u32be (n : Nat) : List Byte :=
  [Fin.ofNat (n / 16777216), Fin.ofNat (n / 65536), Fin.ofNat (n / 256), Fin.ofNat n]

/-- A complete sub-record `{tagType:u8, dataSize:u24, timestamp:u24 + u8 ext, streamId:u24,
body[dataSize], previousTagSize:u32}` (spec 4.5); `dataSize` is the length of `body`. -/
structure SubRecord where
  tagType : Byte
  timestamp : Nat
  streamId : Nat
  body : List Byte
  previousTagSize : Nat
  deriving DecidableEq, Repr

/-- The bytes of a sub-record on the wire. -/
def SubRecord.encode (r : SubRecord) : List Byte :=
  [r.tagType] ++ u24be r.body.length ++ u24be r.timestamp ++ [Fin.ofNat (r.timestamp / 16777216)]
    ++ u24be r.streamId ++ r.body ++ u32be r.previousTagSize

/-- The payload of an aggregate message holding the given sub-records. -/
def aggregatePayload (rs : List SubRecord) : List Byte :=
  (rs.map SubRecord.encode).flatten

/-- An aggregate (type 22) message with header timestamp `T`, message stream id `sid` and
the given sub-records. -/
def aggregateMessage (T sid : Int) (rs : List SubRecord) : SrsCommonMessage :=
  { header := { message_type := 22, payload_length := (aggregatePayload rs).length,
                timestamp := T, stream_id := sid },
    size := (aggregatePayload rs).length,
    payload := some (aggregatePayload rs) }

/-- A video sub-record with the given internal timestamp and a two-byte body. -/
def tsRecord (ts : Nat) : SubRecord :=
  { tagType := 9, timestamp := ts, streamId := 0, body := [1, 2], previousTagSize := 13 }

/-- Decoded value of the three bytes `u24be n`. -/
def u24val (n : Nat) : Nat := n % 16777216

/-- The 31-bit internal timestamp that `srs_rtmp_on_aggregate` reads from a sub-record. -/
def SubRecord.ts31 (r : SubRecord) : Int :=
  aggregate_timestamp (u24val r.timestamp) (toInt8 (Fin.ofNat (r.timestamp / 16777216)))

/-- Value of the local `delta` after the sub-record `r` has been read with `delta` before. -/
def nextDelta (T delta : Int) (r : SubRecord) : Int :=
  if delta < 0 then toInt32 (toInt32 T - r.ts31) else delta

/-- The message `srs_rtmp_on_aggregate` queues for the sub-record `r` when the local `delta`
has the given value on entry of the iteration. -/
def childOf (T cid delta : Int) (r : SubRecord) : SrsCommonMessage :=
  let ts := toInt32 (r.ts31 + nextDelta T delta r)
  let header : SrsMessageHeader :=
    { message_type := toInt8 r.tagType, payload_length := r.body.length, timestamp_delta := ts,
      timestamp := ts, stream_id := u24val r.streamId, perfer_cid := cid }
  if r.body = [] then { header := header }
  else { header := header, size := r.body.length, payload := some r.body }

/-- The messages queued for a list of sub-records, in order. -/
def aggregateChildren (T cid : Int) : Int → List SubRecord → List SrsCommonMessage
  | _, [] => []
  | delta, r :: rs => childOf T cid delta r :: aggregateChildren T cid (nextDelta T delta r) rs

/-! ## Constants of the codec headers -/

/-- Modelled from the spec: `SRS_RTMP_TYPE_AUDIO` of `srs_librtmp.hpp` (not under src/);
spec 3: message type 8 is audio. -/
def SRS_RTMP_TYPE_AUDIO : Int := 8

/-- Modelled from the spec: `SRS_RTMP_TYPE_VIDEO` of `srs_librtmp.hpp`; spec 3: type 9. -/
def SRS_RTMP_TYPE_VIDEO : Int := 9

/-- Modelled from the spec: `SRS_RTMP_TYPE_SCRIPT` of `srs_librtmp.hpp`; spec 3: AMF0 data
is type 18. -/
def SRS_RTMP_TYPE_SCRIPT : Int := 18

/-- Modelled from the spec: `SrsAudioCodecIdAAC` of `srs_kernel_codec.hpp` (not under
src/); spec 4.7: `sound_format:10`. -/
def SrsAudioCodecIdAAC : Nat := 10

/-- Modelled from the spec: `SrsVideoCodecIdAVC` of `srs_kernel_codec.hpp`; spec 4.7:
`codec_id:7`. -/
def SrsVideoCodecIdAVC : Nat := 7

/-- Modelled from the spec: `SrsVideoAvcFrameTypeKeyFrame`; spec 4.7: `frame_type: IDR?1:2`. -/
def SrsVideoAvcFrameTypeKeyFrame : Nat := 1

/-- Modelled from the spec: `SrsVideoAvcFrameTypeInterFrame`; spec 4.7: `frame_type: IDR?1:2`. -/
def SrsVideoAvcFrameTypeInterFrame : Nat := 2

/-- Modelled from the spec: `SrsVideoAvcFrameTraitSequenceHeader`; spec 6: `0=sh`. -/
def SrsVideoAvcFrameTraitSequenceHeader : Nat := 0

/-- Modelled from the spec: `SrsVideoAvcFrameTraitNALU`; spec 6: `1=nalu`. -/
def SrsVideoAvcFrameTraitNALU : Nat := 1

/-- Modelled from the spec: `SrsAvcNaluTypeNonIDR`; spec 4.7: non-IDR(1). -/
def SrsAvcNaluTypeNonIDR : Nat := 1

/-- Modelled from the spec: `SrsAvcNaluTypeIDR`; spec 4.7: IDR(5). -/
def SrsAvcNaluTypeIDR : Nat := 5

/-- Modelled from the spec: `SrsAvcNaluTypeSPS`; spec 4.7: SPS(7). -/
def SrsAvcNaluTypeSPS : Nat := 7

/-- Modelled from the spec: `SrsAvcNaluTypePPS`; spec 4.7: PPS(8). -/
def SrsAvcNaluTypePPS : Nat := 8

/-- Modelled from the spec: `SrsAvcNaluTypeAccessUnitDelimiter`; spec 4.7: AUD(9). -/
def SrsAvcNaluTypeAccessUnitDelimiter : Nat := 9

/-! ## Writing packets -/

/-- The function `srs_rtmp_write_packet(rtmp, type, timestamp, data, size)`: the packet is
handed to the RTMP stack (`srs_rtmp_create_msg` then `send_and_free_message`), whose code
is returned.  The packet is recorded in `sent` whatever that code is. -/
def srs_rtmp_write_packet (rtmp : SrsRtmpClient) (context : Context) (type : Int)
    (timestamp : Nat) (data : List Byte) : SrsErrorCode × Context :=
  let p : RtmpPacket := { type := type, timestamp := timestamp, data := data }
  (rtmp.send context.sent.length p, { context with sent := context.sent ++ [p] })

/-! ## Raw H.264 -/

/-- The methods of `SrsRawH264Stream` (`srs_raw_avc.hpp`, not under src/) whose results the
specification does not fix; they are parameters.  `annexb_demux` yields the next frame and
advances the stream, `sps_demux`/`pps_demux` yield the string stored into the out-parameter,
`mux_sequence_header sps pps dts pts` yields the AVCDecoderConfigurationRecord and
`mux_ipb_frame` the length-prefixed NALU. -/
structure SrsRawH264Stream where
  annexb_demux : SrsBuffer → Except SrsErrorCode (List Byte × SrsBuffer)
  sps_demux : List Byte → Except SrsErrorCode (List Byte)
  pps_demux : List Byte → Except SrsErrorCode (List Byte)
  mux_sequence_header : List Byte → List Byte → Nat → Nat → Except SrsErrorCode (List Byte)
  mux_ipb_frame : List Byte → Except SrsErrorCode (List Byte)

/-- The expression `frame[0] & 0x1f` of a non-empty frame. -/
def nalu_type (frame : List Byte) : Nat :=
  match frame with
  | [] => 0
  | b :: _ => b.val &&& 0x1f

/-- Modelled from the spec: `SrsRawH264Stream::is_sps` (`srs_raw_avc.cpp` is not under
src/); spec 4.7: `nal_unit_type = byte0 & 0x1F`, SPS is 7. -/
def is_sps (frame : List Byte) : Bool := nalu_type frame == 7

/-- Modelled from the spec: `SrsRawH264Stream::is_pps`; spec 4.7: PPS is 8. -/
def is_pps (frame : List Byte) : Bool := nalu_type frame == 8

/-- Modelled from the spec: `SrsRawH264Stream::mux_avc2flv` (`srs_raw_avc.cpp` is not under
src/).  Spec 6: the video tag starts with the header byte `frame_type(4) | codec_id(4)`,
followed by `avc_packet_type(1)` and `composition_time(3 bytes)`; spec 4.7: `codec_id:7`,
`cts:0` for the sequence header and `cts: pts-dts` for a NALU tag, then the body. -/
def mux_avc2flv (video : List Byte) (frame_type avc_packet_type dts pts : Nat) :
    Except SrsErrorCode (List Byte) :=
  let cts : Nat := if avc_packet_type = 0 then 0 else toUInt32 ((pts : Int) - (dts : Int))
  .ok ([Fin.ofNat (frame_type * 16 ||| SrsVideoCodecIdAVC), Fin.ofNat avc_packet_type]
        ++ u24be cts ++ video)

/-- The function `srs_write_h264_ipb_frame`. -/
def srs_write_h264_ipb_frame (rtmp : SrsRtmpClient) (avc : SrsRawH264Stream) (context : Context)
    (frame : List Byte) (dts pts : Nat) : SrsErrorCode × Context :=
  -- when sps or pps not sent, ignore the packet.
  if !context.h264_sps_pps_sent then (ERROR_H264_DROP_BEFORE_SPS_PPS, context) else
  let nut := nalu_type frame
  if nut != SrsAvcNaluTypeIDR && nut != SrsAvcNaluTypeNonIDR then (ERROR_SUCCESS, context) else
  -- for IDR frame, the frame is keyframe.
  let frame_type :=
    if nut == SrsAvcNaluTypeIDR then SrsVideoAvcFrameTypeKeyFrame else SrsVideoAvcFrameTypeInterFrame
  match avc.mux_ipb_frame frame with
  | .error e => (e, context)
  | .ok ibp =>
    match mux_avc2flv ibp frame_type SrsVideoAvcFrameTraitNALU dts pts with
    | .error e => (e, context)
    | .ok flv => srs_rtmp_write_packet rtmp context SRS_RTMP_TYPE_VIDEO dts flv

/-- The function `srs_write_h264_sps_pps`. -/
def srs_write_h264_sps_pps (rtmp : SrsRtmpClient) (avc : SrsRawH264Stream) (context : Context)
    (dts pts : Nat) : SrsErrorCode × Context :=
  -- send when sps or pps changed.
  if !context.h264_sps_changed && !context.h264_pps_changed then (ERROR_SUCCESS, context) else
  match avc.mux_sequence_header context.h264_sps context.h264_pps dts pts with
  | .error e => (e, context)
  | .ok sh =>
    match mux_avc2flv sh SrsVideoAvcFrameTypeKeyFrame SrsVideoAvcFrameTraitSequenceHeader dts pts with
    | .error e => (e, context)
    | .ok flv =>
      -- reset sps and pps.
      let context1 := { context with
        h264_sps_changed := false, h264_pps_changed := false, h264_sps_pps_sent := true }
      srs_rtmp_write_packet rtmp context1 SRS_RTMP_TYPE_VIDEO dts flv

/-- The function `srs_write_h264_raw_frame`. -/
def srs_write_h264_raw_frame (rtmp : SrsRtmpClient) (avc : SrsRawH264Stream) (context : Context)
    (frame : List Byte) (dts pts : Nat) : SrsErrorCode × Context :=
  -- empty frame.
  if frame.length ≤ 0 then (ERROR_SUCCESS, context) else
  -- for sps
  if is_sps frame then
    match avc.sps_demux frame with
    | .error e => (e, context)
    | .ok sps =>
      if context.h264_sps = sps then (ERROR_H264_DUPLICATED_SPS, context) else
      (ERROR_SUCCESS, { context with h264_sps_changed := true, h264_sps := sps })
  else
  -- for pps
  if is_pps frame then
    match avc.pps_demux frame with
    | .error e => (e, context)
    | .ok pps =>
      if context.h264_pps = pps then (ERROR_H264_DUPLICATED_PPS, context) else
      (ERROR_SUCCESS, { context with h264_pps_changed := true, h264_pps := pps })
  else
  -- ignore others.
  let nut := nalu_type frame
  if nut != SrsAvcNaluTypeSPS && nut != SrsAvcNaluTypePPS && nut != SrsAvcNaluTypeIDR
      && nut != SrsAvcNaluTypeNonIDR && nut != SrsAvcNaluTypeAccessUnitDelimiter then
    (ERROR_SUCCESS, context)
  else
  -- send pps+sps before ipb frames when sps/pps changed.
  let r := srs_write_h264_sps_pps rtmp avc context dts pts
  if r.1 != ERROR_SUCCESS then r else
  -- ibp frame.
  srs_write_h264_ipb_frame rtmp avc r.2 frame dts pts

/-- The function `srs_h264_is_dvbsp_error`. -/
def srs_h264_is_dvbsp_error (error_code : SrsErrorCode) : Bool :=
  error_code == ERROR_H264_DROP_BEFORE_SPS_PPS

/-- The function `srs_h264_is_duplicated_sps_error`. -/
def srs_h264_is_duplicated_sps_error (error_code : SrsErrorCode) : Bool :=
  error_code == ERROR_H264_DUPLICATED_SPS

/-- The function `srs_h264_is_duplicated_pps_error`. -/
def srs_h264_is_duplicated_pps_error (error_code : SrsErrorCode) : Bool :=
  error_code == ERROR_H264_DUPLICATED_PPS

/-- The `while (!stream->empty())` loop of `srs_h264_write_raw_frames`; the last argument
is the local `error_code_return`.  The code is `none` when the fuel ran out before the loop
ended; the context is the one reached at that point. -/
def srs_h264_write_raw_frames_loop (rtmp : SrsRtmpClient) (avc : SrsRawH264Stream)
    (dts pts : Nat) : Nat → Context → SrsBuffer → SrsErrorCode → Option SrsErrorCode × Context
  | 0, context, _, _ => (none, context)
  | fuel + 1, context, stream, error_code_return =>
    if stream.empty then (some error_code_return, context) else
    match avc.annexb_demux stream with
    | .error e => (some e, context)
    | .ok (frame, stream1) =>
      -- ignore invalid frame, atleast 1bytes for SPS to decode the type
      if frame.length ≤ 0 then
        srs_h264_write_raw_frames_loop rtmp avc dts pts fuel context stream1 error_code_return
      else
      -- it may be return error, but we must process all packets.
      let r := srs_write_h264_raw_frame rtmp avc context frame dts pts
      if r.1 != ERROR_SUCCESS then
        -- ignore known error, process all packets.
        if srs_h264_is_dvbsp_error r.1 || srs_h264_is_duplicated_sps_error r.1
            || srs_h264_is_duplicated_pps_error r.1 then
          srs_h264_write_raw_frames_loop rtmp avc dts pts fuel r.2 stream1 r.1
        else (some r.1, r.2)
      else
        srs_h264_write_raw_frames_loop rtmp avc dts pts fuel r.2 stream1 error_code_return

/-- The function `srs_h264_write_raw_frames(rtmp, frames, frames_size, dts, pts)`; `fuel`
bounds the number of loop iterations (the C++ loop has no bound of its own: it ends when
`annexb_demux` has consumed the buffer).  The `srs_assert` preconditions (`frames != NULL`,
`frames_size > 0`, `rtmp != NULL`) are not represented: an empty buffer returns success. -/
def srs_h264_write_raw_frames (fuel : Nat) (rtmp : SrsRtmpClient) (avc : SrsRawH264Stream)
    (context : Context) (frames : List Byte) (dts pts : Nat) : Option SrsErrorCode × Context :=
  srs_h264_write_raw_frames_loop rtmp avc dts pts fuel context ⟨frames⟩ ERROR_SUCCESS

/-! ## Raw AAC -/

/-- The codec description `SrsRawAacStreamCodec` (`srs_raw_avc.hpp`, not under src/): the
values extracted from the ADTS header (spec 4.7) and the five fields `srs_librtmp.cpp`
assigns. -/
structure SrsRawAacStreamCodec where
  profile : Nat := 0
  sampling_frequency_index : Nat := 0
  channel_configuration : Nat := 0
  frame_length : Nat := 0
  sound_format : Nat := 0
  sound_rate : Nat := 0
  sound_size : Nat := 0
  sound_type : Nat := 0
  aac_packet_type : Nat := 0
  deriving DecidableEq, Repr

/-- The methods of `SrsRawAacStream` (`srs_raw_avc.hpp`, not under src/) whose results the
specification does not fix; they are parameters.  `adts_demux` yields the next raw frame
with its codec description and advances the stream, `mux_sequence_header` yields the
AudioSpecificConfig. -/
structure SrsRawAacStream where
  adts_demux : SrsBuffer → Except SrsErrorCode (List Byte × SrsRawAacStreamCodec × SrsBuffer)
  mux_sequence_header : SrsRawAacStreamCodec → Except SrsErrorCode (List Byte)

/-- Modelled from the spec: `SrsRawAacStream::mux_aac2flv` (`srs_raw_avc.cpp` is not under
src/).  Spec 6: the audio tag starts with the header byte
`sound_format(4) | sound_rate(2) | sound_size(1) | sound_type(1)`, for AAC followed by
`aac_packet_type(1 byte)`, then the payload. -/
def mux_aac2flv (frame : List Byte) (codec : SrsRawAacStreamCodec) (_dts : Nat) :
    Except SrsErrorCode (List Byte) :=
  let audio_header : Byte := Fin.ofNat
    (codec.sound_format % 16 * 16 + codec.sound_rate % 4 * 4 + codec.sound_size % 2 * 2
      + codec.sound_type % 2)
  if codec.sound_format = SrsAudioCodecIdAAC then
    .ok ([audio_header, Fin.ofNat codec.aac_packet_type] ++ frame)
  else
    .ok ([audio_header] ++ frame)

/-- Modelled from the spec: `srs_aac_startswith_adts` (`srs_kernel_utility.cpp` is not under
src/); spec 4.7: the sync word `0xFFF` in the 12 most significant bits of the first two
bytes. -/
def srs_aac_startswith_adts (stream : SrsBuffer) : Bool :=
  match stream.left with
  | b0 :: b1 :: _ => b0.val == 0xff && (b1.val &&& 0xf0) == 0xf0
  | _ => false

/-- The function `srs_aac_is_adts`. -/
def srs_aac_is_adts (aac_raw_data : List Byte) : Bool :=
  srs_aac_startswith_adts ⟨aac_raw_data⟩

/-- The function `srs_write_audio_raw_frame`. -/
def srs_write_audio_raw_frame (rtmp : SrsRtmpClient) (context : Context) (frame : List Byte)
    (codec : SrsRawAacStreamCodec) (timestamp : Nat) : SrsErrorCode × Context :=
  match mux_aac2flv frame codec timestamp with
  | .error e => (e, context)
  | .ok data => srs_rtmp_write_packet rtmp context SRS_RTMP_TYPE_AUDIO timestamp data

/-- The function `srs_write_aac_adts_frame`. -/
def srs_write_aac_adts_frame (rtmp : SrsRtmpClient) (aac : SrsRawAacStream) (context : Context)
    (codec : SrsRawAacStreamCodec) (frame : List Byte) (timestamp : Nat) :
    SrsErrorCode × Context :=
  -- send out aac sequence header if not sent.
  if context.aac_specific_config.isEmpty then
    match aac.mux_sequence_header codec with
    | .error e => (e, context)
    | .ok sh =>
      let context1 := { context with aac_specific_config := sh }
      let r := srs_write_audio_raw_frame rtmp context1 sh { codec with aac_packet_type := 0 }
        timestamp
      if r.1 != ERROR_SUCCESS then r else
      srs_write_audio_raw_frame rtmp r.2 frame { codec with aac_packet_type := 1 } timestamp
  else
    srs_write_audio_raw_frame rtmp context frame { codec with aac_packet_type := 1 } timestamp

/-- The `while (!stream->empty())` loop of `srs_write_aac_adts_frames`.  The code is `none`
when the fuel ran out before the loop ended. -/
def srs_write_aac_adts_frames_loop (rtmp : SrsRtmpClient) (aac : SrsRawAacStream)
    (sound_format sound_rate sound_size sound_type : Nat) (timestamp : Nat) :
    Nat → Context → SrsBuffer → Option SrsErrorCode × Context
  | 0, context, _ => (none, context)
  | fuel + 1, context, stream =>
    if stream.empty then (some ERROR_SUCCESS, context) else
    match aac.adts_demux stream with
    | .error e => (some e, context)
    | .ok (frame, codec, stream1) =>
      -- override by user specified.
      let codec1 := { codec with
        sound_format := sound_format, sound_rate := sound_rate, sound_size := sound_size,
        sound_type := sound_type }
      let r := srs_write_aac_adts_frame rtmp aac context codec1 frame timestamp
      if r.1 != ERROR_SUCCESS then (some r.1, r.2) else
      srs_write_aac_adts_frames_loop rtmp aac sound_format sound_rate sound_size sound_type
        timestamp fuel r.2 stream1

/-- The function `srs_write_aac_adts_frames`. -/
def srs_write_aac_adts_frames (fuel : Nat) (rtmp : SrsRtmpClient) (aac : SrsRawAacStream)
    (context : Context) (sound_format sound_rate sound_size sound_type : Nat)
    (frames : List Byte) (timestamp : Nat) : Option SrsErrorCode × Context :=
  srs_write_aac_adts_frames_loop rtmp aac sound_format sound_rate sound_size sound_type
    timestamp fuel context ⟨frames⟩

/-- The function `srs_audio_write_raw_frame`; `fuel` bounds the iterations of the ADTS
loop. -/
def srs_audio_write_raw_frame (fuel : Nat) (rtmp : SrsRtmpClient) (aac : SrsRawAacStream)
    (context : Context) (sound_format sound_rate sound_size sound_type : Nat)
    (frame : List Byte) (timestamp : Nat) : Option SrsErrorCode × Context :=
  if sound_format = SrsAudioCodecIdAAC then
    -- for aac, the frame must be ADTS format.
    if !srs_aac_is_adts frame then (some ERROR_AAC_REQUIRED_ADTS, context) else
    -- for aac, demux the ADTS to RTMP format.
    srs_write_aac_adts_frames fuel rtmp aac context sound_format sound_rate sound_size
      sound_type frame timestamp
  else
    -- use codec info for aac.
    let codec : SrsRawAacStreamCodec :=
      { sound_format := sound_format, sound_rate := sound_rate, sound_size := sound_size,
        sound_type := sound_type, aac_packet_type := 0 }
    -- for other data, directly write frame.
    let r := srs_write_audio_raw_frame rtmp context frame codec timestamp
    (some r.1, r.2)

/-! ## Reading packets -/

/-- The out-parameters `type`, `timestamp`, `data`, `size` of `srs_rtmp_read_packet`. -/
structure ReadPacket where
  type : Int := 0
  timestamp : Nat := 0
  data : Option (List Byte) := none
  size : Int := 0
  deriving DecidableEq, Repr

/-- The function `srs_rtmp_go_packet`: the code, the context, the out-parameters and
`got_msg`. -/
def srs_rtmp_go_packet (context : Context) (msg : SrsCommonMessage) (out : ReadPacket) :
    Option SrsErrorCode × Context × ReadPacket × Bool :=
  if msg.header.is_audio then
    (some ERROR_SUCCESS, context,
      { out with type := SRS_RTMP_TYPE_AUDIO, timestamp := toUInt32 msg.header.timestamp,
                 data := msg.payload, size := msg.size }, true)
  else if msg.header.is_video then
    (some ERROR_SUCCESS, context,
      { out with type := SRS_RTMP_TYPE_VIDEO, timestamp := toUInt32 msg.header.timestamp,
                 data := msg.payload, size := msg.size }, true)
  else if msg.header.is_amf0_data || msg.header.is_amf3_data then
    (some ERROR_SUCCESS, context,
      { out with type := SRS_RTMP_TYPE_SCRIPT, data := msg.payload, size := msg.size }, true)
  else if msg.header.is_aggregate then
    let r := srs_rtmp_on_aggregate context msg
    if r.1 != some ERROR_SUCCESS then (r.1, r.2, out, true) else
    (some ERROR_SUCCESS, r.2, out, false)
  else
    (some ERROR_SUCCESS, context,
      { out with type := msg.header.message_type, data := msg.payload, size := msg.size }, true)

/-- The function `srs_rtmp_read_packet`: the `for (;;)` loop, `fuel` bounding its
iterations.  The code is `none` when the fuel ran out. -/
def srs_rtmp_read_packet (rtmp : SrsRtmpClient) : Nat → Context → Option SrsErrorCode × ReadPacket × Context
  | 0, context => (none, {}, context)
  | fuel + 1, context =>
    match context.msgs with
    | msg :: rest =>
      -- read from cache first.
      let r := srs_rtmp_go_packet { context with msgs := rest } msg {}
      if r.1 != some ERROR_SUCCESS then (r.1, r.2.2.1, r.2.1) else
      if r.2.2.2 then (some ERROR_SUCCESS, r.2.2.1, r.2.1) else
      srs_rtmp_read_packet rtmp fuel r.2.1
    | [] =>
      -- read from protocol sdk.
      let context1 := { context with nb_recv := context.nb_recv + 1 }
      match rtmp.recv context.nb_recv with
      | .error e => (some e, {}, context1)
      | .ok none => srs_rtmp_read_packet rtmp fuel context1
      | .ok (some msg) =>
        let r := srs_rtmp_go_packet context1 msg {}
        if r.1 != some ERROR_SUCCESS then (r.1, r.2.2.1, r.2.1) else
        if r.2.2.2 then (some ERROR_SUCCESS, r.2.2.1, r.2.1) else
        srs_rtmp_read_packet rtmp fuel r.2.1

/-! ## Inspecting tags -/

/-- The predicates of `SrsFlvVideo` (`srs_kernel_flv.hpp`, not under src/) that
`srs_utils_parse_timestamp` calls; they are parameters. -/
structure SrsFlvVideo where
  h264 : List Byte → Bool
  hevc : List Byte → Bool
  sh : List Byte → Bool

/-- The function `srs_utils_parse_timestamp(time, type, data, size, ppts)`; the second
component is the value of `*ppts` after the call, `ppts` its value before.  The three
bytes are stored into the bytes 2, 1, 0 of a zeroed `uint32_t` (little-endian host). -/
def srs_utils_parse_timestamp (flv : SrsFlvVideo) (time : Nat) (type : Int) (data : List Byte)
    (ppts : Nat) : SrsErrorCode × Nat :=
  if type != SRS_RTMP_TYPE_VIDEO then (ERROR_SUCCESS, time) else
  if !flv.h264 data && !flv.hevc data then (ERROR_FLV_INVALID_VIDEO_TAG, ppts) else
  if flv.sh data then (ERROR_SUCCESS, time) else
  if data.length < 5 then (ERROR_FLV_INVALID_VIDEO_TAG, ppts) else
  let cts : Nat := (data.getD 2 0).val * 65536 + (data.getD 3 0).val * 256 + (data.getD 4 0).val
  (ERROR_SUCCESS, (time + cts) % 4294967296)

/-- The function `srs_utils_flv_video_codec_id(data, size)`. -/
def srs_utils_flv_video_codec_id (data : List Byte) : Int :=
  match data with
  | [] => 0
  | b0 :: _ => ((b0.val &&& 0x0F : Nat) : Int)

/-- The function `srs_utils_flv_video_avc_packet_type(data, size)`. -/
def srs_utils_flv_video_avc_packet_type (flv : SrsFlvVideo) (data : List Byte) : Int :=
  if data.length < 2 then -1 else
  if !flv.h264 data && !flv.hevc data then -1 else
  let avc_packet_type : Nat := (data.getD 1 0).val
  if avc_packet_type > 2 then -1 else
  (avc_packet_type : Int)

/-- The function `srs_utils_flv_video_frame_type(data, size)`. -/
def srs_utils_flv_video_frame_type (flv : SrsFlvVideo) (data : List Byte) : Int :=
  if data.length < 1 then -1 else
  if !flv.h264 data && !flv.hevc data then -1 else
  let frame_type : Nat := ((data.getD 0 0).val >>> 4) &&& 0x0f
  if frame_type < 1 ∨ frame_type > 5 then -1 else
  (frame_type : Int)

/-! ## MP4 samples -/

/-- Constants of headers that are not under src/ and whose values the specification does
not give (`srs_kernel_codec.hpp`, `srs_kernel_mp4.hpp`); they are parameters. -/
structure SrsCodecIds where
  SrsVideoCodecIdHEVC : Nat
  SrsVideoCodecIdAV1 : Nat
  SrsMp4HandlerTypeSOUN : Nat

/-- Modelled from the spec: `SrsAudioAacFrameTraitSequenceHeader` of `srs_kernel_codec.hpp`
(not under src/); spec 6: `aac_packet_type` 0 is the sequence header. -/
def SrsAudioAacFrameTraitSequenceHeader : Nat := 0

/-- The fields of `srs_mp4_sample_t` (`srs_librtmp.hpp`, not under src/) that
`srs_librtmp.cpp` uses.  Each field holds a value of its C type; `sample` is the payload and
`nb_sample` its length. -/
structure srs_mp4_sample_t where
  handler_type : Nat := 0
  dts : Nat := 0
  pts : Nat := 0
  frame_type : Nat := 0
  frame_trait : Nat := 0
  codec : Nat := 0
  sample_rate : Nat := 0
  channels : Nat := 0
  sound_bits : Nat := 0
  sample : List Byte := []
  deriving DecidableEq, Repr

/-- The number of payload bytes `nb_sample` of a sample. -/
def srs_mp4_sample_t.nb_sample (s : srs_mp4_sample_t) : Nat := s.sample.length

/-- The out-parameters `type`, `time` and the bytes written to `data` by
`srs_mp4_to_flv_tag`, with its return code. -/
structure FlvTagOut where
  ret : SrsErrorCode
  type : Int
  time : Nat
  data : List Byte
  deriving DecidableEq, Repr

/-- The function `srs_mp4_to_flv_tag(mp4, s, type, time, data, size)`.  `type` is the value
of `*type` before the call; `data` of the result is the sequence of bytes the `SrsBuffer`
writers (spec 4.1: big-endian, symmetric to the readers) put into the caller's buffer, in
order.  The capacity `size` of that buffer is not represented. -/
def srs_mp4_to_flv_tag (k : SrsCodecIds) (s : srs_mp4_sample_t) (type : Int) : FlvTagOut :=
  if s.handler_type = k.SrsMp4HandlerTypeSOUN then
    -- E.4.2.1 AUDIODATA
    let header : Byte := Fin.ofNat
      ((s.codec <<< 4) % 256 ||| (s.sample_rate <<< 2) % 256 ||| (s.sound_bits <<< 1) % 256
        ||| s.channels)
    let packet_type : List Byte :=
      if s.codec = SrsAudioCodecIdAAC then
        [if s.frame_trait = SrsAudioAacFrameTraitSequenceHeader then 0 else 1]
      else []
    { ret := ERROR_SUCCESS, type := SRS_RTMP_TYPE_AUDIO, time := s.dts,
      data := [header] ++ packet_type ++ s.sample }
  else
    -- E.4.3.1 VIDEODATA
    let header : Byte := Fin.ofNat ((s.frame_type <<< 4) % 256 ||| s.codec % 256)
    if s.codec = SrsVideoCodecIdAVC ∨ s.codec = k.SrsVideoCodecIdHEVC
        ∨ s.codec = k.SrsVideoCodecIdAV1 then
      let packet_type : Byte :=
        if s.frame_trait = SrsVideoAvcFrameTraitSequenceHeader then 0 else 1
      -- cts = pts - dts, where dts = flvheader->timestamp.
      let cts : Nat := toUInt32 ((s.pts : Int) - (s.dts : Int))
      { ret := ERROR_SUCCESS, type := SRS_RTMP_TYPE_VIDEO, time := s.dts,
        data := [header, packet_type] ++ u24be cts ++ s.sample }
    else
      { ret := ERROR_SUCCESS, type := type, time := s.dts, data := [header] ++ s.sample }

/-! ## The NALU list of a video tag -/

/-- The table `H264_NALU_NAME`. -/
def H264_NALU_NAME : List String :=
  ["Unkown", "P/B", "P/B", "P/B", "P/B", "I", "SEI", "SPS", "PPS", "AUD", "EOS", "EOB"]

/-- The table `HEVC_NALU_NAME`. -/
def HEVC_NALU_NAME : List String :=
  ["TRAIL_N", "TRAIL_R", "TSA_N", "TSA_R", "STSA_N", "STSA_R", "RADL_N", "RADL_R", "RASL_N",
   "RASL_R", "RSV_VCL_N10", "RSV_VCL_R11", "RSV_VCL_N12", "RSV_VCL_R13", "RSV_VCL_N14",
   "RSV_VCL_R15", "BLA_W_LP", "BLA_W_RADL", "BLA_N_LP", "IDR_W_RADL", "IDR_N_LP", "CRA_NUT",
   "RSV_IRAP_VCL22", "RSV_IRAP_VCL23", "RSV_VCL24", "RSV_VCL25", "RSV_VCL26", "RSV_VCL27",
   "RSV_VCL28", "RSV_VCL29", "RSV_VCL30", "RSV_VCL31", "VPS_NUT", "SPS_NUT", "PPS_NUT",
   "AUD_NUT", "EOS_NUT", "EOB_NUT", "FD_NUT", "PREFIX_SEI_NUT", "SUFFIX_SEI_NUT"]

/-- The function `get_nalu_name(codec_id, nalu_type)`.  The bound test is
`nalu_type > sizeof(table) / sizeof(table[0])`, so the index equal to the number of entries
is read from the table; `oob` stands for the string found one past the end of a table. -/
def get_nalu_name (k : SrsCodecIds) (oob : String) (codec_id : Int) (nalu_type : Nat) : String :=
  if codec_id = SrsVideoCodecIdAVC then
    if nalu_type > H264_NALU_NAME.length then "Unkown"
    else H264_NALU_NAME.getD nalu_type oob
  else if codec_id = k.SrsVideoCodecIdHEVC then
    if nalu_type > HEVC_NALU_NAME.length then "Unkown"
    else HEVC_NALU_NAME.getD nalu_type oob
  else "Unkown"

/-- The enumerator `H264_NALU_SEI`. -/
def H264_NALU_SEI : Nat := 6

/-- The enumerator `H264_NALU_SPS`. -/
def H264_NALU_SPS : Nat := 7

/-- The enumerator `H264_NALU_PPS`. -/
def H264_NALU_PPS : Nat := 8

/-- The enumerator `H264_NALU_KWAI`. -/
def H264_NALU_KWAI : Nat := 31

/-- The enumerator `HEVC_NALU_VPS`. -/
def HEVC_NALU_VPS : Nat := 32

/-- The enumerator `HEVC_NALU_SPS`. -/
def HEVC_NALU_SPS : Nat := 33

/-- The enumerator `HEVC_NALU_PPS`. -/
def HEVC_NALU_PPS : Nat := 34

/-- The enumerator `HEVC_NALU_PREFIX_SEI`. -/
def HEVC_NALU_PREFIX_SEI : Nat := 39

/-- The enumerator `HEVC_NALU_SUFFIX_SEI`. -/
def HEVC_NALU_SUFFIX_SEI : Nat := 40

/-- The enumerator `HEVC_NALU_KWAI`. -/
def HEVC_NALU_KWAI : Nat := 63

/-- The byte at index `i` of the memory that starts with the buffer `data`: inside the
buffer it is `data[i]`, past its end it is whatever lies there, `beyond i`. -/
def peek (beyond : Nat → Byte) (data : List Byte) (i : Nat) : Nat :=
  (data.getD i (beyond i)).val

/-- What `snprintf(tmp, n, ...)` stores for the formatted text `s`: at most `n - 1`
characters. -/
def c_snprintf (n : Nat) (s : String) : String := String.mk (s.data.take (n - 1))

/-- An uppercase hexadecimal digit. -/
def hexUpper (n : Nat) : Char := Char.ofNat (if n < 10 then 48 + n else 55 + n)

/-- The text of `snprintf(d, 10, "%02X ", b)` for a byte value `b`. -/
def format_02X (b : Nat) : String :=
  String.mk [hexUpper (b / 16 % 16), hexUpper (b % 16), Char.ofNat 32]

/-- The loop `for (i = 0; i < n; i++) nalu_data += "%02X " of p[base + i]`: the text
appended and the indices read. -/
def hex_dump (beyond : Nat → Byte) (data : List Byte) (base n : Nat) : String × List Nat :=
  (String.join ((List.range n).map (fun i => format_02X (peek beyond data (base + i)))),
   (List.range n).map (fun i => base + i))

/-- The loop `for (int i = 0; i < left_size; i++)` that looks for `00 00 00 01` when the
declared length is 1: `n` iterations remain, `tmp` is the index of the pointer `tmp`, `len`
is `tmp_nalu_len`.  The four comparisons are evaluated left to right and stop at the first
that fails.  The result is `tmp_nalu_len` and the indices read. -/
def annexb_scan (beyond : Nat → Byte) (data : List Byte) :
    Nat → Nat → Nat → List Nat → Nat × List Nat
  | 0, _, len, reads => (len, reads)
  | n + 1, tmp, len, reads =>
    if peek beyond data tmp ≠ 0 then
      annexb_scan beyond data n (tmp + 1) (len + 1) (reads ++ [tmp])
    else if peek beyond data (tmp + 1) ≠ 0 then
      annexb_scan beyond data n (tmp + 1) (len + 1) (reads ++ [tmp, tmp + 1])
    else if peek beyond data (tmp + 2) ≠ 0 then
      annexb_scan beyond data n (tmp + 1) (len + 1) (reads ++ [tmp, tmp + 1, tmp + 2])
    else if peek beyond data (tmp + 3) ≠ 1 then
      annexb_scan beyond data n (tmp + 1) (len + 1)
        (reads ++ [tmp, tmp + 1, tmp + 2, tmp + 3])
    else (len, reads ++ [tmp, tmp + 1, tmp + 2, tmp + 3])

/-- The local variables of `human_h2645_nalu` during the walk: the index of `p` in `data`,
`left_size`, the two strings, and the indices of `data` read so far, in order. -/
structure NaluWalk where
  p : Nat
  left_size : Int
  nalu_list : String
  nalu_data : String
  reads : List Nat
  deriving DecidableEq, Repr

/-- The part of the loop body of `human_h2645_nalu` that names and dumps one NALU, from
`if (codec_id == SrsVideoCodecIdAVC)` to the end of the `else if`: `len` is the length of
the NALU, `p2` the index of `p` after `p++`, `nalu_type0` the byte read as `nalu_type`. -/
def human_h2645_nalu_visit (k : SrsCodecIds) (oob : String) (beyond : Nat → Byte)
    (data : List Byte) (codec_id : Int) (w : NaluWalk) (len p2 nalu_type0 : Nat) : NaluWalk :=
  if codec_id = SrsVideoCodecIdAVC then
    let nalu_type := nalu_type0 &&& 0x1f
    let nalu_len := toInt32 ((len : Int) - 1)
    let tmp := c_snprintf 64
      (get_nalu_name k oob codec_id nalu_type ++ "(" ++ toString nalu_type ++ ") ")
    let n : Int :=
      if nalu_type = HEVC_NALU_SPS ∨ nalu_type = H264_NALU_PPS ∨ nalu_type = H264_NALU_SEI
          ∨ nalu_type = H264_NALU_KWAI then nalu_len
      else if nalu_len > 16 then 16 else nalu_len
    let dump := hex_dump beyond data (p2 + 1) n.toNat
    { w with
      nalu_list := w.nalu_list ++ tmp,
      nalu_data := w.nalu_data ++ get_nalu_name k oob codec_id nalu_type ++ ":" ++ dump.1
        ++ "\n",
      reads := w.reads ++ dump.2 }
  else if codec_id = k.SrsVideoCodecIdHEVC then
    let nalu_type := (nalu_type0 &&& 0x7e) >>> 1
    let nalu_len := toInt32 ((len : Int) - 2)
    let tmp := c_snprintf 64
      (get_nalu_name k oob codec_id nalu_type ++ "(" ++ toString nalu_type ++ ") ")
    let n : Int :=
      if nalu_type = HEVC_NALU_VPS ∨ nalu_type = HEVC_NALU_SPS ∨ nalu_type = HEVC_NALU_PPS
          ∨ nalu_type = HEVC_NALU_SUFFIX_SEI ∨ nalu_type = HEVC_NALU_PREFIX_SEI
          ∨ nalu_type = HEVC_NALU_KWAI then nalu_len
      else if nalu_len > 16 then 16 else nalu_len
    let dump := hex_dump beyond data p2 n.toNat
    { w with
      nalu_list := w.nalu_list ++ tmp,
      nalu_data := w.nalu_data ++ get_nalu_name k oob codec_id nalu_type ++ ":" ++ dump.1
        ++ "\n",
      reads := w.reads ++ dump.2 }
  else w

/-- The `while (left_size > 0)` loop of `human_h2645_nalu`, `fuel` bounding its iterations
(`none` when it ran out).  Pointers are 64 bits wide: `p += (len - 1)` adds the `uint32_t`
value of `len - 1`. -/
def human_h2645_nalu_loop (k : SrsCodecIds) (oob : String) (beyond : Nat → Byte)
    (data : List Byte) (codec_id : Int) : Nat → NaluWalk → Option NaluWalk
  | 0, _ => none
  | fuel + 1, w =>
    if ¬ (w.left_size > 0) then some w else
    if w.left_size < 4 then some w else
    let len0 : Nat :=
      (peek beyond data w.p <<< 24 ||| peek beyond data (w.p + 1) <<< 16
        ||| peek beyond data (w.p + 2) <<< 8 ||| peek beyond data (w.p + 3)) % 4294967296
    let reads1 := w.reads ++ [w.p, w.p + 1, w.p + 2, w.p + 3]
    let left1 := w.left_size - 4
    let p1 := w.p + 4
    let scan := annexb_scan beyond data left1.toNat p1 0 reads1
    let len : Nat := if len0 = 1 then scan.1 else len0
    let reads2 := if len0 = 1 then scan.2 else reads1
    if (len : Int) > left1 then
      some { w with p := p1, left_size := left1, reads := reads2 }
    else
    let nalu_type0 := peek beyond data p1
    let p2 := p1 + 1
    let w2 := human_h2645_nalu_visit k oob beyond data codec_id
      { w with p := p2, left_size := left1, reads := reads2 ++ [p1] } len p2 nalu_type0
    human_h2645_nalu_loop k oob beyond data codec_id fuel
      { w2 with
        p := p2 + toUInt32 ((len : Int) - 1),
        left_size := toInt32 (left1 - (len : Int)) }

/-- The string returned by `human_h2645_nalu` and the indices of `data` its loop read. -/
structure NaluReport where
  str : String
  reads : List Nat
  deriving DecidableEq, Repr

/-- The function `human_h2645_nalu(data, size)`; `none` when the fuel ran out in the
loop. -/
def human_h2645_nalu (fuel : Nat) (k : SrsCodecIds) (flv : SrsFlvVideo) (oob : String)
    (beyond : Nat → Byte) (data : List Byte) : Option NaluReport :=
  let codec_id := srs_utils_flv_video_codec_id data
  let avc_packet_type := srs_utils_flv_video_avc_packet_type flv data
  if codec_id ≠ SrsVideoCodecIdAVC ∧ codec_id ≠ k.SrsVideoCodecIdHEVC then
    some { str := "", reads := [] }
  else if avc_packet_type ≠ 1 then some { str := "", reads := [] }
  else
    match human_h2645_nalu_loop k oob beyond data codec_id fuel
        { p := 5, left_size := (data.length : Int) - 5, nalu_list := "NALU: ",
          nalu_data := "", reads := [] } with
    | none => none
    | some w => some { str := w.nalu_list ++ "\n" ++ w.nalu_data, reads := w.reads }

/-! ## The getters of the audio tag header -/

/-- Modelled from the spec: `SrsAudioCodecIdOpus` of `srs_kernel_codec.hpp`, which is not
under src/; spec 8: the source assigns sound-format code 13 to Opus. -/
def SrsAudioCodecIdOpus : Nat := 13

/-- Modelled from the spec: `SrsAudioOpusFrameTraitSamplingRate` of `srs_kernel_codec.hpp`,
which is not under src/; spec 8: Opus encodes a `SamplingRate` frame trait in the second
audio-tag byte, and `srs_human_flv_audio_aac_packet_type2string` names the trait 4 `SR`. -/
def SrsAudioOpusFrameTraitSamplingRate : Nat := 4

/-- The value of a `uint8_t` returned as `char` (a signed char). -/
def uint8_to_char (n : Nat) : Int := toInt8 (Fin.ofNat n)

/-- The function `srs_utils_flv_audio_sound_format(data, size)`. -/
def srs_utils_flv_audio_sound_format (data : List Byte) : Int :=
  if data.length < 1 then -1 else
  let sound_format : Nat := ((data.getD 0 0).val >>> 4) &&& 0x0f
  if sound_format > 15 ∨ sound_format = 12 then -1 else
  uint8_to_char sound_format

/-- The function `srs_utils_flv_audio_sound_rate(data, size)`. -/
def srs_utils_flv_audio_sound_rate (data : List Byte) : Int :=
  if data.length < 3 then -1 else
  let sound_rate : Nat := ((data.getD 0 0).val >>> 2) &&& 0x03
  -- For Opus, the first UINT8 is sampling rate.
  let sound_format : Nat := ((data.getD 0 0).val >>> 4) &&& 0x0f
  if sound_format ≠ SrsAudioCodecIdOpus then uint8_to_char sound_rate else
  -- The FrameTrait for AAC or Opus.
  let frame_trait : Nat := (data.getD 1 0).val
  if frame_trait &&& SrsAudioOpusFrameTraitSamplingRate = SrsAudioOpusFrameTraitSamplingRate then
    uint8_to_char (data.getD 2 0).val
  else uint8_to_char sound_rate

/-- The function `srs_utils_flv_audio_sound_size(data, size)`. -/
def srs_utils_flv_audio_sound_size (data : List Byte) : Int :=
  if data.length < 1 then -1 else
  uint8_to_char (((data.getD 0 0).val >>> 1) &&& 0x01)

/-- The function `srs_utils_flv_audio_sound_type(data, size)`. -/
def srs_utils_flv_audio_sound_type (data : List Byte) : Int :=
  if data.length < 1 then -1 else
  uint8_to_char ((data.getD 0 0).val &&& 0x01)

/-- The function `srs_utils_flv_audio_aac_packet_type(data, size)`; the `char` returned by
`srs_utils_flv_audio_sound_format` is stored into a `uint8_t`. -/
def srs_utils_flv_audio_aac_packet_type (data : List Byte) : Int :=
  if data.length < 2 then -1 else
  let sound_format : Nat := toUInt32 (srs_utils_flv_audio_sound_format data) % 256
  if sound_format ≠ SrsAudioCodecIdAAC ∧ sound_format ≠ SrsAudioCodecIdOpus then -1 else
  let frame_trait : Nat := (data.getD 1 0).val
  uint8_to_char frame_trait

/-! ## The size of the tag of an MP4 sample -/

/-- The function `srs_mp4_sizeof(mp4, s)`, an `int32_t`. -/
def srs_mp4_sizeof (k : SrsCodecIds) (s : srs_mp4_sample_t) : Int :=
  if s.handler_type = k.SrsMp4HandlerTypeSOUN then
    if s.codec = SrsAudioCodecIdAAC % 65536 then toInt32 ((s.nb_sample : Int) + 2)
    else toInt32 ((s.nb_sample : Int) + 1)
  else if s.codec = SrsVideoCodecIdAVC % 65536 then toInt32 ((s.nb_sample : Int) + 5)
  else toInt32 ((s.nb_sample : Int) + 1)

/-! ## The socket timeouts of the session -/

/-- The constants of `srs_kernel_utility.hpp` (not under src/, not fixed by the
specification) that the timeout code uses; they are parameters. -/
structure SrsUtimeConsts where
  SRS_UTIME_NO_TIMEOUT : Int
  SRS_UTIME_MILLISECONDS : Int

/-- The default socket timeout in ms: `SRS_SOCKET_DEFAULT_TMMS`. -/
def SRS_SOCKET_DEFAULT_TMMS : Int := 30 * 1000

/-- The members of `struct Context` that `srs_rtmp_set_timeout` and
`srs_rtmp_connect_server` read and write: the user set timeouts `stimeout` and `rtimeout`
of the context, in ms, and the timeouts of the socket `skt`; `skt_send_timeout` and
`skt_recv_timeout` are the values last given to `skt->set_send_timeout` and
`skt->set_recv_timeout`, `none` when they were never called. -/
structure TimeoutContext where
  stimeout : Int
  rtimeout : Int
  skt_send_timeout : Option Int := none
  skt_recv_timeout : Option Int := none
  deriving DecidableEq, Repr

/-- The timeout members after the constructor `Context()`:
`rtimeout = stimeout = SRS_UTIME_NO_TIMEOUT`. -/
def TimeoutContext.fresh (u : SrsUtimeConsts) : TimeoutContext :=
  { stimeout := u.SRS_UTIME_NO_TIMEOUT, rtimeout := u.SRS_UTIME_NO_TIMEOUT }

/-- The function `srs_rtmp_set_timeout(rtmp, recv_timeout_ms, send_timeout_ms)` on a
non-null `rtmp`. -/
def srs_rtmp_set_timeout (u : SrsUtimeConsts) (context : TimeoutContext)
    (recv_timeout_ms send_timeout_ms : Int) : SrsErrorCode × TimeoutContext :=
  let context1 := { context with stimeout := send_timeout_ms }
  let context2 := { context1 with rtimeout := recv_timeout_ms }
  let context3 := { context2 with
    skt_recv_timeout := some (context2.rtimeout * u.SRS_UTIME_MILLISECONDS) }
  let context4 := { context3 with
    skt_send_timeout := some (context3.stimeout * u.SRS_UTIME_MILLISECONDS) }
  (ERROR_SUCCESS, context4)

/-- The function `srs_rtmp_connect_server(rtmp)`; `connect` is the code returned by
`srs_librtmp_context_connect`, that is by the `connect` of the socket. -/
def srs_rtmp_connect_server (u : SrsUtimeConsts) (connect : SrsErrorCode)
    (context : TimeoutContext) : SrsErrorCode × TimeoutContext :=
  -- set timeout if user not set.
  let context1 :=
    if context.stimeout = u.SRS_UTIME_NO_TIMEOUT then
      { context with
        stimeout := SRS_SOCKET_DEFAULT_TMMS,
        skt_send_timeout := some (SRS_SOCKET_DEFAULT_TMMS * u.SRS_UTIME_MILLISECONDS) }
    else context
  let context2 :=
    if context1.rtimeout = u.SRS_UTIME_NO_TIMEOUT then
      { context1 with
        rtimeout := SRS_SOCKET_DEFAULT_TMMS,
        skt_recv_timeout := some (SRS_SOCKET_DEFAULT_TMMS * u.SRS_UTIME_MILLISECONDS) }
    else context1
  if connect ≠ ERROR_SUCCESS then (connect, context2) else (ERROR_SUCCESS, context2)

/-! ## Formatting a packet for humans -/

/-- The function `srs_human_flv_tag_type2string(type)`. -/
def srs_human_flv_tag_type2string (type : Int) : String :=
  if type = SRS_RTMP_TYPE_AUDIO then "Audio"
  else if type = SRS_RTMP_TYPE_VIDEO then "Video"
  else if type = SRS_RTMP_TYPE_SCRIPT then "Data"
  else "Unknown"

/-- The function `srs_human_flv_video_codec_id2string(codec_id)`. -/
def srs_human_flv_video_codec_id2string (codec_id : Int) : String :=
  if codec_id = 2 then "H.263"
  else if codec_id = 3 then "Screen"
  else if codec_id = 4 then "VP6"
  else if codec_id = 5 then "VP6Alpha"
  else if codec_id = 6 then "Screen2"
  else if codec_id = 7 then "H.264"
  else if codec_id = 12 then "HEVC"
  else "Unknown"

/-- The function `srs_human_flv_video_avc_packet_type2string(avc_packet_type)`. -/
def srs_human_flv_video_avc_packet_type2string (avc_packet_type : Int) : String :=
  if avc_packet_type = 0 then "SH"
  else if avc_packet_type = 1 then "Nalu"
  else if avc_packet_type = 2 then "SpsPpsEnd"
  else "Unknown"

/-- The function `srs_human_flv_video_frame_type2string(frame_type)`. -/
def srs_human_flv_video_frame_type2string (frame_type : Int) : String :=
  if frame_type = 1 then "I"
  else if frame_type = 2 then "P/B"
  else if frame_type = 3 then "DI"
  else if frame_type = 4 then "GI"
  else if frame_type = 5 then "VI"
  else "Unknown"

/-- The function `srs_human_flv_audio_sound_format2string(sound_format)`. -/
def srs_human_flv_audio_sound_format2string (sound_format : Int) : String :=
  if sound_format = 0 then "LinearPCM"
  else if sound_format = 1 then "ADPCM"
  else if sound_format = 2 then "MP3"
  else if sound_format = 3 then "LinearPCMLe"
  else if sound_format = 4 then "NellymoserKHz16"
  else if sound_format = 5 then "NellymoserKHz8"
  else if sound_format = 6 then "Nellymoser"
  else if sound_format = 7 then "G711APCM"
  else if sound_format = 8 then "G711MuPCM"
  else if sound_format = 9 then "Reserved"
  else if sound_format = 10 then "AAC"
  else if sound_format = 11 then "Speex"
  else if sound_format = 13 then "Opus"
  else if sound_format = 14 then "MP3KHz8"
  else if sound_format = 15 then "DeviceSpecific"
  else "Unknown"

/-- The function `srs_human_flv_audio_sound_rate2string(sound_rate)`. -/
def srs_human_flv_audio_sound_rate2string (sound_rate : Int) : String :=
  if sound_rate = 0 then "5.5KHz"
  else if sound_rate = 1 then "11KHz"
  else if sound_rate = 2 then "22KHz"
  else if sound_rate = 3 then "44KHz"
  else if sound_rate = 8 then "NB8kHz"
  else if sound_rate = 12 then "MB12kHz"
  else if sound_rate = 16 then "WB16kHz"
  else if sound_rate = 24 then "SWB24kHz"
  else if sound_rate = 48 then "FB48kHz"
  else "Unknown"

/-- The function `srs_human_flv_audio_sound_size2string(sound_size)`. -/
def srs_human_flv_audio_sound_size2string (sound_size : Int) : String :=
  if sound_size = 0 then "8bit"
  else if sound_size = 1 then "16bit"
  else "Unknown"

/-- The function `srs_human_flv_audio_sound_type2string(sound_type)`. -/
def srs_human_flv_audio_sound_type2string (sound_type : Int) : String :=
  if sound_type = 0 then "Mono"
  else if sound_type = 1 then "Stereo"
  else "Unknown"

/-- The function `srs_human_flv_audio_aac_packet_type2string(aac_packet_type)`. -/
def srs_human_flv_audio_aac_packet_type2string (aac_packet_type : Int) : String :=
  if aac_packet_type = 0 then "SH"
  else if aac_packet_type = 1 then "Raw"
  else if aac_packet_type = 2 then "RAW"
  else if aac_packet_type = 4 then "SR"
  else if aac_packet_type = 8 then "AL"
  else if aac_packet_type = 6 then "RAW|SR"
  else if aac_packet_type = 10 then "RAW|AL"
  else if aac_packet_type = 14 then "RAW|SR|AL"
  else "Unknown"

/-- A lower-case hexadecimal digit. -/
def hexLower (n : Nat) : Char := Char.ofNat (if n < 10 then 48 + n else 87 + n)

/-- The text of the conversion `0x%02x ` of a byte. -/
def format_0x02x (b : Nat) : String :=
  String.mk [Char.ofNat 48, Char.ofNat 120, hexLower (b / 16 % 16), hexLower (b % 16),
    Char.ofNat 32]

/-- The text of the conversion `%d` of an `int`. -/
def format_d (x : Int) : String := toString x

/-- The text of the conversion `%#x` of an `int`, printed as `unsigned int`. -/
def format_hash_x (x : Int) : String :=
  if toUInt32 x = 0 then "0" else "0x" ++ String.mk (Nat.toDigits 16 (toUInt32 x))

/-- The loop `for (i = 0; i < nb; i++) p += snprintf(sbytes+p, 40-p, "0x%02x ", data[i])`
with `n` iterations left; `sbytes` is the C string in the array `char sbytes[40]`. -/
def sbytes_loop (data : List Byte) : Nat → Nat → Nat → String → String
  | 0, _, _, sbytes => sbytes
  | n + 1, i, p, sbytes =>
    sbytes_loop data n (i + 1) (p + (format_0x02x (data.getD i 0).val).length)
      (String.mk (sbytes.data.take p) ++ c_snprintf (40 - p) (format_0x02x (data.getD i 0).val))

/-- The block that fills `sbytes`, with `nb = srs_min(8, size)`; `sbytes0` is the
indeterminate content of the array before the block. -/
def human_sbytes (sbytes0 : String) (data : List Byte) : String :=
  sbytes_loop data (min 8 data.length) 0 0 sbytes0

/-- What the formatter takes from outside src/ and from the machine: the fuel and the
parameters of `human_h2645_nalu`; `amf0 bytes` stands for `srs_amf0_parse` followed by
`srs_human_amf0_print` (`none` when the parse returns NULL, else the number of bytes parsed
and the printed text, both from `SrsAmf0Any`, which is not under src/); `error_value` gives
the `int` of an error code; `sbytes0` is the indeterminate initial content of `sbytes`. -/
structure FormatEnv where
  fuel : Nat
  k : SrsCodecIds
  flv : SrsFlvVideo
  oob : String
  beyond : Nat → Byte
  amf0 : List Byte → Option (Nat × String)
  error_value : SrsErrorCode → Int
  sbytes0 : String

/-- The indices of `buffer` written by `snprintf(buffer + off, n, ...)` when the formatted
text is `s`; `n` is converted to `size_t` (64 bits), and at most `n - 1` characters and the
terminator are written. -/
def snprintf_writes (off : Nat) (n : Int) (s : String) : List Nat :=
  let size : Nat := (n % 18446744073709551616).toNat
  if size = 0 then [] else List.range' off (min s.length (size - 1) + 1)

/-- The C string in `buffer` after `snprintf(buffer + off, n, ...)` when it held `text`
before; writes past the terminator of `text` leave the C string as it is. -/
def snprintf_at (text : String) (off : Nat) (n : Int) (s : String) : String :=
  let size : Nat := (n % 18446744073709551616).toNat
  if size = 0 then text
  else if off ≤ text.length then
    String.mk (text.data.take off ++ s.data.take (min s.length (size - 1)))
  else text

/-- The result of `srs_human_format_rtmp_packet`: the code returned, the C string left in
`buffer` and the indices of `buffer` written, in order. -/
structure FormatOut where
  ret : SrsErrorCode
  text : String
  writes : List Nat
  deriving DecidableEq, Repr

/-- The `while (nparsed < size)` loop of the script-data branch; `nb` is the local of that
name, `text` and `writes` the state of `buffer`.  `none` when the fuel ran out. -/
def script_data_loop (env : FormatEnv) (nb_buffer : Int) (data : List Byte) :
    Nat → Nat → Nat → String → List Nat → Option (Nat × String × List Nat)
  | 0, _, _, _, _ => none
  | fuel + 1, nparsed, nb, text, writes =>
    if ¬ (nparsed < data.length) then some (nb, text, writes) else
    match env.amf0 (data.drop nparsed) with
    | none => some (nb, text, writes)
    | some (nb_parsed_this, amf0_str) =>
      script_data_loop env nb_buffer data fuel (nparsed + nb_parsed_this)
        (nb + ("\n" ++ amf0_str).length - 1)
        (snprintf_at text nb (nb_buffer - (nb : Int)) ("\n" ++ amf0_str))
        (writes ++ snprintf_writes nb (nb_buffer - (nb : Int)) ("\n" ++ amf0_str))

/-- The function `srs_human_format_rtmp_packet(buffer, nb_buffer, type, timestamp, data,
size)` with `size = data.length`; `none` when the fuel ran out in one of its loops. -/
def srs_human_format_rtmp_packet (env : FormatEnv) (nb_buffer : Int) (type : Int)
    (timestamp : Nat) (data : List Byte) : Option FormatOut :=
  -- Initialize to empty NULL terminated string.
  let writes0 : List Nat := [0]
  let sbytes := human_sbytes env.sbytes0 data
  let size : Int := data.length
  let parsed := srs_utils_parse_timestamp env.flv timestamp type data 0
  let pts := parsed.2
  if parsed.1 ≠ ERROR_SUCCESS then
    let line := "Rtmp packet type=" ++ srs_human_flv_tag_type2string type ++ ", dts="
      ++ format_d (toInt32 timestamp) ++ ", size=" ++ format_d size ++ ", DecodeError, ("
      ++ sbytes ++ "), ret=" ++ format_d (env.error_value parsed.1)
    some { ret := parsed.1, text := snprintf_at "" 0 nb_buffer line,
           writes := writes0 ++ snprintf_writes 0 nb_buffer line }
  else if type = SRS_RTMP_TYPE_VIDEO then
    match human_h2645_nalu env.fuel env.k env.flv env.oob env.beyond data with
    | none => none
    | some nalu =>
      let line := "Video packet type=" ++ srs_human_flv_tag_type2string type ++ ", dts="
        ++ format_d (toInt32 timestamp) ++ ", pts=" ++ format_d (toInt32 pts) ++ ", size="
        ++ format_d size ++ ", "
        ++ srs_human_flv_video_codec_id2string (srs_utils_flv_video_codec_id data) ++ "("
        ++ srs_human_flv_video_avc_packet_type2string
            (srs_utils_flv_video_avc_packet_type env.flv data) ++ ","
        ++ srs_human_flv_video_frame_type2string (srs_utils_flv_video_frame_type env.flv data)
        ++ "), " ++ nalu.str ++ "\n(" ++ sbytes ++ ")"
      some { ret := ERROR_SUCCESS, text := snprintf_at "" 0 nb_buffer line,
             writes := writes0 ++ snprintf_writes 0 nb_buffer line }
  else if type = SRS_RTMP_TYPE_AUDIO then
    let line := "Audio packet type=" ++ srs_human_flv_tag_type2string type ++ ", dts="
      ++ format_d (toInt32 timestamp) ++ ", pts=" ++ format_d (toInt32 pts) ++ ", size="
      ++ format_d size ++ ", "
      ++ srs_human_flv_audio_sound_format2string (srs_utils_flv_audio_sound_format data) ++ "("
      ++ srs_human_flv_audio_sound_rate2string (srs_utils_flv_audio_sound_rate data) ++ ","
      ++ srs_human_flv_audio_sound_size2string (srs_utils_flv_audio_sound_size data) ++ ","
      ++ srs_human_flv_audio_sound_type2string (srs_utils_flv_audio_sound_type data) ++ ","
      ++ srs_human_flv_audio_aac_packet_type2string (srs_utils_flv_audio_aac_packet_type data)
      ++ "), (" ++ sbytes ++ ")"
    some { ret := ERROR_SUCCESS, text := snprintf_at "" 0 nb_buffer line,
           writes := writes0 ++ snprintf_writes 0 nb_buffer line }
  else if type = SRS_RTMP_TYPE_SCRIPT then
    let line := "Data packet type=" ++ srs_human_flv_tag_type2string type ++ ", time="
      ++ format_d (toInt32 timestamp) ++ ", size=" ++ format_d size ++ ", (" ++ sbytes ++ ")"
    let nb : Nat := line.length
    match script_data_loop env nb_buffer data env.fuel 0 nb (snprintf_at "" 0 nb_buffer line)
        (writes0 ++ snprintf_writes 0 nb_buffer line) with
    | none => none
    | some (nb1, text, writes) =>
      -- buffer[nb] = 0
      some { ret := ERROR_SUCCESS,
             text := if nb1 < text.length then String.mk (text.data.take nb1) else text,
             writes := writes ++ [nb1] }
  else
    let line := "Rtmp packet type=" ++ format_hash_x type ++ ", dts="
      ++ format_d (toInt32 timestamp) ++ ", pts=" ++ format_d (toInt32 pts) ++ ", size="
      ++ format_d size ++ ", (" ++ sbytes ++ ")"
    some { ret := ERROR_SUCCESS, text := snprintf_at "" 0 nb_buffer line,
           writes := writes0 ++ snprintf_writes 0 nb_buffer line }

/-! ## Notions used to state the properties of the formatter -/

/-- The hex part of a formatted line as the specification words it: the first min(8, size)
bytes each as `0x%02x `, cut to the 39 characters that the 40-byte scratch buffer holds. -/
def spec_hex (data : List Byte) : String :=
  String.mk
    (((data.take 8).map (fun b => (format_0x02x b.val).data)).flatten.take 39)

/-- The line of an audio packet as the specification words it:
`Audio packet type=Audio, dts=<d>, pts=<p>, size=<s>, <fmt>(<rate>,<size>,<chan>,<aac_pkt>),
(<hex>)` with d = p = timestamp and s = size. -/
def spec_audio_line (timestamp : Nat) (data : List Byte) : String :=
  "Audio packet type=Audio, dts=" ++ toString timestamp ++ ", pts=" ++ toString timestamp
    ++ ", size=" ++ toString data.length ++ ", "
    ++ srs_human_flv_audio_sound_format2string (srs_utils_flv_audio_sound_format data) ++ "("
    ++ srs_human_flv_audio_sound_rate2string (srs_utils_flv_audio_sound_rate data) ++ ","
    ++ srs_human_flv_audio_sound_size2string (srs_utils_flv_audio_sound_size data) ++ ","
    ++ srs_human_flv_audio_sound_type2string (srs_utils_flv_audio_sound_type data) ++ ","
    ++ srs_human_flv_audio_aac_packet_type2string (srs_utils_flv_audio_aac_packet_type data)
    ++ "), (" ++ spec_hex data ++ ")"

/-! ## The frame size of an ADTS header -/

/-- The function `srs_aac_adts_frame_size(aac_raw_data, ac_raw_size)`.  The bytes 3, 4 and
5 are read as `char` into `int16_t`, so they are sign-extended; the shifts and the masks
are taken on the 32-bit patterns of the promoted `int`s, `>>` being the arithmetic
shift. -/
def srs_aac_adts_frame_size (aac_raw_data : List Byte) : Int :=
  if !srs_aac_is_adts aac_raw_data then -1 else
  -- adts always 7bytes.
  if aac_raw_data.length ≤ 7 then -1 else
  -- last 2bits
  let ch3 : Int := toInt8 (aac_raw_data.getD 3 0)
  -- whole 8bits
  let ch4 : Int := toInt8 (aac_raw_data.getD 4 0)
  -- first 3bits
  let ch5 : Int := toInt8 (aac_raw_data.getD 5 0)
  toInt32 ((((toUInt32 ch3 <<< 11) % 4294967296 &&& 0x1800)
    ||| ((toUInt32 ch4 <<< 3) % 4294967296 &&& 0x07f8)
    ||| (toUInt32 (ch5 >>> 5) &&& 0x0007) : Nat) : Int)

/-! ## strlcpy -/

/-- The loop `while (--n != 0) { if ((*d++ = *s++) == 0) break; }` of `strlcpy`.  The first
argument is the value of `n` after the decrement, `s` is the index `s - src`, which equals
`d - dst`, and `dst` lists the bytes stored so far at `dst[0]`, `dst[1]`, ...; the result is
`n`, `s` and `dst` after the loop.  The list `src` holds the bytes of the source: a read
past the list is the terminating NUL. -/
def strlcpy_copy (src : List Byte) : Nat → Nat → List Byte → Nat × Nat × List Byte
  | 0, s, dst => (0, s, dst)
  | n + 1, s, dst =>
    let c := src.getD s 0
    if c = 0 then (n + 1, s + 1, dst ++ [c]) else strlcpy_copy src n (s + 1) (dst ++ [c])

/-- The loop `while (*s++) ;` of `strlcpy` on the bytes of the source from `s` on: the
number of times `s` is incremented. -/
def strlcpy_skip : List Byte → Nat
  | [] => 1
  | c :: rest => if c = 0 then 1 else 1 + strlcpy_skip rest

/-- The result of `strlcpy`: the value returned and the bytes stored at `dst[0]`, `dst[1]`,
..., in this order. -/
structure StrlcpyResult where
  ret : Nat
  dst : List Byte
  deriving DecidableEq, Repr

/-- The function `strlcpy(dst, src, siz)`. -/
def strlcpy (src : List Byte) (siz : Nat) : StrlcpyResult :=
  -- Copy as many bytes as will fit
  let r := if siz ≠ 0 then strlcpy_copy src (siz - 1) 0 [] else (siz, 0, [])
  -- Not enough room in dst, add NUL and traverse rest of src
  if r.1 = 0 then
    let dst := if siz ≠ 0 then r.2.2 ++ [0] else r.2.2
    let s := r.2.1 + strlcpy_skip (src.drop r.2.1)
    { ret := s - 1, dst := dst }
  else
    { ret := r.2.1 - 1, dst := r.2.2 }

/-- The C string that the bytes `src` hold: the bytes before the first NUL. -/
def c_str (src : List Byte) : List Byte := src.takeWhile (fun c => decide (c ≠ 0))

/-! ## Notions used to state the properties of the NALU inspector -/

/-- The AVCC or HVCC payload of a NALU video tag: every NALU prefixed by its big-endian u32
length. -/
def nalu_payload : List (List Byte) → List Byte
  | [] => []
  | n :: rest => u32be n.length ++ n ++ nalu_payload rest

/-- The NALU type as the specification words it: `byte0 & 0x1F` for H.264 and
`(byte0 & 0x7E) >> 1` for HEVC. -/
def spec_nalu_type (avc : Bool) (n : List Byte) : Nat :=
  if avc then (n.headD 0).val &&& 0x1f else ((n.headD 0).val &&& 0x7e) >>> 1

/-- The NALU name table of the codec. -/
def nalu_name_table (avc : Bool) : List String :=
  if avc then H264_NALU_NAME else HEVC_NALU_NAME

/-- The entry `<name>(<type>) ` of one NALU as the specification words it; the name is the
entry of the type in the name table of the codec, and `Unkown` for a type past the table. -/
def spec_nalu_entry (avc : Bool) (n : List Byte) : String :=
  (nalu_name_table avc).getD (spec_nalu_type avc n) "Unkown" ++ "("
    ++ toString (spec_nalu_type avc n) ++ ") "

/-- The entries of the NALUs of a payload, in payload order. -/
def spec_nalu_list (avc : Bool) : List (List Byte) → String
  | [] => ""
  | n :: rest => spec_nalu_entry avc n ++ spec_nalu_list avc rest

/-! ## Notions used to state the properties of the write path -/

/-- The packet `srs_write_h264_sps_pps` hands over for the configuration record `sh`: a
video packet at `dts` whose data is `17 00 00 00 00` followed by `sh`. -/
def avc_sequence_header_packet (sh : List Byte) (dts : Nat) : RtmpPacket :=
  { type := SRS_RTMP_TYPE_VIDEO, timestamp := dts, data := [0x17, 0x00, 0x00, 0x00, 0x00] ++ sh }

/-- The packet `srs_write_h264_ipb_frame` hands over for the muxed NALU `ibp`: a video
packet at `dts` whose data is the header byte `frame_type<<4 | 7`, the packet type 1, the
composition time `pts - dts` and `ibp`. -/
def avc_nalu_packet (ibp : List Byte) (frame_type dts pts : Nat) : RtmpPacket :=
  { type := SRS_RTMP_TYPE_VIDEO, timestamp := dts,
    data := [Fin.ofNat (frame_type * 16 ||| 7), 0x01]
      ++ u24be (toUInt32 ((pts : Int) - (dts : Int))) ++ ibp }

/-- A video packet of codec AVC whose AVC packet type byte is 0 (sequence header). -/
def is_avc_sequence_header (p : RtmpPacket) : Bool :=
  p.type == SRS_RTMP_TYPE_VIDEO &&
    match p.data with
    | b0 :: b1 :: _ => (b0.val &&& 0x0f) == 7 && b1.val == 0
    | _ => false

/-- A video packet of codec AVC whose AVC packet type byte is 1 (NALU). -/
def is_avc_nalu (p : RtmpPacket) : Bool :=
  p.type == SRS_RTMP_TYPE_VIDEO &&
    match p.data with
    | b0 :: b1 :: _ => (b0.val &&& 0x0f) == 7 && b1.val == 1
    | _ => false

/-- Every AVC NALU packet of the list has an AVC sequence-header packet before it. -/
def NaluAfterSequenceHeader (sent : List RtmpPacket) : Prop :=
  ∀ i p, sent[i]? = some p → is_avc_nalu p = true →
    ∃ q ∈ sent.take i, is_avc_sequence_header q = true

/-- The invariant of the H.264 write path: NALU packets come after a sequence header, and when the flag
`h264_sps_pps_sent` is set a sequence header has been handed over. -/
def H264Inv (context : Context) : Prop :=
  NaluAfterSequenceHeader context.sent
    ∧ (context.h264_sps_pps_sent = true → ∃ q ∈ context.sent, is_avc_sequence_header q = true)

/-- One call `srs_h264_write_raw_frames(rtmp, frames, frames_size, dts, pts)` of a session,
with the bound on the loop iterations it is observed for. -/
structure H264Call where
  fuel : Nat
  frames : List Byte
  dts : Nat
  pts : Nat
  deriving DecidableEq, Repr

/-- The context after a sequence of `srs_h264_write_raw_frames` calls. -/
def h264_session (rtmp : SrsRtmpClient) (avc : SrsRawH264Stream) : Context → List H264Call → Context
  | context, [] => context
  | context, c :: cs =>
    h264_session rtmp avc
      (srs_h264_write_raw_frames c.fuel rtmp avc context c.frames c.dts c.pts).2 cs

/-- The stream demuxes, by successive `annexb_demux` calls, into exactly the given frames and
is empty after the last one. -/
def DemuxesTo (avc : SrsRawH264Stream) : SrsBuffer → List (List Byte) → Prop
  | stream, [] => stream.empty = true
  | stream, frame :: frames =>
    stream.empty = false ∧ ∃ stream1, avc.annexb_demux stream = .ok (frame, stream1)
      ∧ DemuxesTo avc stream1 frames

/-- The codes of `srs_write_h264_raw_frame` applied to the frames one after the other, and
the context after the last one. -/
def write_h264_frames (rtmp : SrsRtmpClient) (avc : SrsRawH264Stream) (dts pts : Nat) :
    Context → List (List Byte) → List SrsErrorCode × Context
  | context, [] => ([], context)
  | context, frame :: frames =>
    let r := srs_write_h264_raw_frame rtmp avc context frame dts pts
    let rest := write_h264_frames rtmp avc dts pts r.2 frames
    (r.1 :: rest.1, rest.2)

/-- The last code of the list that is not success, `start` if there is none. -/
def last_error_code (start : SrsErrorCode) (codes : List SrsErrorCode) : SrsErrorCode :=
  ((codes.filter (fun c => c != ERROR_SUCCESS)).getLast?).getD start

/-- One of the three codes that `srs_h264_write_raw_frames` continues after. -/
def is_recoverable (c : SrsErrorCode) : Bool :=
  srs_h264_is_dvbsp_error c || srs_h264_is_duplicated_sps_error c
    || srs_h264_is_duplicated_pps_error c

/-- The codec description after the override by the user-specified values in
`srs_write_aac_adts_frames`. -/
def user_codec (codec : SrsRawAacStreamCodec) (sound_format sound_rate sound_size sound_type : Nat) :
    SrsRawAacStreamCodec :=
  { codec with
    sound_format := sound_format, sound_rate := sound_rate, sound_size := sound_size,
    sound_type := sound_type }

/-- The AAC audio packet at `timestamp` with the header byte of sound format 10 and the given
rate, size and type, the given `aac_packet_type` byte and payload. -/
def aac_packet (sound_rate sound_size sound_type aac_packet_type : Nat) (payload : List Byte)
    (timestamp : Nat) : RtmpPacket :=
  { type := SRS_RTMP_TYPE_AUDIO, timestamp := timestamp,
    data := [Fin.ofNat (10 * 16 + sound_rate % 4 * 4 + sound_size % 2 * 2 + sound_type % 2),
             Fin.ofNat aac_packet_type] ++ payload }

/-- The stream demuxes, by successive `adts_demux` calls, into exactly the given raw frames
(each with its codec description) and is empty after the last one. -/
def AdtsDemuxesTo (aac : SrsRawAacStream) :
    SrsBuffer → List (List Byte × SrsRawAacStreamCodec) → Prop
  | stream, [] => stream.empty = true
  | stream, fc :: frames =>
    stream.empty = false ∧ ∃ stream1, aac.adts_demux stream = .ok (fc.1, fc.2, stream1)
      ∧ AdtsDemuxesTo aac stream1 frames

/-- What `srs_rtmp_read_packet` reports for a message that is not an aggregate: audio and
video with the header timestamp, AMF0/AMF3 data as type 18, any other message with its
message type; the payload and its size are handed over. -/
def packet_of (msg : SrsCommonMessage) : ReadPacket :=
  if msg.header.is_audio then
    { type := SRS_RTMP_TYPE_AUDIO, timestamp := toUInt32 msg.header.timestamp,
      data := msg.payload, size := msg.size }
  else if msg.header.is_video then
    { type := SRS_RTMP_TYPE_VIDEO, timestamp := toUInt32 msg.header.timestamp,
      data := msg.payload, size := msg.size }
  else if msg.header.is_amf0_data || msg.header.is_amf3_data then
    { type := SRS_RTMP_TYPE_SCRIPT, data := msg.payload, size := msg.size }
  else
    { type := msg.header.message_type, data := msg.payload, size := msg.size }

/-- The results of `n` successive calls of `srs_rtmp_read_packet` (each with the given
fuel), and the context after the last one. -/
def read_packets (rtmp : SrsRtmpClient) (fuel : Nat) :
    Nat → Context → List (Option SrsErrorCode × ReadPacket) × Context
  | 0, context => ([], context)
  | n + 1, context =>
    let r := srs_rtmp_read_packet rtmp fuel context
    let rest := read_packets rtmp fuel n r.2.2
    ((r.1, r.2.1) :: rest.1, rest.2)

/-! ## An instance of the codec helpers and of the socket -/

/-- Length of the Annex-B start code (`00 00 01` or `00 00 00 01`) the bytes begin with, 0
when there is none. -/
def startcode_size (s : List Byte) : Nat :=
  if s.take 3 = [0, 0, 1] then 3 else if s.take 4 = [0, 0, 0, 1] then 4 else 0

/-- The bytes before the next start code, and the bytes from that start code on. -/
def until_startcode : List Byte → List Byte × List Byte
  | [] => ([], [])
  | b :: r =>
    if startcode_size (b :: r) ≠ 0 then ([], b :: r)
    else ((b :: (until_startcode r).1), (until_startcode r).2)

/-- Modelled from the spec: `SrsRawH264Stream::annexb_demux` (`srs_raw_avc.cpp` is not
under src/); spec 4.7: split on 3- or 4-byte start codes.  The frame is what follows the
start code at the cursor up to the next start code; a stream that does not begin with a
start code is an error. -/
def spec_annexb_demux (stream : SrsBuffer) : Except SrsErrorCode (List Byte × SrsBuffer) :=
  if startcode_size stream.left = 0 then .error (ERROR_OTHER 1)
  else
    .ok ((until_startcode (stream.left.drop (startcode_size stream.left))).1,
         ⟨(until_startcode (stream.left.drop (startcode_size stream.left))).2⟩)

/-- Big-endian encoding of the low 16 bits of `n`. -/
def u16be (n : Nat) : List Byte := [Fin.ofNat (n / 256), Fin.ofNat n]

/-- Modelled from the spec: an instance of the methods of `SrsRawH264Stream`
(`srs_raw_avc.cpp` is not under src/), used for the closed theorems.  Spec 4.7 and
glossary: the SPS and PPS are the NALUs themselves, the AVCDecoderConfigurationRecord is
a length-prefixed packaging of SPS and PPS, an IPB body is the u32-length-prefixed NALU. -/
def specAvc : SrsRawH264Stream :=
  { annexb_demux := spec_annexb_demux
    sps_demux := fun frame => .ok frame
    pps_demux := fun frame => .ok frame
    mux_sequence_header := fun sps pps _ _ =>
      .ok (u16be sps.length ++ sps ++ u16be pps.length ++ pps)
    mux_ipb_frame := fun frame => .ok (u32be frame.length ++ frame) }

/-- A socket on which every send succeeds and no message arrives. -/
def okClient : SrsRtmpClient :=
  { send := fun _ _ => ERROR_SUCCESS
    recv := fun _ => .error (ERROR_OTHER 2) }

/-- Modelled from the spec: `SrsRawAacStream::adts_demux` (`srs_raw_avc.cpp` is not under
src/); spec 4.7: match the sync word, extract `profile`, `sampling_frequency_index`,
`channel_configuration` and `frame_length` from the 7-byte ADTS header (the frame length
from the bytes 3, 4, 5 as `srs_aac_adts_frame_size` does) and emit the raw frame that
follows the header. -/
def spec_adts_demux (stream : SrsBuffer) :
    Except SrsErrorCode (List Byte × SrsRawAacStreamCodec × SrsBuffer) :=
  if !srs_aac_startswith_adts stream then .error ERROR_AAC_REQUIRED_ADTS else
  match stream.left with
  | _ :: _ :: b2 :: b3 :: b4 :: b5 :: _ :: rest =>
    let frame_length := (b3.val % 4) * 2048 + b4.val * 8 + b5.val / 32
    if frame_length < 7 ∨ rest.length < frame_length - 7 then .error (ERROR_OTHER 3) else
    .ok (rest.take (frame_length - 7),
         { profile := b2.val / 64, sampling_frequency_index := b2.val / 4 % 16,
           channel_configuration := b2.val % 2 * 4 + b3.val / 64,
           frame_length := frame_length },
         ⟨rest.drop (frame_length - 7)⟩)
  | _ => .error (ERROR_OTHER 3)

/-- Modelled from the spec: an instance of the methods of `SrsRawAacStream`
(`srs_raw_avc.cpp` is not under src/), used for the closed theorems; spec 4.7: the 2-byte
AudioSpecificConfig is computed from `profile`, `sample_rate_idx` and `channels`. -/
def specAac : SrsRawAacStream :=
  { adts_demux := spec_adts_demux
    mux_sequence_header := fun codec =>
      .ok [Fin.ofNat ((codec.profile + 1) * 8 + codec.sampling_frequency_index / 2),
           Fin.ofNat (codec.sampling_frequency_index % 2 * 128
             + codec.channel_configuration * 8)] }

/-- Modelled from the spec: an instance of the predicates of `SrsFlvVideo`
(`srs_kernel_flv.cpp` is not under src/), used for the closed theorems.  Spec 4.6:
`sh(body)` holds when `body[0] & 0x0F` is a known codec id (AVC/HEVC/AV1) and
`body[1] == 0`; AVC is 7 (spec 4.7), the ids of HEVC and AV1 are parameters. -/
def specFlvVideo (hevc_id av1_id : Nat) : SrsFlvVideo :=
  { h264 := fun data =>
      match data with
      | b0 :: _ => (b0.val &&& 0x0f) == 7
      | [] => false
    hevc := fun data =>
      match data with
      | b0 :: _ => (b0.val &&& 0x0f) == hevc_id
      | [] => false
    sh := fun data =>
      match data with
      | b0 :: b1 :: _ =>
        ((b0.val &&& 0x0f) == 7 || (b0.val &&& 0x0f) == hevc_id || (b0.val &&& 0x0f) == av1_id)
          && b1.val == 0
      | _ => false }

/-! ## Concrete inputs used by the closed theorems -/

/-- A message that is already queued in the examples. -/
def queuedAudio : SrsCommonMessage :=
  { header := { message_type := 8, payload_length := 1, timestamp := 7, stream_id := 1 },
    size := 1, payload := some [0xaf] }

/-- Two sub-records: a video tag with a two-byte body and stream id field 5, and an audio
tag with an empty body. -/
def twoRecords : List SubRecord :=
  [ { tagType := 9, timestamp := 500, streamId := 5, body := [0x17, 0x01], previousTagSize := 13 },
    { tagType := 8, timestamp := 520, streamId := 0, body := [], previousTagSize := 11 } ]

/-- An SPS NALU. -/
def spsNalu : List Byte := [0x67, 0x42, 0x00, 0x1f]

/-- A PPS NALU. -/
def ppsNalu : List Byte := [0x68, 0xce, 0x3c, 0x80]

/-- An IDR NALU. -/
def idrNalu : List Byte := [0x65, 0x88, 0x84]

/-- The Annex-B batch `00 00 00 01 <sps> 00 00 00 01 <pps> 00 00 00 01 <idr>`. -/
def spsPpsIdrBatch : List Byte :=
  [0, 0, 0, 1] ++ spsNalu ++ [0, 0, 0, 1] ++ ppsNalu ++ [0, 0, 0, 1] ++ idrNalu

/-- The Annex-B batch `00 00 00 01 <idr>`. -/
def idrBatch : List Byte := [0, 0, 0, 1] ++ idrNalu

/-- A session in which a sequence header was sent and a new SPS was stored since. -/
def spsChangedContext : Context :=
  { h264_sps := spsNalu, h264_pps := ppsNalu, h264_sps_pps_sent := true,
    h264_sps_changed := true,
    sent := [avc_sequence_header_packet [0x01] 0] }

/-- The Annex-B batch `<sps> <sps> <pps> <idr>`, each NALU after a 4-byte start code. -/
def spsSpsPpsIdrBatch : List Byte :=
  [0, 0, 0, 1] ++ spsNalu ++ [0, 0, 0, 1] ++ spsNalu ++ [0, 0, 0, 1] ++ ppsNalu
    ++ [0, 0, 0, 1] ++ idrNalu

/-- Two ADTS frames (AAC-LC, 44100 Hz, stereo) with the raw payloads `21 10` and `21 20`. -/
def twoAdtsFrames : List Byte :=
  [0xff, 0xf1, 0x50, 0x80, 0x01, 0x3f, 0xfc, 0x21, 0x10,
   0xff, 0xf1, 0x50, 0x80, 0x01, 0x3f, 0xfc, 0x21, 0x20]

/-- The codec description `spec_adts_demux` extracts from the frames of `twoAdtsFrames`. -/
def lcStereoCodec : SrsRawAacStreamCodec :=
  { profile := 1, sampling_frequency_index := 4, channel_configuration := 2, frame_length := 9 }

/-- A socket whose first `recv_message` yields the aggregate of `twoRecords` (header
timestamp 1000, stream id 1) and on which nothing arrives afterwards. -/
def aggregateClient : SrsRtmpClient :=
  { send := fun _ _ => ERROR_SUCCESS
    recv := fun n =>
      if n = 0 then .ok (some (aggregateMessage 1000 1 twoRecords)) else .error (ERROR_OTHER 2) }

/-- Two sub-records: an audio tag, and a tag of type 22 (aggregate) with an empty body. -/
def nestedRecords : List SubRecord :=
  [ { tagType := 8, timestamp := 0, streamId := 0, body := [0xaf, 0x01], previousTagSize := 13 },
    { tagType := 22, timestamp := 0, streamId := 0, body := [], previousTagSize := 11 } ]

/-- A socket whose first `recv_message` yields the aggregate of `nestedRecords` and whose
later ones fail. -/
def nestedClient : SrsRtmpClient :=
  { send := fun _ _ => ERROR_SUCCESS
    recv := fun n =>
      if n = 0 then .ok (some (aggregateMessage 0 1 nestedRecords)) else .error (ERROR_OTHER 2) }

/-- A non-IDR (P) NALU. -/
def nonIdrNalu : List Byte := [0x41, 0x9a, 0x02]

/-- A session in which the SPS and PPS of `spsNalu`, `ppsNalu` are stored and a sequence
header was sent, with one message queued. -/
def sentContext : Context :=
  { msgs := [queuedAudio], stream_id := 1, h264_sps := spsNalu, h264_pps := ppsNalu,
    h264_sps_pps_sent := true, aac_specific_config := [0x12, 0x10],
    sent := [avc_sequence_header_packet [0x01] 0] }

/-- An SPS NALU that differs from `spsNalu`. -/
def otherSpsNalu : List Byte := [0x67, 0x64, 0x00, 0x28]

/-- A PPS NALU that differs from `ppsNalu`. -/
def otherPpsNalu : List Byte := [0x68, 0xee, 0x3c, 0x80]

/-- The codec ids used in the closed theorems: HEVC 12, AV1 13, and the handler type
`soun`. -/
def specIds : SrsCodecIds :=
  { SrsVideoCodecIdHEVC := 12, SrsVideoCodecIdAV1 := 13, SrsMp4HandlerTypeSOUN := 0x736f756e }

/-- Memory past the end of a buffer that holds `0xAA` everywhere. -/
def beyondAA : Nat → Byte := fun _ => 0xaa

/-- An H.264 NALU tag with two NALUs: an end-of-sequence NALU of one byte (`0A`) and an IDR
NALU of two bytes (`65 88`), each after its 4-byte length. -/
def eosIdrTag : List Byte :=
  [0x17, 0x01, 0x00, 0x00, 0x00,
   0x00, 0x00, 0x00, 0x01, 0x0a,
   0x00, 0x00, 0x00, 0x02, 0x65, 0x88]

/-- An H.264 NALU tag with two NALUs: an SPS of 4 bytes and an IDR of 3 bytes. -/
def spsIdrTag : List Byte :=
  [0x17, 0x01, 0x00, 0x00, 0x00] ++ u32be 4 ++ spsNalu ++ u32be 3 ++ idrNalu

/-- An MP4 audio sample: AAC (codec 10), sample rate index 3, 16 bits, stereo, raw frame. -/
def aacSample : srs_mp4_sample_t :=
  { handler_type := 0x736f756e, dts := 1000, pts := 1000, frame_trait := 1, codec := 10,
    sample_rate := 3, channels := 1, sound_bits := 1, sample := [0x21, 0x10] }

/-- An MP4 video sample: an H.264 inter frame with dts 1000 and pts 1040. -/
def avcSample : srs_mp4_sample_t :=
  { handler_type := 0x76696465, dts := 1000, pts := 1040, frame_type := 2, frame_trait := 1,
    codec := 7, sample := [0x00, 0x00, 0x00, 0x01, 0x41] }

/-- The 5-byte prelude of an H.264 key frame NALU tag with composition time 0. -/
def avcNaluPrelude : List Byte := [0x17, 0x01, 0x00, 0x00, 0x00]

/-- An H.264 SPS NALU of 20 bytes: the header `67` and the body `01 02 .. 13`. -/
def longSpsNalu : List Byte :=
  [0x67, 0x01, 0x02, 0x03, 0x04, 0x05, 0x06, 0x07, 0x08, 0x09, 0x0a, 0x0b, 0x0c, 0x0d, 0x0e,
   0x0f, 0x10, 0x11, 0x12, 0x13]

/-- An H.264 NALU tag with one NALU, the SPS of 20 bytes. -/
def longSpsTag : List Byte := avcNaluPrelude ++ nalu_payload [longSpsNalu]

/-- An MP4 video sample: an HEVC inter frame with dts 1000 and pts 1040. -/
def hevcSample : srs_mp4_sample_t :=
  { handler_type := 0x76696465, dts := 1000, pts := 1040, frame_type := 2, frame_trait := 1,
    codec := 12, sample := [0x00, 0x00, 0x00, 0x01, 0x02] }

/-- An MP4 video sample: an AV1 inter frame with dts 1000 and pts 1040. -/
def av1Sample : srs_mp4_sample_t :=
  { handler_type := 0x76696465, dts := 1000, pts := 1040, frame_type := 2, frame_trait := 1,
    codec := 13, sample := [0x00, 0x00, 0x00, 0x01, 0x02] }

/-- An H.264 NALU tag of 9 bytes whose payload is the length prefix `00 00 00 00`. -/
def zeroLenTag : List Byte := avcNaluPrelude ++ [0x00, 0x00, 0x00, 0x00]

/-- An H.264 NALU tag with one NALU of type 12 (filler data), `0C 00`. -/
def fillerTag : List Byte := avcNaluPrelude ++ nalu_payload [[0x0c, 0x00]]

/-- An HEVC NALU tag with one NALU of type 41 (header bytes `52 01`). -/
def hevcType41Tag : List Byte := [0x1c, 0x01, 0x00, 0x00, 0x00] ++ nalu_payload [[0x52, 0x01, 0x00]]

/-- A string standing for what is found in memory right after a name table. -/
def pastTable : String := "PAST-THE-TABLE"

/-- The usual values of the time constants: no timeout is -1, a millisecond is 1000 us. -/
def specUtime : SrsUtimeConsts :=
  { SRS_UTIME_NO_TIMEOUT := -1, SRS_UTIME_MILLISECONDS := 1000 }

/-- An H.264 NALU tag of 13 bytes whose payload starts with the length prefix
`00 00 00 01` and ends with the NALU `41 00 00 00`. -/
def annexbZerosTag : List Byte := avcNaluPrelude ++ [0x00, 0x00, 0x00, 0x01, 0x41, 0x00, 0x00, 0x00]

/-- An environment of the formatter: the codec helpers of the specification, an AMF0 parser
that rejects every input, error values 0 for success and 1 otherwise. -/
def plainEnv : FormatEnv :=
  { fuel := 8, k := specIds, flv := specFlvVideo 12 13, oob := pastTable, beyond := beyondAA,
    amf0 := fun _ => none,
    error_value := fun c => if c = ERROR_SUCCESS then 0 else 1,
    sbytes0 := "" }

/-- An AAC raw audio tag: `AF 01` and two bytes of payload. -/
def aacTag : List Byte := [0xaf, 0x01, 0x21, 0x10]

/-- An AAC raw audio tag of 10 bytes. -/
def aacLongTag : List Byte := [0xaf, 0x01, 0x21, 0x10, 0x04, 0x60, 0x8c, 0x1c, 0xff, 0xfe]

/-- An ADTS header followed by one byte: sync word, frame length field `3 FF E0`, that is
8191. -/
def adtsMaxFrame : List Byte := [0xff, 0xf1, 0x50, 0x83, 0xff, 0xe0, 0x00, 0x00]

/-- A session in which a sequence header was sent and a new PPS was stored since. -/
def ppsChangedContext : Context :=
  { h264_sps := spsNalu, h264_pps := ppsNalu, h264_sps_pps_sent := true,
    h264_pps_changed := true,
    sent := [avc_sequence_header_packet [0x01] 0] }

/-- A session in which the batch `<sps> <pps> <idr>` was written at dts 0 on a fresh
session. -/
def afterBatchContext : Context :=
  { h264_sps := spsNalu, h264_pps := ppsNalu, h264_sps_pps_sent := true,
    sent := [avc_sequence_header_packet
               (u16be spsNalu.length ++ spsNalu ++ u16be ppsNalu.length ++ ppsNalu) 0,
             avc_nalu_packet (u32be idrNalu.length ++ idrNalu) 1 0 0] }

/-- The payload of an aggregate: the two records of `twoRecords` and the first 12 bytes of
a third one. -/
def truncatedPayload : List Byte := aggregatePayload twoRecords ++ (tsRecord 540).encode.take 12

/-- An aggregate message whose third sub-record is truncated. -/
def truncatedAggregate : SrsCommonMessage :=
  { header := { message_type := 22, payload_length := truncatedPayload.length,
                timestamp := 1000 },
    size := truncatedPayload.length,
    payload := some truncatedPayload }

/-- A command message (type 20) with header timestamp 777. -/
def commandMessage : SrsCommonMessage :=
  { header := { message_type := 20, payload_length := 1, timestamp := 777 },
    size := 1, payload := some [0x02] }

/-- An AMF3 data message (type 15) with header timestamp 777. -/
def amf3Message : SrsCommonMessage :=
  { header := { message_type := 15, payload_length := 1, timestamp := 777 },
    size := 1, payload := some [0x02] }

/-! # Theorems -/

/-! ## Lemmas on the aggregate loop -/

theorem fin_ofNat_val (n : Nat) : ((Fin.ofNat n : Fin 256) : Nat) = n % 256 := rfl

theorem encode_length (r : SubRecord) : r.encode.length = r.body.length + 15 := by
  simp [SubRecord.encode, u24be, u32be]

theorem aggregatePayload_cons (r : SubRecord) (rs : List SubRecord) :
    aggregatePayload (r :: rs) = r.encode ++ aggregatePayload rs := by
  simp [aggregatePayload]

theorem aggregatePayload_length (rs : List SubRecord) :
    rs.length ≤ (aggregatePayload rs).length := by
  induction rs with
  | nil => simp [aggregatePayload]
  | cons r rs ih =>
    rw [aggregatePayload_cons, List.length_append, encode_length, List.length_cons]
    omega

theorem on_aggregate_loop_step (T cid : Int) (fuel : Nat) (r : SubRecord) (rest : List Byte)
    (delta : Int) (msgs : List SrsCommonMessage) (hb : r.body.length < 16777216) :
    srs_rtmp_on_aggregate_loop T cid (fuel + 1) ⟨r.encode ++ rest⟩ delta msgs
      = srs_rtmp_on_aggregate_loop T cid fuel ⟨rest⟩ (nextDelta T delta r)
          (msgs ++ [childOf T cid delta r]) := by
  have hlen : r.body.length / 65536 % 256 * 65536 + r.body.length / 256 % 256 * 256
      + r.body.length % 256 = r.body.length := by omega
  have hts : r.timestamp / 65536 % 256 * 65536 + r.timestamp / 256 % 256 * 256
      + r.timestamp % 256 = r.timestamp % 16777216 := by omega
  have hsid : r.streamId / 65536 % 256 * 65536 + r.streamId / 256 % 256 * 256
      + r.streamId % 256 = r.streamId % 16777216 := by omega
  simp only [srs_rtmp_on_aggregate_loop, SubRecord.encode, u24be, u32be, SrsBuffer.empty,
    SrsBuffer.require, SrsBuffer.read_1bytes, SrsBuffer.read_3bytes, SrsBuffer.read_4bytes,
    SrsBuffer.read_bytes, List.cons_append, List.nil_append, List.append_assoc,
    List.isEmpty_cons, List.length_cons, fin_ofNat_val, hlen, hts, hsid]
  by_cases hbody : r.body = []
  · simp [hbody, childOf, nextDelta, SubRecord.ts31, u24val]
  · have hpos : 0 < r.body.length := List.length_pos.mpr hbody
    simp [hbody, childOf, nextDelta, SubRecord.ts31, u24val, hpos]

theorem on_aggregate_loop_records (T cid : Int) (rs : List SubRecord)
    (hb : ∀ r ∈ rs, r.body.length < 16777216) :
    ∀ (fuel : Nat) (delta : Int) (msgs : List SrsCommonMessage), rs.length < fuel →
      srs_rtmp_on_aggregate_loop T cid fuel ⟨aggregatePayload rs⟩ delta msgs
        = (some ERROR_SUCCESS, msgs ++ aggregateChildren T cid delta rs) := by
  induction rs with
  | nil =>
    intro fuel delta msgs hf
    obtain ⟨f, rfl⟩ : ∃ f, fuel = f + 1 := ⟨fuel - 1, by simp at hf; omega⟩
    simp [srs_rtmp_on_aggregate_loop, aggregatePayload, SrsBuffer.empty, aggregateChildren]
  | cons r rs ih =>
    intro fuel delta msgs hf
    obtain ⟨f, rfl⟩ : ∃ f, fuel = f + 1 := ⟨fuel - 1, by simp at hf; omega⟩
    rw [aggregatePayload_cons, on_aggregate_loop_step _ _ _ _ _ _ _ (hb r (by simp)),
      ih (fun x hx => hb x (by simp [hx])) f _ _ (by simpa using hf)]
    simp [aggregateChildren]

theorem on_aggregate_records (context : Context) (msg : SrsCommonMessage) (rs : List SubRecord)
    (hb : ∀ r ∈ rs, r.body.length < 16777216)
    (hp : msg.payload = some (aggregatePayload rs))
    (hs : msg.size = (aggregatePayload rs).length) :
    srs_rtmp_on_aggregate context msg
      = (some ERROR_SUCCESS,
          { context with msgs := context.msgs
              ++ aggregateChildren msg.header.timestamp msg.header.perfer_cid (-1) rs }) := by
  have hl := aggregatePayload_length rs
  simp only [srs_rtmp_on_aggregate, hp, hs, Option.getD_some, Int.toNat_ofNat, List.take_length]
  rw [on_aggregate_loop_records _ _ rs hb _ _ _ (by omega)]

theorem aggregateChildren_length (T cid : Int) (rs : List SubRecord) :
    ∀ delta, (aggregateChildren T cid delta rs).length = rs.length := by
  induction rs with
  | nil => intro _; rfl
  | cons r rs ih => intro d; simp [aggregateChildren, ih]

theorem aggregateChildren_shape (T cid : Int) (rs : List SubRecord) :
    ∀ delta, (aggregateChildren T cid delta rs).map
        (fun m => (m.header.message_type, m.header.payload_length, m.size, m.payload,
                   m.header.stream_id, m.header.perfer_cid))
      = rs.map (fun r => (toInt8 r.tagType, (r.body.length : Int),
          (r.body.length : Int), (if r.body = [] then none else some r.body),
          ((u24val r.streamId : Nat) : Int), cid)) := by
  induction rs with
  | nil => intro _; rfl
  | cons r rs ih =>
    intro d
    simp only [aggregateChildren, List.map_cons, ih]
    by_cases hbody : r.body = [] <;> simp [childOf, hbody]

/-! ## C1: timestamps of the children of an aggregate -/

/-- C1 (evaluation at the failing input): for an aggregate with header timestamp 100 whose
two sub-records have internal timestamps 500 and 520, `srs_rtmp_on_aggregate` succeeds and
queues two children that both have timestamp 100, where T + (s_i - s_1) is 100 and 120:
the first `delta` is -400, and since the loop recomputes `delta` whenever it is negative
the second record is rebased with `delta` = -420.  For the aggregate of the specification
(header timestamp 1000, sub-timestamps 500, 520, 540) the children are at 1000, 1020,
1040. -/
theorem on_aggregate_negative_delta_recomputed :
    (srs_rtmp_on_aggregate {} (aggregateMessage 100 1 [tsRecord 500, tsRecord 520])).1
        = some ERROR_SUCCESS
      ∧ (srs_rtmp_on_aggregate {} (aggregateMessage 100 1
            [tsRecord 500, tsRecord 520])).2.msgs.map (fun m => m.header.timestamp)
          = [100, 100]
      ∧ (srs_rtmp_on_aggregate {} (aggregateMessage 1000 1
            [tsRecord 500, tsRecord 520, tsRecord 540])).2.msgs.map (fun m => m.header.timestamp)
          = [1000, 1020, 1040] := by
  decide

/-! ## The internal timestamp of a sub-record -/

theorem toUInt32_natCast (lo : Nat) (hlo : lo < 4294967296) : toUInt32 (lo : Int) = lo := by
  unfold toUInt32
  omega

theorem shift24_toInt8 (b : Byte) :
    (toUInt32 (toInt8 b) <<< 24) % 4294967296 = 16777216 * b.val := by
  have hb := b.isLt
  have p24 : (2 : Nat) ^ 24 = 16777216 := by norm_num
  rw [Nat.shiftLeft_eq, p24]
  unfold toUInt32 toInt8
  split <;> omega

theorem lor_high_byte (lo n : Nat) (hlo : lo < 16777216) :
    lo ||| 16777216 * n = 16777216 * n + lo := by
  have p24 : (2 : Nat) ^ 24 = 16777216 := by norm_num
  have h := Nat.mul_add_lt_is_or (i := 24) (b := lo) (by rw [p24]; exact hlo) n
  rw [p24] at h
  rw [Nat.lor_comm]
  exact h.symm

theorem and_31_bits (x : Nat) : x &&& 2147483647 = x % 2147483648 := by
  have p31 : (2 : Nat) ^ 31 - 1 = 2147483647 := by norm_num
  have h := Nat.and_pow_two_sub_one_eq_mod x 31
  rw [p31] at h
  rw [h]

theorem aggregate_timestamp_eq (lo : Nat) (b : Byte) (hlo : lo < 16777216) :
    aggregate_timestamp (lo : Int) (toInt8 b) = ((lo + b.val % 128 * 16777216 : Nat) : Int) := by
  have hb := b.isLt
  unfold aggregate_timestamp
  rw [toUInt32_natCast lo (by omega), shift24_toInt8, lor_high_byte lo _ hlo, and_31_bits]
  congr 1
  omega

theorem ts31_eq (r : SubRecord) : r.ts31 = ((r.timestamp % 2147483648 : Nat) : Int) := by
  unfold SubRecord.ts31 u24val
  rw [aggregate_timestamp_eq _ _ (by omega), fin_ofNat_val]
  congr 1
  omega

theorem toInt32_of_range (x : Int) (h1 : -2147483648 ≤ x) (h2 : x < 2147483648) :
    toInt32 x = x := by
  unfold toInt32
  omega

theorem aggregateChildren_timestamps (T cid : Int) (rs : List SubRecord) (d : Int) (hd : 0 ≤ d)
    (hr : ∀ r ∈ rs, r.ts31 + d < 2147483648) :
    (aggregateChildren T cid d rs).map (fun m => m.header.timestamp)
      = rs.map (fun r => r.ts31 + d) := by
  induction rs with
  | nil => rfl
  | cons r rs ih =>
    have hnd : nextDelta T d r = d := by
      unfold nextDelta
      rw [if_neg (by omega)]
    have h0 : 0 ≤ r.ts31 := by rw [ts31_eq]; omega
    have hlt := hr r (by simp)
    simp only [aggregateChildren, List.map_cons, hnd]
    rw [ih (fun x hx => hr x (by simp [hx]))]
    congr 1
    unfold childOf
    rw [hnd]
    by_cases hbody : r.body = [] <;> simp [hbody] <;> exact toInt32_of_range _ (by omega) hlt

/-- The rebase of `srs_rtmp_on_aggregate` where it is as the specification describes it: when
the header timestamp T of the aggregate is a non-negative 31-bit value not below the internal
timestamp s_1 of the first sub-record (so that `delta` is not negative), and every
T + (s_i - s_1) fits an `int32_t`, the children have the timestamps T + (s_i - s_1), the
first one T. -/
theorem on_aggregate_rebase_nonnegative_delta (context : Context) (msg : SrsCommonMessage)
    (r1 : SubRecord) (rs : List SubRecord)
    (hb : ∀ r ∈ r1 :: rs, r.body.length < 16777216)
    (hp : msg.payload = some (aggregatePayload (r1 :: rs)))
    (hs : msg.size = (aggregatePayload (r1 :: rs)).length)
    (hT : msg.header.timestamp < 2147483648)
    (h1 : ((r1.timestamp % 2147483648 : Nat) : Int) ≤ msg.header.timestamp)
    (hr : ∀ r ∈ rs, msg.header.timestamp
      + (((r.timestamp % 2147483648 : Nat) : Int) - ((r1.timestamp % 2147483648 : Nat) : Int))
        < 2147483648) :
    ∃ children : List SrsCommonMessage,
      srs_rtmp_on_aggregate context msg
          = (some ERROR_SUCCESS, { context with msgs := context.msgs ++ children })
        ∧ children.map (fun m => m.header.timestamp)
            = (r1 :: rs).map (fun r => msg.header.timestamp
                + (((r.timestamp % 2147483648 : Nat) : Int)
                    - ((r1.timestamp % 2147483648 : Nat) : Int))) := by
  refine ⟨_, on_aggregate_records context msg (r1 :: rs) hb hp hs, ?_⟩
  have hd : nextDelta msg.header.timestamp (-1) r1 = msg.header.timestamp - r1.ts31 := by
    unfold nextDelta
    rw [if_pos (by omega), ts31_eq]
    rw [toInt32_of_range msg.header.timestamp (by omega) hT]
    exact toInt32_of_range _ (by omega) (by omega)
  have hrest := aggregateChildren_timestamps msg.header.timestamp msg.header.perfer_cid rs
    (msg.header.timestamp - r1.ts31) (by rw [ts31_eq]; omega)
    (fun r hx => by
      have := hr r hx
      rw [ts31_eq, ts31_eq]
      omega)
  simp only [aggregateChildren, List.map_cons, hd, hrest]
  congr 1
  · unfold childOf
    rw [hd]
    by_cases hbody : r1.body = [] <;> simp [hbody] <;>
      exact toInt32_of_range _ (by omega) (by omega)
  · apply List.map_congr_left
    intro r _
    rw [ts31_eq, ts31_eq]
    omega

/-! ## C7: the children of an aggregate of complete sub-records -/

/-- C7: for every aggregate message whose payload is the concatenation of k complete
sub-records (each body shorter than 2^24 bytes, as its u24 `dataSize` requires),
`srs_rtmp_on_aggregate` returns success and appends exactly k messages to the end of the
queue, in record order; the i-th has the message type of `tagType_i` (stored in the
`int8_t` header field), payload length and size `dataSize_i` and payload `body_i`, and no
payload when `dataSize_i = 0`.  The messages already queued and the rest of the context are
unchanged. -/
theorem on_aggregate_appends_children (context : Context) (msg : SrsCommonMessage)
    (rs : List SubRecord) (hb : ∀ r ∈ rs, r.body.length < 16777216)
    (hp : msg.payload = some (aggregatePayload rs))
    (hs : msg.size = (aggregatePayload rs).length) :
    ∃ children : List SrsCommonMessage,
      srs_rtmp_on_aggregate context msg
          = (some ERROR_SUCCESS, { context with msgs := context.msgs ++ children })
        ∧ children.length = rs.length
        ∧ children.map (fun m => (m.header.message_type, m.header.payload_length, m.size,
              m.payload))
            = rs.map (fun r => (toInt8 r.tagType, (r.body.length : Int), (r.body.length : Int),
                if r.body = [] then none else some r.body)) := by
  refine ⟨aggregateChildren msg.header.timestamp msg.header.perfer_cid (-1) rs,
    on_aggregate_records context msg rs hb hp hs, aggregateChildren_length _ _ _ _, ?_⟩
  have h := congrArg (List.map (fun t : Int × Int × Int × Option (List Byte) × Int × Int =>
      (t.1, t.2.1, t.2.2.1, t.2.2.2.1)))
    (aggregateChildren_shape msg.header.timestamp msg.header.perfer_cid rs (-1))
  simpa [List.map_map, Function.comp_def] using h

/-- C7 (witness): the hypotheses hold for the aggregate of `twoRecords` received while one
audio message is queued. -/
theorem on_aggregate_appends_children_witness :
    (∀ r ∈ twoRecords, r.body.length < 16777216)
      ∧ ∃ children : List SrsCommonMessage,
        srs_rtmp_on_aggregate { msgs := [queuedAudio] } (aggregateMessage 1000 1 twoRecords)
            = (some ERROR_SUCCESS,
                { ({ msgs := [queuedAudio] } : Context) with msgs := [queuedAudio] ++ children })
          ∧ children.length = twoRecords.length
          ∧ children.map (fun m => (m.header.message_type, m.header.payload_length, m.size,
                m.payload))
              = twoRecords.map (fun r => (toInt8 r.tagType, (r.body.length : Int),
                  (r.body.length : Int), if r.body = [] then none else some r.body)) :=
  ⟨by decide,
    on_aggregate_appends_children { msgs := [queuedAudio] } (aggregateMessage 1000 1 twoRecords)
      twoRecords (by decide) rfl rfl⟩

/-! ## C9: the message stream id of the children -/

/-- C9 (counterexample): the aggregate with message stream id 1 that holds `twoRecords`
yields children with stream ids 5 and 0, the values of the `streamId` fields of the
sub-records; none of them is the stream id of the aggregate. -/
theorem on_aggregate_child_stream_id_differs :
    (srs_rtmp_on_aggregate {} (aggregateMessage 1000 1 twoRecords)).2.msgs.map
        (fun m => m.header.stream_id) = [5, 0]
      ∧ ¬ (∀ m ∈ (srs_rtmp_on_aggregate {} (aggregateMessage 1000 1 twoRecords)).2.msgs,
            m.header.stream_id = (aggregateMessage 1000 1 twoRecords).header.stream_id) := by
  decide

/-- C9 (amended): every child message that `srs_rtmp_on_aggregate` queues for an aggregate
of complete sub-records has as message stream id the value of the 3-byte `streamId` field
of its own sub-record, whatever the message stream id of the aggregate is; what it shares
with the aggregate is the preferred chunk stream id. -/
theorem on_aggregate_child_stream_id (context : Context) (msg : SrsCommonMessage)
    (rs : List SubRecord) (hb : ∀ r ∈ rs, r.body.length < 16777216)
    (hp : msg.payload = some (aggregatePayload rs))
    (hs : msg.size = (aggregatePayload rs).length) :
    ∃ children : List SrsCommonMessage,
      (srs_rtmp_on_aggregate context msg).2.msgs = context.msgs ++ children
        ∧ children.map (fun m => (m.header.stream_id, m.header.perfer_cid))
            = rs.map (fun r => (((r.streamId % 16777216 : Nat) : Int), msg.header.perfer_cid)) := by
  refine ⟨aggregateChildren msg.header.timestamp msg.header.perfer_cid (-1) rs, ?_, ?_⟩
  · rw [on_aggregate_records context msg rs hb hp hs]
  · have h := congrArg (List.map (fun t : Int × Int × Int × Option (List Byte) × Int × Int =>
        (t.2.2.2.2.1, t.2.2.2.2.2)))
      (aggregateChildren_shape msg.header.timestamp msg.header.perfer_cid rs (-1))
    simpa [List.map_map, Function.comp_def, u24val] using h

/-- C9 (witness): the hypotheses hold for the aggregate of `twoRecords` with message
stream id 1. -/
theorem on_aggregate_child_stream_id_witness :
    (∀ r ∈ twoRecords, r.body.length < 16777216)
      ∧ ∃ children : List SrsCommonMessage,
        (srs_rtmp_on_aggregate {} (aggregateMessage 1000 1 twoRecords)).2.msgs
            = ({} : Context).msgs ++ children
          ∧ children.map (fun m => (m.header.stream_id, m.header.perfer_cid))
              = twoRecords.map (fun r => (((r.streamId % 16777216 : Nat) : Int),
                  (aggregateMessage 1000 1 twoRecords).header.perfer_cid)) :=
  ⟨by decide,
    on_aggregate_child_stream_id {} (aggregateMessage 1000 1 twoRecords) twoRecords
      (by decide) rfl rfl⟩

/-! ## Lemmas on the H.264 write path -/

theorem mux_avc2flv_sequence_header (sh : List Byte) (dts pts : Nat) :
    mux_avc2flv sh SrsVideoAvcFrameTypeKeyFrame SrsVideoAvcFrameTraitSequenceHeader dts pts
      = .ok (avc_sequence_header_packet sh dts).data := by
  simp [mux_avc2flv, avc_sequence_header_packet, SrsVideoAvcFrameTraitSequenceHeader,
    SrsVideoAvcFrameTypeKeyFrame, SrsVideoCodecIdAVC, u24be]
  decide

theorem mux_avc2flv_nalu (ibp : List Byte) (frame_type dts pts : Nat) :
    mux_avc2flv ibp frame_type SrsVideoAvcFrameTraitNALU dts pts
      = .ok (avc_nalu_packet ibp frame_type dts pts).data := by
  simp [mux_avc2flv, avc_nalu_packet, SrsVideoAvcFrameTraitNALU, SrsVideoCodecIdAVC]
  rfl

theorem is_sh_sequence_header_packet (sh : List Byte) (dts : Nat) :
    is_avc_sequence_header (avc_sequence_header_packet sh dts) = true
      ∧ is_avc_nalu (avc_sequence_header_packet sh dts) = false := by
  constructor <;> rfl

theorem is_nalu_nalu_packet (ibp : List Byte) (frame_type dts pts : Nat)
    (h : frame_type = 1 ∨ frame_type = 2) :
    is_avc_nalu (avc_nalu_packet ibp frame_type dts pts) = true
      ∧ is_avc_sequence_header (avc_nalu_packet ibp frame_type dts pts) = false := by
  rcases h with h | h <;> subst h <;> constructor <;> rfl

/-- What `srs_write_h264_sps_pps` does, by cases. -/
theorem write_h264_sps_pps_cases (rtmp : SrsRtmpClient) (avc : SrsRawH264Stream)
    (context : Context) (dts pts : Nat) :
    (srs_write_h264_sps_pps rtmp avc context dts pts).2 = context
      ∨ ∃ sh, avc.mux_sequence_header context.h264_sps context.h264_pps dts pts = .ok sh
          ∧ (context.h264_sps_changed = true ∨ context.h264_pps_changed = true)
          ∧ srs_write_h264_sps_pps rtmp avc context dts pts
              = (rtmp.send context.sent.length (avc_sequence_header_packet sh dts),
                  { context with
                    h264_sps_changed := false, h264_pps_changed := false,
                    h264_sps_pps_sent := true,
                    sent := context.sent ++ [avc_sequence_header_packet sh dts] }) := by
  by_cases hch : (!context.h264_sps_changed && !context.h264_pps_changed) = true
  · left; simp [srs_write_h264_sps_pps, hch]
  · cases hsh : avc.mux_sequence_header context.h264_sps context.h264_pps dts pts with
    | error e => left; simp [srs_write_h264_sps_pps, hch, hsh]
    | ok sh =>
      right
      refine ⟨sh, rfl, ?_, ?_⟩
      · cases h1 : context.h264_sps_changed <;> cases h2 : context.h264_pps_changed <;>
          simp [h1, h2] at hch ⊢
      · simp only [srs_write_h264_sps_pps, hch, hsh, mux_avc2flv_sequence_header]
        rfl

/-- What `srs_write_h264_ipb_frame` does, by cases. -/
theorem write_h264_ipb_frame_cases (rtmp : SrsRtmpClient) (avc : SrsRawH264Stream)
    (context : Context) (frame : List Byte) (dts pts : Nat) :
    (srs_write_h264_ipb_frame rtmp avc context frame dts pts).2 = context
      ∨ ∃ ibp frame_type, avc.mux_ipb_frame frame = .ok ibp
          ∧ context.h264_sps_pps_sent = true
          ∧ ((nalu_type frame = 5 ∧ frame_type = 1) ∨ (nalu_type frame = 1 ∧ frame_type = 2))
          ∧ srs_write_h264_ipb_frame rtmp avc context frame dts pts
              = (rtmp.send context.sent.length (avc_nalu_packet ibp frame_type dts pts),
                  { context with
                    sent := context.sent ++ [avc_nalu_packet ibp frame_type dts pts] }) := by
  by_cases hsent : context.h264_sps_pps_sent = true
  swap
  · left; simp [srs_write_h264_ipb_frame, hsent]
  by_cases hnut : (nalu_type frame != SrsAvcNaluTypeIDR && nalu_type frame != SrsAvcNaluTypeNonIDR) = true
  · left; simp [srs_write_h264_ipb_frame, hsent, hnut]
  cases hibp : avc.mux_ipb_frame frame with
  | error e => left; simp [srs_write_h264_ipb_frame, hsent, hnut, hibp]
  | ok ibp =>
    right
    by_cases h5 : nalu_type frame = 5
    · refine ⟨ibp, 1, rfl, hsent, Or.inl ⟨h5, rfl⟩, ?_⟩
      simp [srs_write_h264_ipb_frame, hsent, hibp, mux_avc2flv_nalu, h5, srs_rtmp_write_packet,
        SrsAvcNaluTypeIDR, SrsAvcNaluTypeNonIDR, SrsVideoAvcFrameTypeKeyFrame, avc_nalu_packet]
    · have h1 : nalu_type frame = 1 := by
        simp [SrsAvcNaluTypeIDR, SrsAvcNaluTypeNonIDR, h5] at hnut
        exact hnut
      refine ⟨ibp, 2, rfl, hsent, Or.inr ⟨h1, rfl⟩, ?_⟩
      simp [srs_write_h264_ipb_frame, hsent, hibp, mux_avc2flv_nalu, h1, srs_rtmp_write_packet,
        SrsAvcNaluTypeIDR, SrsAvcNaluTypeNonIDR, SrsVideoAvcFrameTypeInterFrame, avc_nalu_packet]

/-! ## The invariant of the H.264 write path -/

theorem naluAfterSequenceHeader_append (sent : List RtmpPacket) (p : RtmpPacket)
    (h : NaluAfterSequenceHeader sent)
    (hp : is_avc_nalu p = true → ∃ q ∈ sent, is_avc_sequence_header q = true) :
    NaluAfterSequenceHeader (sent ++ [p]) := by
  intro i q hq hn
  rcases Nat.lt_or_ge i sent.length with hi | hi
  · rw [List.getElem?_append_left hi] at hq
    rw [List.take_append_of_le_length (Nat.le_of_lt hi)]
    exact h i q hq hn
  · have hlen : i < (sent ++ [p]).length := by
      by_contra hc
      rw [List.getElem?_eq_none (by omega)] at hq
      cases hq
    have hi2 : i = sent.length := by
      simp at hlen
      omega
    subst hi2
    simp at hq
    subst hq
    obtain ⟨s, hs, hsh⟩ := hp hn
    exact ⟨s, by simp [hs], hsh⟩

theorem h264Inv_of_eq (c1 c2 : Context) (hs : c2.sent = c1.sent)
    (hf : c2.h264_sps_pps_sent = c1.h264_sps_pps_sent) (h : H264Inv c1) : H264Inv c2 := by
  unfold H264Inv at *
  rw [hs, hf]
  exact h

theorem h264Inv_sps_pps (rtmp : SrsRtmpClient) (avc : SrsRawH264Stream) (context : Context)
    (dts pts : Nat) (h : H264Inv context) :
    H264Inv (srs_write_h264_sps_pps rtmp avc context dts pts).2 := by
  rcases write_h264_sps_pps_cases rtmp avc context dts pts with he | ⟨sh, _, _, he⟩
  · rw [he]; exact h
  · rw [he]
    refine ⟨naluAfterSequenceHeader_append _ _ h.1 ?_, fun _ => ?_⟩
    · intro hn
      rw [(is_sh_sequence_header_packet sh dts).2] at hn
      cases hn
    · exact ⟨_, by simp, (is_sh_sequence_header_packet sh dts).1⟩

theorem h264Inv_ipb (rtmp : SrsRtmpClient) (avc : SrsRawH264Stream) (context : Context)
    (frame : List Byte) (dts pts : Nat) (h : H264Inv context) :
    H264Inv (srs_write_h264_ipb_frame rtmp avc context frame dts pts).2 := by
  rcases write_h264_ipb_frame_cases rtmp avc context frame dts pts with
    he | ⟨ibp, ft, _, hsent, _, he⟩
  · rw [he]; exact h
  · rw [he]
    obtain ⟨q, hq, hqs⟩ := h.2 hsent
    refine ⟨naluAfterSequenceHeader_append _ _ h.1 (fun _ => ⟨q, hq, hqs⟩), fun _ => ?_⟩
    exact ⟨q, by simp [hq], hqs⟩

theorem h264Inv_raw_frame (rtmp : SrsRtmpClient) (avc : SrsRawH264Stream) (context : Context)
    (frame : List Byte) (dts pts : Nat) (h : H264Inv context) :
    H264Inv (srs_write_h264_raw_frame rtmp avc context frame dts pts).2 := by
  unfold srs_write_h264_raw_frame
  split
  · exact h
  split
  · split
    · exact h
    · split
      · exact h
      · exact h264Inv_of_eq context _ rfl rfl h
  split
  · split
    · exact h
    · split
      · exact h
      · exact h264Inv_of_eq context _ rfl rfl h
  dsimp only
  split
  · exact h
  split
  · exact h264Inv_sps_pps rtmp avc context dts pts h
  · exact h264Inv_ipb rtmp avc _ frame dts pts (h264Inv_sps_pps rtmp avc context dts pts h)

theorem h264Inv_loop (rtmp : SrsRtmpClient) (avc : SrsRawH264Stream) (dts pts : Nat) :
    ∀ (fuel : Nat) (context : Context) (stream : SrsBuffer) (code : SrsErrorCode),
      H264Inv context →
      H264Inv (srs_h264_write_raw_frames_loop rtmp avc dts pts fuel context stream code).2 := by
  intro fuel
  induction fuel with
  | zero => intro context stream code h; exact h
  | succ fuel ih =>
    intro context stream code h
    unfold srs_h264_write_raw_frames_loop
    split
    · exact h
    split
    · exact h
    · rename_i frame stream1 _
      split
      · exact ih _ _ _ h
      · have h2 := h264Inv_raw_frame rtmp avc context frame dts pts h
        dsimp only
        split
        · split
          · exact ih _ _ _ h2
          · exact h2
        · exact ih _ _ _ h2

theorem h264Inv_session (rtmp : SrsRtmpClient) (avc : SrsRawH264Stream) (calls : List H264Call) :
    ∀ context, H264Inv context → H264Inv (h264_session rtmp avc context calls) := by
  induction calls with
  | nil => intro context h; exact h
  | cons c cs ih =>
    intro context h
    exact ih _ (h264Inv_loop rtmp avc c.dts c.pts c.fuel context _ _ h)

theorem sent_flag_sps_pps (rtmp : SrsRtmpClient) (avc : SrsRawH264Stream) (context : Context)
    (dts pts : Nat) (h : context.h264_sps_pps_sent = true) :
    (srs_write_h264_sps_pps rtmp avc context dts pts).2.h264_sps_pps_sent = true := by
  rcases write_h264_sps_pps_cases rtmp avc context dts pts with he | ⟨sh, _, _, he⟩
  · rw [he]; exact h
  · rw [he]

theorem sent_flag_ipb (rtmp : SrsRtmpClient) (avc : SrsRawH264Stream) (context : Context)
    (frame : List Byte) (dts pts : Nat) :
    (srs_write_h264_ipb_frame rtmp avc context frame dts pts).2.h264_sps_pps_sent
      = context.h264_sps_pps_sent := by
  rcases write_h264_ipb_frame_cases rtmp avc context frame dts pts with
    he | ⟨ibp, ft, _, _, _, he⟩
  · rw [he]
  · rw [he]

theorem sent_flag_raw_frame (rtmp : SrsRtmpClient) (avc : SrsRawH264Stream) (context : Context)
    (frame : List Byte) (dts pts : Nat) (h : context.h264_sps_pps_sent = true) :
    (srs_write_h264_raw_frame rtmp avc context frame dts pts).2.h264_sps_pps_sent = true := by
  unfold srs_write_h264_raw_frame
  split
  · exact h
  split
  · split
    · exact h
    · split
      · exact h
      · exact h
  split
  · split
    · exact h
    · split
      · exact h
      · exact h
  dsimp only
  split
  · exact h
  split
  · exact sent_flag_sps_pps rtmp avc context dts pts h
  · rw [sent_flag_ipb]
    exact sent_flag_sps_pps rtmp avc context dts pts h

theorem sent_flag_loop (rtmp : SrsRtmpClient) (avc : SrsRawH264Stream) (dts pts : Nat) :
    ∀ (fuel : Nat) (context : Context) (stream : SrsBuffer) (code : SrsErrorCode),
      context.h264_sps_pps_sent = true →
      (srs_h264_write_raw_frames_loop rtmp avc dts pts fuel context stream
        code).2.h264_sps_pps_sent = true := by
  intro fuel
  induction fuel with
  | zero => intro context stream code h; exact h
  | succ fuel ih =>
    intro context stream code h
    unfold srs_h264_write_raw_frames_loop
    split
    · exact h
    split
    · exact h
    · rename_i frame stream1 _
      split
      · exact ih _ _ _ h
      · have h2 := sent_flag_raw_frame rtmp avc context frame dts pts h
        dsimp only
        split
        · split
          · exact ih _ _ _ h2
          · exact h2
        · exact ih _ _ _ h2

theorem sent_flag_session (rtmp : SrsRtmpClient) (avc : SrsRawH264Stream)
    (calls : List H264Call) :
    ∀ context, context.h264_sps_pps_sent = true →
      (h264_session rtmp avc context calls).h264_sps_pps_sent = true := by
  induction calls with
  | nil => intro context h; exact h
  | cons c cs ih =>
    intro context h
    exact ih _ (sent_flag_loop rtmp avc c.dts c.pts c.fuel context _ _ h)

theorem h264Inv_fresh : H264Inv {} := by
  constructor
  · intro i p hp
    simp at hp
  · intro h
    cases h

/-! ## C2: no NALU packet before a sequence header -/

/-- C2: starting from a fresh session, after every sequence of `srs_h264_write_raw_frames`
calls (whatever the socket answers and whatever the demuxer and muxers return, and at
every point a call has reached), every AVC NALU packet handed to `srs_rtmp_write_packet`
has an AVC sequence-header packet handed over before it.  The mechanism: when
`h264_sps_pps_sent` is false `srs_write_h264_ipb_frame` writes nothing and returns
ERROR_H264_DROP_BEFORE_SPS_PPS; whenever the flag is true a sequence header has been
handed over; and once true the flag stays true over all later calls. -/
theorem no_nalu_before_sequence_header (rtmp : SrsRtmpClient) (avc : SrsRawH264Stream)
    (calls : List H264Call) :
    NaluAfterSequenceHeader (h264_session rtmp avc {} calls).sent
      ∧ ((h264_session rtmp avc {} calls).h264_sps_pps_sent = true →
          ∃ q ∈ (h264_session rtmp avc {} calls).sent, is_avc_sequence_header q = true)
      ∧ (∀ (context : Context) (frame : List Byte) (dts pts : Nat),
          context.h264_sps_pps_sent = false →
          srs_write_h264_ipb_frame rtmp avc context frame dts pts
            = (ERROR_H264_DROP_BEFORE_SPS_PPS, context))
      ∧ (∀ (context : Context) (more : List H264Call),
          context.h264_sps_pps_sent = true →
          (h264_session rtmp avc context more).h264_sps_pps_sent = true) := by
  have h := h264Inv_session rtmp avc calls {} h264Inv_fresh
  refine ⟨h.1, h.2, ?_, fun context more hc => sent_flag_session rtmp avc more context hc⟩
  intro context frame dts pts hc
  simp [srs_write_h264_ipb_frame, hc]

/-! ## C3: the sequence header is sent iff SPS or PPS changed -/

theorem raw_frame_known_nalu (rtmp : SrsRtmpClient) (avc : SrsRawH264Stream) (context : Context)
    (frame : List Byte) (dts pts : Nat)
    (hnut : nalu_type frame = 5 ∨ nalu_type frame = 1 ∨ nalu_type frame = 9) :
    srs_write_h264_raw_frame rtmp avc context frame dts pts
      = if (srs_write_h264_sps_pps rtmp avc context dts pts).1 != ERROR_SUCCESS
        then srs_write_h264_sps_pps rtmp avc context dts pts
        else srs_write_h264_ipb_frame rtmp avc
          (srs_write_h264_sps_pps rtmp avc context dts pts).2 frame dts pts := by
  have hne : ¬ frame.length ≤ 0 := by
    cases frame with
    | nil => simp [nalu_type] at hnut
    | cons b r => simp
  rcases hnut with h | h | h <;>
    simp [srs_write_h264_raw_frame, hne, is_sps, is_pps, h, SrsAvcNaluTypeSPS, SrsAvcNaluTypePPS,
      SrsAvcNaluTypeIDR, SrsAvcNaluTypeNonIDR, SrsAvcNaluTypeAccessUnitDelimiter]

theorem ipb_frame_tail (rtmp : SrsRtmpClient) (avc : SrsRawH264Stream) (context : Context)
    (frame : List Byte) (dts pts : Nat) :
    ∃ tail, (srs_write_h264_ipb_frame rtmp avc context frame dts pts).2
          = { context with sent := context.sent ++ tail }
      ∧ (∀ p ∈ tail, is_avc_sequence_header p = false)
      ∧ (∀ ibp, avc.mux_ipb_frame frame = .ok ibp → context.h264_sps_pps_sent = true →
          (nalu_type frame = 5 ∨ nalu_type frame = 1) →
          tail = [avc_nalu_packet ibp (if nalu_type frame = 5 then 1 else 2) dts pts]) := by
  rcases write_h264_ipb_frame_cases rtmp avc context frame dts pts with
    he | ⟨ibp, ft, hibp, hsent, hft, he⟩
  · refine ⟨[], by simp [he], by simp, ?_⟩
    intro ibp hibp hsent hnut
    exfalso
    have h5 : srs_write_h264_ipb_frame rtmp avc context frame dts pts
        = srs_rtmp_write_packet rtmp context SRS_RTMP_TYPE_VIDEO dts
            (avc_nalu_packet ibp (if nalu_type frame = 5 then 1 else 2) dts pts).data := by
      rcases hnut with h | h <;>
        simp [srs_write_h264_ipb_frame, hsent, hibp, h, mux_avc2flv_nalu, SrsAvcNaluTypeIDR,
          SrsAvcNaluTypeNonIDR, SrsVideoAvcFrameTypeKeyFrame, SrsVideoAvcFrameTypeInterFrame]
    rw [h5] at he
    have h6 := congrArg (fun c : Context => c.sent.length) he
    simp [srs_rtmp_write_packet] at h6
  · refine ⟨[avc_nalu_packet ibp ft dts pts], by rw [he], ?_, ?_⟩
    · intro p hp
      simp at hp
      subst hp
      exact (is_nalu_nalu_packet ibp ft dts pts
        (by rcases hft with ⟨_, h⟩ | ⟨_, h⟩ <;> simp [h])).2
    · intro ibp2 hibp2 _ _
      rw [hibp] at hibp2
      cases hibp2
      rcases hft with ⟨h1, h2⟩ | ⟨h1, h2⟩ <;> simp [h1, h2]

/-- C3: in `srs_write_h264_raw_frame`, for a NALU of type IDR (5), non-IDR (1) or AUD (9):
if neither the SPS nor the PPS changed since the last sequence header was sent, no
sequence-header packet is written; if one of them changed (and the configuration record
can be built from the stored SPS and PPS), exactly one sequence-header packet, built from
the stored SPS and PPS, is written, it comes first, both changed flags are cleared and
`h264_sps_pps_sent` is set; when that packet is sent successfully and the NALU is an IDR or
non-IDR frame that can be muxed, the frame follows it as the only other packet.  If the
configuration record cannot be built, the error of `mux_sequence_header` is returned and
nothing is written or changed. -/
theorem sequence_header_iff_changed (rtmp : SrsRtmpClient) (avc : SrsRawH264Stream)
    (context : Context) (frame : List Byte) (dts pts : Nat)
    (hnut : nalu_type frame = 5 ∨ nalu_type frame = 1 ∨ nalu_type frame = 9) :
    (context.h264_sps_changed = false ∧ context.h264_pps_changed = false →
        ∃ tail, (srs_write_h264_raw_frame rtmp avc context frame dts pts).2
              = { context with sent := context.sent ++ tail }
          ∧ (∀ p ∈ tail, is_avc_sequence_header p = false))
      ∧ (context.h264_sps_changed = true ∨ context.h264_pps_changed = true →
          ∀ sh, avc.mux_sequence_header context.h264_sps context.h264_pps dts pts = .ok sh →
            ∃ tail, (srs_write_h264_raw_frame rtmp avc context frame dts pts).2
                  = { context with
                      h264_sps_changed := false, h264_pps_changed := false,
                      h264_sps_pps_sent := true,
                      sent := context.sent ++ avc_sequence_header_packet sh dts :: tail }
              ∧ is_avc_sequence_header (avc_sequence_header_packet sh dts) = true
              ∧ (∀ p ∈ tail, is_avc_sequence_header p = false)
              ∧ (rtmp.send context.sent.length (avc_sequence_header_packet sh dts)
                    = ERROR_SUCCESS →
                  (nalu_type frame = 5 ∨ nalu_type frame = 1) →
                  ∀ ibp, avc.mux_ipb_frame frame = .ok ibp →
                    tail = [avc_nalu_packet ibp (if nalu_type frame = 5 then 1 else 2)
                      dts pts]))
      ∧ (context.h264_sps_changed = true ∨ context.h264_pps_changed = true →
          ∀ e, avc.mux_sequence_header context.h264_sps context.h264_pps dts pts = .error e →
            e ≠ ERROR_SUCCESS →
            srs_write_h264_raw_frame rtmp avc context frame dts pts = (e, context)) := by
  rw [raw_frame_known_nalu rtmp avc context frame dts pts hnut]
  refine ⟨?_, ?_, ?_⟩
  rotate_left 2
  · intro hch e he hee
    have hne : (!context.h264_sps_changed && !context.h264_pps_changed) = false := by
      rcases hch with h | h <;> simp [h]
    have hs : srs_write_h264_sps_pps rtmp avc context dts pts = (e, context) := by
      simp [srs_write_h264_sps_pps, hne, he]
    rw [hs]
    simp [hee]
  · rintro ⟨h1, h2⟩
    have hs : srs_write_h264_sps_pps rtmp avc context dts pts = (ERROR_SUCCESS, context) := by
      simp [srs_write_h264_sps_pps, h1, h2]
    rw [hs]
    obtain ⟨tail, ht, hns, _⟩ := ipb_frame_tail rtmp avc context frame dts pts
    exact ⟨tail, by simpa using ht, hns⟩
  · intro hch sh hsh
    have hs : srs_write_h264_sps_pps rtmp avc context dts pts
        = (rtmp.send context.sent.length (avc_sequence_header_packet sh dts),
            { context with
              h264_sps_changed := false, h264_pps_changed := false, h264_sps_pps_sent := true,
              sent := context.sent ++ [avc_sequence_header_packet sh dts] }) := by
      rcases write_h264_sps_pps_cases rtmp avc context dts pts with he | ⟨sh2, hsh2, _, he⟩
      · exfalso
        have hne : (!context.h264_sps_changed && !context.h264_pps_changed) = false := by
          rcases hch with h | h <;> simp [h]
        have h6 := congrArg (fun c : Context => c.sent.length) he
        simp [srs_write_h264_sps_pps, hne, hsh, mux_avc2flv_sequence_header,
          srs_rtmp_write_packet] at h6
      · rw [hsh] at hsh2
        cases hsh2
        exact he
    rw [hs]
    by_cases hsend : rtmp.send context.sent.length (avc_sequence_header_packet sh dts)
        = ERROR_SUCCESS
    · obtain ⟨tail, ht, hns, hex⟩ := ipb_frame_tail rtmp avc
        { context with
          h264_sps_changed := false, h264_pps_changed := false, h264_sps_pps_sent := true,
          sent := context.sent ++ [avc_sequence_header_packet sh dts] } frame dts pts
      refine ⟨tail, ?_, (is_sh_sequence_header_packet sh dts).1, hns, ?_⟩
      · simp [hsend, ht]
      · intro _ hk ibp hibp
        exact hex ibp hibp rfl hk
    · refine ⟨[], ?_, (is_sh_sequence_header_packet sh dts).1, by simp, ?_⟩
      · simp [hsend]
      · intro h; exact absurd h hsend

/-- C3 (witness): an IDR frame written with `specAvc` over `okClient` in a session whose
SPS changed after the last sequence header: one sequence header carrying the stored SPS
and PPS is written, then the frame. -/
theorem sequence_header_iff_changed_witness :
    (nalu_type idrNalu = 5 ∨ nalu_type idrNalu = 1 ∨ nalu_type idrNalu = 9)
      ∧ (spsChangedContext.h264_sps_changed = true ∨ spsChangedContext.h264_pps_changed = true)
      ∧ ∃ tail, (srs_write_h264_raw_frame okClient specAvc spsChangedContext idrNalu 40 40).2
            = { spsChangedContext with
                h264_sps_changed := false, h264_pps_changed := false,
                h264_sps_pps_sent := true,
                sent := spsChangedContext.sent
                  ++ avc_sequence_header_packet
                      (u16be spsNalu.length ++ spsNalu ++ u16be ppsNalu.length ++ ppsNalu) 40
                    :: tail }
          ∧ tail = [avc_nalu_packet (u32be idrNalu.length ++ idrNalu) 1 40 40] := by
  have h := (sequence_header_iff_changed okClient specAvc spsChangedContext idrNalu 40 40
    (by decide)).2.1 (Or.inl rfl) _ rfl
  obtain ⟨tail, h1, _, _, h4⟩ := h
  exact ⟨by decide, Or.inl rfl, tail, h1, h4 rfl (by decide) _ rfl⟩

/-! ## The loop of srs_h264_write_raw_frames as a fold over the frames -/

theorem last_error_code_cons (start c : SrsErrorCode) (cs : List SrsErrorCode) :
    last_error_code start (c :: cs)
      = last_error_code (if c != ERROR_SUCCESS then c else start) cs := by
  unfold last_error_code
  by_cases h : (c != ERROR_SUCCESS) = true
  · simp only [List.filter_cons, h, if_true]
    cases hl : (List.filter (fun c => c != ERROR_SUCCESS) cs).getLast? with
    | none =>
      rw [List.getLast?_eq_none_iff] at hl
      simp [hl]
    | some x =>
      rw [List.getLast?_cons, hl]
      simp
  · simp only [List.filter_cons, h]
    simp

theorem raw_frame_empty (rtmp : SrsRtmpClient) (avc : SrsRawH264Stream) (context : Context)
    (dts pts : Nat) (frame : List Byte) (h : frame.length ≤ 0) :
    srs_write_h264_raw_frame rtmp avc context frame dts pts = (ERROR_SUCCESS, context) := by
  simp [srs_write_h264_raw_frame, h]

theorem raw_frames_loop_eq (rtmp : SrsRtmpClient) (avc : SrsRawH264Stream) (dts pts : Nat)
    (frames : List (List Byte)) :
    ∀ (fuel : Nat) (context : Context) (stream : SrsBuffer) (code : SrsErrorCode),
      DemuxesTo avc stream frames → frames.length < fuel →
      (∀ c ∈ (write_h264_frames rtmp avc dts pts context frames).1,
        c = ERROR_SUCCESS ∨ is_recoverable c = true) →
      srs_h264_write_raw_frames_loop rtmp avc dts pts fuel context stream code
        = (some (last_error_code code (write_h264_frames rtmp avc dts pts context frames).1),
            (write_h264_frames rtmp avc dts pts context frames).2) := by
  induction frames with
  | nil =>
    intro fuel context stream code hd hf _
    obtain ⟨f, rfl⟩ : ∃ f, fuel = f + 1 := ⟨fuel - 1, by simp at hf; omega⟩
    simp only [DemuxesTo] at hd
    simp [srs_h264_write_raw_frames_loop, hd, write_h264_frames, last_error_code]
  | cons frame frames ih =>
    intro fuel context stream code hd hf hc
    obtain ⟨f, rfl⟩ : ∃ f, fuel = f + 1 := ⟨fuel - 1, by simp at hf; omega⟩
    obtain ⟨he, stream1, hdm, hd1⟩ := hd
    have hf1 : frames.length < f := by simpa using hf
    simp only [write_h264_frames] at hc ⊢
    rw [last_error_code_cons]
    have hc1 : ∀ c ∈ (write_h264_frames rtmp avc dts pts
        (srs_write_h264_raw_frame rtmp avc context frame dts pts).2 frames).1,
        c = ERROR_SUCCESS ∨ is_recoverable c = true := fun c hcm => hc c (by simp [hcm])
    have hc0 := hc (srs_write_h264_raw_frame rtmp avc context frame dts pts).1 (by simp)
    unfold srs_h264_write_raw_frames_loop
    simp only [he, hdm]
    by_cases hlen : frame.length ≤ 0
    · have hr := raw_frame_empty rtmp avc context dts pts frame hlen
      rw [hr] at hc1 ⊢
      simp only [hlen, if_true]
      rw [ih f context stream1 code hd1 hf1 hc1]
      simp
    · simp only [hlen, if_false]
      by_cases hs : (srs_write_h264_raw_frame rtmp avc context frame dts pts).1 = ERROR_SUCCESS
      · simp only [hs]
        rw [ih f _ stream1 code hd1 hf1 hc1]
        simp
      · have hrec : is_recoverable (srs_write_h264_raw_frame rtmp avc context frame dts pts).1
            = true := by
          rcases hc0 with h | h
          · exact absurd h hs
          · exact h
        have hne : ((srs_write_h264_raw_frame rtmp avc context frame dts pts).1
            != ERROR_SUCCESS) = true := by simpa using hs
        unfold is_recoverable at hrec
        simp only [hne, if_true, hrec]
        rw [ih f _ stream1 _ hd1 hf1 hc1]
        simp

/-! ## C10: the result of a batch is the last recoverable code -/

/-- C10: when the batch demuxes into the frames `frames` and the write of every frame yields
success or one of ERROR_H264_DROP_BEFORE_SPS_PPS, ERROR_H264_DUPLICATED_SPS,
ERROR_H264_DUPLICATED_PPS, then `srs_h264_write_raw_frames` (given fuel for one iteration
per frame and the final test) returns: every frame of the batch has been processed in order
(the context is the one after `srs_write_h264_raw_frame` on each frame in turn) and the code
is that of the last frame whose code was not success, or success if there is none. -/
theorem write_raw_frames_last_recoverable (fuel : Nat) (rtmp : SrsRtmpClient)
    (avc : SrsRawH264Stream) (context : Context) (batch : List Byte) (dts pts : Nat)
    (frames : List (List Byte))
    (hd : DemuxesTo avc ⟨batch⟩ frames)
    (hc : ∀ c ∈ (write_h264_frames rtmp avc dts pts context frames).1,
      c = ERROR_SUCCESS ∨ c = ERROR_H264_DROP_BEFORE_SPS_PPS ∨ c = ERROR_H264_DUPLICATED_SPS
        ∨ c = ERROR_H264_DUPLICATED_PPS)
    (hf : frames.length < fuel) :
    srs_h264_write_raw_frames fuel rtmp avc context batch dts pts
      = (some (last_error_code ERROR_SUCCESS
            (write_h264_frames rtmp avc dts pts context frames).1),
          (write_h264_frames rtmp avc dts pts context frames).2) := by
  unfold srs_h264_write_raw_frames
  apply raw_frames_loop_eq rtmp avc dts pts frames fuel context _ _ hd hf
  intro c hcm
  rcases hc c hcm with h | h | h | h
  · exact Or.inl h
  all_goals (right; subst h; rfl)

theorem spsSpsPpsIdrBatch_demux :
    DemuxesTo specAvc ⟨spsSpsPpsIdrBatch⟩ [spsNalu, spsNalu, ppsNalu, idrNalu] :=
  ⟨by decide, _, by rfl, by decide, _, by rfl, by decide, _, by rfl, by decide, _, by rfl,
    by exact rfl⟩

/-- C10 (witness): on a fresh session the batch `<sps> <sps> <pps> <idr>` yields the codes
success, ERROR_H264_DUPLICATED_SPS, success, success; all four frames are processed (the
sequence header and the IDR frame are written) and the call returns
ERROR_H264_DUPLICATED_SPS. -/
theorem write_raw_frames_last_recoverable_witness :
    (write_h264_frames okClient specAvc 0 0 {} [spsNalu, spsNalu, ppsNalu, idrNalu]).1
        = [ERROR_SUCCESS, ERROR_H264_DUPLICATED_SPS, ERROR_SUCCESS, ERROR_SUCCESS]
      ∧ srs_h264_write_raw_frames 5 okClient specAvc {} spsSpsPpsIdrBatch 0 0
        = (some ERROR_H264_DUPLICATED_SPS,
            { h264_sps := spsNalu, h264_pps := ppsNalu, h264_sps_pps_sent := true,
              sent := [avc_sequence_header_packet
                          (u16be spsNalu.length ++ spsNalu ++ u16be ppsNalu.length ++ ppsNalu) 0,
                       avc_nalu_packet (u32be idrNalu.length ++ idrNalu) 1 0 0] }) :=
  ⟨by decide,
    write_raw_frames_last_recoverable 5 okClient specAvc {} spsSpsPpsIdrBatch 0 0
      [spsNalu, spsNalu, ppsNalu, idrNalu] spsSpsPpsIdrBatch_demux (by decide) (by decide)⟩

/-! ## C4: SPS, PPS, IDR on a fresh session, then the IDR alone -/

theorem nalu_type_ne_nil (frame : List Byte) (n : Nat) (h : nalu_type frame = n) (hn : n ≠ 0) :
    ¬ frame.length ≤ 0 := by
  cases frame with
  | nil => simp [nalu_type] at h; omega
  | cons b r => simp


theorem write_h264_sps_pps_changed (rtmp : SrsRtmpClient) (avc : SrsRawH264Stream)
    (context : Context) (dts pts : Nat) (sh : List Byte)
    (hch : context.h264_sps_changed = true ∨ context.h264_pps_changed = true)
    (hsh : avc.mux_sequence_header context.h264_sps context.h264_pps dts pts = .ok sh) :
    srs_write_h264_sps_pps rtmp avc context dts pts
      = (rtmp.send context.sent.length (avc_sequence_header_packet sh dts),
          { context with
            h264_sps_changed := false, h264_pps_changed := false, h264_sps_pps_sent := true,
            sent := context.sent ++ [avc_sequence_header_packet sh dts] }) := by
  have hne : (!context.h264_sps_changed && !context.h264_pps_changed) = false := by
    rcases hch with h | h <;> simp [h]
  simp only [srs_write_h264_sps_pps, hne, hsh, mux_avc2flv_sequence_header]
  rfl

theorem write_h264_sps_pps_unchanged (rtmp : SrsRtmpClient) (avc : SrsRawH264Stream)
    (context : Context) (dts pts : Nat)
    (h1 : context.h264_sps_changed = false) (h2 : context.h264_pps_changed = false) :
    srs_write_h264_sps_pps rtmp avc context dts pts = (ERROR_SUCCESS, context) := by
  simp [srs_write_h264_sps_pps, h1, h2]

theorem write_h264_ipb_frame_written (rtmp : SrsRtmpClient) (avc : SrsRawH264Stream)
    (context : Context) (frame ibp : List Byte) (dts pts : Nat)
    (hsent : context.h264_sps_pps_sent = true)
    (hnut : nalu_type frame = 5 ∨ nalu_type frame = 1)
    (hibp : avc.mux_ipb_frame frame = .ok ibp) :
    srs_write_h264_ipb_frame rtmp avc context frame dts pts
      = (rtmp.send context.sent.length
            (avc_nalu_packet ibp (if nalu_type frame = 5 then 1 else 2) dts pts),
          { context with
            sent := context.sent
              ++ [avc_nalu_packet ibp (if nalu_type frame = 5 then 1 else 2) dts pts] }) := by
  rcases hnut with h | h <;>
    simp [srs_write_h264_ipb_frame, hsent, hibp, h, mux_avc2flv_nalu, SrsAvcNaluTypeIDR,
      SrsAvcNaluTypeNonIDR, SrsVideoAvcFrameTypeKeyFrame, SrsVideoAvcFrameTypeInterFrame,
      srs_rtmp_write_packet, avc_nalu_packet]

/-- C4: on a fresh session, when the batch demuxes to the three NALUs SPS, PPS, IDR (types
7, 8, 5, with non-empty demuxed parameter sets), the configuration record and the IDR body
can be muxed and the two sends succeed, `srs_h264_write_raw_frames` returns success and
writes exactly two video packets, in order: the AVC sequence header (data `17 00 00 00 00`
followed by the record: key frame, packet type 0) and the AVC NALU packet (header byte
`17`, packet type 1: key frame) carrying the muxed IDR.  A following call whose batch
demuxes to the IDR alone returns success and writes exactly one more packet, the NALU
packet of the IDR, and no sequence header. -/
theorem sps_pps_idr_then_idr (fuel1 fuel2 : Nat) (rtmp : SrsRtmpClient) (avc : SrsRawH264Stream)
    (batch batch2 fs fp fi sps pps sh ibp : List Byte) (dts pts dts2 pts2 : Nat)
    (hd : DemuxesTo avc ⟨batch⟩ [fs, fp, fi])
    (hfs : nalu_type fs = 7) (hfp : nalu_type fp = 8) (hfi : nalu_type fi = 5)
    (hsps : avc.sps_demux fs = .ok sps) (hsps0 : sps ≠ [])
    (hpps : avc.pps_demux fp = .ok pps) (hpps0 : pps ≠ [])
    (hsh : avc.mux_sequence_header sps pps dts pts = .ok sh)
    (hibp : avc.mux_ipb_frame fi = .ok ibp)
    (hsend0 : rtmp.send 0 (avc_sequence_header_packet sh dts) = ERROR_SUCCESS)
    (hsend1 : rtmp.send 1 (avc_nalu_packet ibp 1 dts pts) = ERROR_SUCCESS)
    (hfuel1 : 3 < fuel1)
    (hd2 : DemuxesTo avc ⟨batch2⟩ [fi])
    (hsend2 : rtmp.send 2 (avc_nalu_packet ibp 1 dts2 pts2) = ERROR_SUCCESS)
    (hfuel2 : 1 < fuel2) :
    srs_h264_write_raw_frames fuel1 rtmp avc {} batch dts pts
        = (some ERROR_SUCCESS,
            { h264_sps := sps, h264_pps := pps, h264_sps_pps_sent := true,
              sent := [avc_sequence_header_packet sh dts, avc_nalu_packet ibp 1 dts pts] })
      ∧ is_avc_sequence_header (avc_sequence_header_packet sh dts) = true
      ∧ is_avc_nalu (avc_nalu_packet ibp 1 dts pts) = true
      ∧ srs_h264_write_raw_frames fuel2 rtmp avc
          { h264_sps := sps, h264_pps := pps, h264_sps_pps_sent := true,
            sent := [avc_sequence_header_packet sh dts, avc_nalu_packet ibp 1 dts pts] }
          batch2 dts2 pts2
        = (some ERROR_SUCCESS,
            { h264_sps := sps, h264_pps := pps, h264_sps_pps_sent := true,
              sent := [avc_sequence_header_packet sh dts, avc_nalu_packet ibp 1 dts pts,
                       avc_nalu_packet ibp 1 dts2 pts2] }) := by
  have hne1 := nalu_type_ne_nil fs 7 hfs (by decide)
  have hne2 := nalu_type_ne_nil fp 8 hfp (by decide)
  have hsps1 : ¬ (([] : List Byte) = sps) := fun h => hsps0 h.symm
  have hpps1 : ¬ (([] : List Byte) = pps) := fun h => hpps0 h.symm
  have h1 : srs_write_h264_raw_frame rtmp avc {} fs dts pts
      = (ERROR_SUCCESS, { h264_sps := sps, h264_sps_changed := true }) := by
    simp [srs_write_h264_raw_frame, hne1, is_sps, hfs, hsps, hsps1]
  have h2 : srs_write_h264_raw_frame rtmp avc { h264_sps := sps, h264_sps_changed := true }
      fp dts pts
      = (ERROR_SUCCESS,
          { h264_sps := sps, h264_sps_changed := true, h264_pps := pps,
            h264_pps_changed := true }) := by
    simp [srs_write_h264_raw_frame, hne2, is_sps, is_pps, hfp, hpps, hpps1]
  have h3 : srs_write_h264_raw_frame rtmp avc
      { h264_sps := sps, h264_sps_changed := true, h264_pps := pps, h264_pps_changed := true }
      fi dts pts
      = (ERROR_SUCCESS,
          { h264_sps := sps, h264_pps := pps, h264_sps_pps_sent := true,
            sent := [avc_sequence_header_packet sh dts, avc_nalu_packet ibp 1 dts pts] }) := by
    rw [raw_frame_known_nalu _ _ _ _ _ _ (Or.inl hfi),
      write_h264_sps_pps_changed rtmp avc _ dts pts sh (Or.inl rfl) hsh]
    simp only [List.length_nil, hsend0, bne_self_eq_false, Bool.false_eq_true, if_false]
    rw [write_h264_ipb_frame_written rtmp avc _ fi ibp dts pts rfl (Or.inl hfi) hibp]
    simp [hfi, hsend1]
  have h4 : srs_write_h264_raw_frame rtmp avc
      { h264_sps := sps, h264_pps := pps, h264_sps_pps_sent := true,
        sent := [avc_sequence_header_packet sh dts, avc_nalu_packet ibp 1 dts pts] }
      fi dts2 pts2
      = (ERROR_SUCCESS,
          { h264_sps := sps, h264_pps := pps, h264_sps_pps_sent := true,
            sent := [avc_sequence_header_packet sh dts, avc_nalu_packet ibp 1 dts pts,
                     avc_nalu_packet ibp 1 dts2 pts2] }) := by
    rw [raw_frame_known_nalu _ _ _ _ _ _ (Or.inl hfi),
      write_h264_sps_pps_unchanged rtmp avc _ dts2 pts2 rfl rfl]
    simp only [bne_self_eq_false, Bool.false_eq_true, if_false]
    rw [write_h264_ipb_frame_written rtmp avc _ fi ibp dts2 pts2 rfl (Or.inl hfi) hibp]
    simp [hfi, hsend2]
  refine ⟨?_, (is_sh_sequence_header_packet sh dts).1,
    (is_nalu_nalu_packet ibp 1 dts pts (Or.inl rfl)).1, ?_⟩
  · unfold srs_h264_write_raw_frames
    rw [raw_frames_loop_eq rtmp avc dts pts [fs, fp, fi] fuel1 {} _ _ hd (by simpa using hfuel1)
      (by simp [write_h264_frames, h1, h2, h3])]
    simp [write_h264_frames, h1, h2, h3, last_error_code]
  · unfold srs_h264_write_raw_frames
    rw [raw_frames_loop_eq rtmp avc dts2 pts2 [fi] fuel2 _ _ _ hd2 (by simpa using hfuel2)
      (by simp [write_h264_frames, h4])]
    simp [write_h264_frames, h4, last_error_code]

theorem spsPpsIdrBatch_demux :
    DemuxesTo specAvc ⟨spsPpsIdrBatch⟩ [spsNalu, ppsNalu, idrNalu] :=
  ⟨by decide, _, by rfl, by decide, _, by rfl, by decide, _, by rfl, by exact rfl⟩

theorem idrBatch_demux : DemuxesTo specAvc ⟨idrBatch⟩ [idrNalu] :=
  ⟨by decide, _, by rfl, by exact rfl⟩

/-- C4 (witness): the batch `00 00 00 01 67 .. 00 00 00 01 68 .. 00 00 00 01 65 ..` of the
specification written with `specAvc` over `okClient` at dts = pts = 0, then the IDR alone
at dts = pts = 40. -/
theorem sps_pps_idr_then_idr_witness :
    srs_h264_write_raw_frames 4 okClient specAvc {} spsPpsIdrBatch 0 0
        = (some ERROR_SUCCESS,
            { h264_sps := spsNalu, h264_pps := ppsNalu, h264_sps_pps_sent := true,
              sent := [{ type := 9, timestamp := 0,
                         data := [0x17, 0, 0, 0, 0, 0, 4, 0x67, 0x42, 0x00, 0x1f,
                                  0, 4, 0x68, 0xce, 0x3c, 0x80] },
                       { type := 9, timestamp := 0,
                         data := [0x17, 1, 0, 0, 0, 0, 0, 0, 3, 0x65, 0x88, 0x84] }] })
      ∧ (srs_h264_write_raw_frames 2 okClient specAvc
          { h264_sps := spsNalu, h264_pps := ppsNalu, h264_sps_pps_sent := true,
            sent := [avc_sequence_header_packet
                        (u16be spsNalu.length ++ spsNalu ++ u16be ppsNalu.length ++ ppsNalu) 0,
                     avc_nalu_packet (u32be idrNalu.length ++ idrNalu) 1 0 0] }
          idrBatch 40 40).2.sent.drop 2
        = [{ type := 9, timestamp := 40,
             data := [0x17, 1, 0, 0, 0, 0, 0, 0, 3, 0x65, 0x88, 0x84] }] := by
  have h := sps_pps_idr_then_idr 4 2 okClient specAvc spsPpsIdrBatch idrBatch spsNalu ppsNalu
    idrNalu spsNalu ppsNalu (u16be spsNalu.length ++ spsNalu ++ u16be ppsNalu.length ++ ppsNalu)
    (u32be idrNalu.length ++ idrNalu) 0 0 40 40 spsPpsIdrBatch_demux (by decide) (by decide)
    (by decide) rfl (by decide) rfl (by decide) rfl rfl rfl rfl (by decide) idrBatch_demux rfl
    (by decide)
  refine ⟨?_, ?_⟩
  · rw [h.1]; decide
  · rw [h.2.2.2]; decide

/-! ## C5: the AAC sequence header is sent once, before the first raw frame -/

theorem write_audio_raw_frame_aac (rtmp : SrsRtmpClient) (context : Context)
    (frame : List Byte) (codec : SrsRawAacStreamCodec) (rate size type apt timestamp : Nat) :
    srs_write_audio_raw_frame rtmp context frame
        { user_codec codec 10 rate size type with aac_packet_type := apt } timestamp
      = (rtmp.send context.sent.length (aac_packet rate size type apt frame timestamp),
          { context with sent := context.sent ++ [aac_packet rate size type apt frame timestamp] }) := by
  simp [srs_write_audio_raw_frame, mux_aac2flv, user_codec, SrsAudioCodecIdAAC,
    srs_rtmp_write_packet, aac_packet]

theorem aac_frames_loop_sent (rtmp : SrsRtmpClient) (aac : SrsRawAacStream)
    (rate size type timestamp : Nat) (frames : List (List Byte × SrsRawAacStreamCodec)) :
    ∀ (fuel : Nat) (context : Context) (stream : SrsBuffer),
      context.aac_specific_config ≠ [] →
      AdtsDemuxesTo aac stream frames →
      (∀ i p, context.sent.length ≤ i → rtmp.send i p = ERROR_SUCCESS) →
      frames.length < fuel →
      srs_write_aac_adts_frames_loop rtmp aac 10 rate size type timestamp fuel context stream
        = (some ERROR_SUCCESS,
            { context with
              sent := context.sent
                ++ frames.map (fun fc => aac_packet rate size type 1 fc.1 timestamp) }) := by
  induction frames with
  | nil =>
    intro fuel context stream _ hd _ hf
    obtain ⟨f, rfl⟩ : ∃ f, fuel = f + 1 := ⟨fuel - 1, by simp at hf; omega⟩
    simp only [AdtsDemuxesTo] at hd
    simp [srs_write_aac_adts_frames_loop, hd]
  | cons fc frames ih =>
    intro fuel context stream hcfg hd hsend hf
    obtain ⟨f, rfl⟩ : ∃ f, fuel = f + 1 := ⟨fuel - 1, by simp at hf; omega⟩
    obtain ⟨he, stream1, hdm, hd1⟩ := hd
    have hf1 : frames.length < f := by simpa using hf
    have hne : context.aac_specific_config.isEmpty = false := by
      cases h : context.aac_specific_config with
      | nil => exact absurd h hcfg
      | cons a l => rfl
    have hw := write_audio_raw_frame_aac rtmp context fc.1 fc.2 rate size type 1 timestamp
    unfold user_codec at hw
    unfold srs_write_aac_adts_frames_loop
    simp only [he, hdm, srs_write_aac_adts_frame, hne, hw,
      hsend context.sent.length _ (Nat.le_refl _)]
    simp only [bne_self_eq_false, Bool.false_eq_true, if_false]
    have h := ih f
      { context with sent := context.sent ++ [aac_packet rate size type 1 fc.1 timestamp] }
      stream1 hcfg hd1 (fun i p hi => hsend i p (by simp at hi; omega)) hf1
    rw [h]
    simp

/-- C5: `srs_audio_write_raw_frame` with sound format AAC (10) on a buffer that starts with
the ADTS sync word and demuxes into the n >= 1 raw frames `(frame1, codec1) :: frames`, when
every send of the call succeeds.  If `aac_specific_config` is empty (no sequence header
sent yet) and the AudioSpecificConfig `asc` of the first frame is non-empty, the call
returns success and writes exactly n + 1 audio packets: first the sequence header
(`aac_packet_type` 0) whose payload is `asc`, then the n raw frames in input order with
`aac_packet_type` 1; it stores `asc` in `aac_specific_config`.  If `aac_specific_config`
is not empty it returns success and writes exactly the n raw-frame packets, all with
`aac_packet_type` 1. -/
theorem aac_sequence_header_then_frames (fuel : Nat) (rtmp : SrsRtmpClient)
    (aac : SrsRawAacStream) (context : Context) (rate size type timestamp : Nat)
    (buffer frame1 : List Byte) (codec1 : SrsRawAacStreamCodec)
    (frames : List (List Byte × SrsRawAacStreamCodec))
    (hadts : srs_aac_is_adts buffer = true)
    (hd : AdtsDemuxesTo aac ⟨buffer⟩ ((frame1, codec1) :: frames))
    (hsend : ∀ i p, context.sent.length ≤ i → rtmp.send i p = ERROR_SUCCESS)
    (hf : frames.length + 1 < fuel) :
    (context.aac_specific_config = [] →
        ∀ asc, aac.mux_sequence_header (user_codec codec1 10 rate size type) = .ok asc →
          asc ≠ [] →
          srs_audio_write_raw_frame fuel rtmp aac context 10 rate size type buffer timestamp
            = (some ERROR_SUCCESS,
                { context with
                  aac_specific_config := asc,
                  sent := context.sent
                    ++ aac_packet rate size type 0 asc timestamp
                      :: ((frame1, codec1) :: frames).map
                          (fun fc => aac_packet rate size type 1 fc.1 timestamp) }))
      ∧ (context.aac_specific_config ≠ [] →
          srs_audio_write_raw_frame fuel rtmp aac context 10 rate size type buffer timestamp
            = (some ERROR_SUCCESS,
                { context with
                  sent := context.sent
                    ++ ((frame1, codec1) :: frames).map
                        (fun fc => aac_packet rate size type 1 fc.1 timestamp) })) := by
  constructor
  · intro hcfg asc hasc hne
    obtain ⟨f, rfl⟩ : ∃ f, fuel = f + 1 := ⟨fuel - 1, by omega⟩
    obtain ⟨he, stream1, hdm, hd1⟩ := hd
    have hw0 := write_audio_raw_frame_aac rtmp { context with aac_specific_config := asc }
      asc codec1 rate size type 0 timestamp
    have hw1 := write_audio_raw_frame_aac rtmp
      { context with
        aac_specific_config := asc,
        sent := context.sent ++ [aac_packet rate size type 0 asc timestamp] }
      frame1 codec1 rate size type 1 timestamp
    unfold user_codec at hw0 hw1 hasc
    simp only [srs_audio_write_raw_frame, SrsAudioCodecIdAAC, hadts, srs_write_aac_adts_frames]
    unfold srs_write_aac_adts_frames_loop
    simp only [he, hdm, srs_write_aac_adts_frame, hcfg, List.isEmpty_nil, hasc, hw0,
      hsend context.sent.length _ (Nat.le_refl _)]
    simp only [bne_self_eq_false, Bool.false_eq_true, if_false, hw1,
      hsend (context.sent ++ [aac_packet rate size type 0 asc timestamp]).length _
        (by simp)]
    simp only [Bool.not_true, if_true, bne_self_eq_false, Bool.false_eq_true, if_false]
    have h := aac_frames_loop_sent rtmp aac rate size type timestamp frames f
      { context with
        aac_specific_config := asc,
        sent := context.sent ++ [aac_packet rate size type 0 asc timestamp]
          ++ [aac_packet rate size type 1 frame1 timestamp] }
      stream1 hne hd1 (fun i p hi => hsend i p (by simp at hi; omega)) (by omega)
    rw [h]
    simp
  · intro hcfg
    simp only [srs_audio_write_raw_frame, SrsAudioCodecIdAAC, hadts, srs_write_aac_adts_frames]
    simp only [Bool.not_true, if_true, Bool.false_eq_true, if_false]
    exact aac_frames_loop_sent rtmp aac rate size type timestamp _ fuel context _ hcfg hd hsend
      (by simpa using hf)

theorem twoAdtsFrames_demux :
    AdtsDemuxesTo specAac ⟨twoAdtsFrames⟩
      [([0x21, 0x10], lcStereoCodec), ([0x21, 0x20], lcStereoCodec)] :=
  ⟨by decide, _, by rfl, by decide, _, by rfl, by exact rfl⟩

/-- C5 (witness): scenario 3 of the specification.  Two ADTS frames (AAC-LC, 44100 Hz,
stereo) written with `specAac` over `okClient` on a fresh session with sound rate 3, size 1,
type 1: three packets, `AF 00 12 10`, then `AF 01` followed by each raw frame. -/
theorem aac_sequence_header_then_frames_witness :
    srs_audio_write_raw_frame 3 okClient specAac {} 10 3 1 1 twoAdtsFrames 0
      = (some ERROR_SUCCESS,
          { aac_specific_config := [0x12, 0x10],
            sent := [{ type := 8, timestamp := 0, data := [0xaf, 0x00, 0x12, 0x10] },
                     { type := 8, timestamp := 0, data := [0xaf, 0x01, 0x21, 0x10] },
                     { type := 8, timestamp := 0, data := [0xaf, 0x01, 0x21, 0x20] }] }) := by
  have h := (aac_sequence_header_then_frames 3 okClient specAac {} 3 1 1 0 twoAdtsFrames
    [0x21, 0x10] lcStereoCodec [([0x21, 0x20], lcStereoCodec)] (by decide) twoAdtsFrames_demux
    (fun _ _ _ => rfl) (by decide)).1 rfl [0x12, 0x10] rfl (by decide)
  rw [h]
  decide

/-! ## C6: pts of a video tag -/

/-- C6: for a video tag (type 9) of at least 5 bytes `b0 b1 c2 c1 c0 ...` whose codec is
H.264 or HEVC and that is not a sequence header, `srs_utils_parse_timestamp` succeeds and
sets pts to (time + cts) mod 2^32 where cts = c2 * 65536 + c1 * 256 + c0 is the big-endian
value of the bytes 2..4. -/
theorem parse_timestamp_video_pts (flv : SrsFlvVideo) (time ppts : Nat) (b0 b1 c2 c1 c0 : Byte)
    (rest : List Byte)
    (hcodec : flv.h264 (b0 :: b1 :: c2 :: c1 :: c0 :: rest) = true
      ∨ flv.hevc (b0 :: b1 :: c2 :: c1 :: c0 :: rest) = true)
    (hsh : flv.sh (b0 :: b1 :: c2 :: c1 :: c0 :: rest) = false) :
    srs_utils_parse_timestamp flv time SRS_RTMP_TYPE_VIDEO (b0 :: b1 :: c2 :: c1 :: c0 :: rest) ppts
      = (ERROR_SUCCESS, (time + (c2.val * 65536 + c1.val * 256 + c0.val)) % 4294967296) := by
  have hc : (!flv.h264 (b0 :: b1 :: c2 :: c1 :: c0 :: rest)
      && !flv.hevc (b0 :: b1 :: c2 :: c1 :: c0 :: rest)) = false := by
    rcases hcodec with h | h <;> simp [h]
  simp [srs_utils_parse_timestamp, hc, hsh]

/-- C6 (witness): the H.264 NALU tag `27 01 00 00 28 ...` at time 1000 has pts 1040. -/
theorem parse_timestamp_video_pts_witness :
    srs_utils_parse_timestamp (specFlvVideo 12 13) 1000 SRS_RTMP_TYPE_VIDEO
        [0x27, 0x01, 0x00, 0x00, 0x28, 0x00, 0x00, 0x00, 0x01, 0x41] 0
      = (ERROR_SUCCESS, 1040) :=
  parse_timestamp_video_pts (specFlvVideo 12 13) 1000 0 0x27 0x01 0x00 0x00 0x28
    [0x00, 0x00, 0x00, 0x01, 0x41] (Or.inl rfl) rfl

/-! ## C8: queued messages are consumed before the socket is read -/

theorem go_packet_not_aggregate (context : Context) (msg : SrsCommonMessage)
    (h : msg.header.is_aggregate = false) :
    srs_rtmp_go_packet context msg {} = (some ERROR_SUCCESS, context, packet_of msg, true) := by
  unfold srs_rtmp_go_packet packet_of
  by_cases h1 : msg.header.is_audio = true
  · simp [h1]
  by_cases h2 : msg.header.is_video = true
  · simp [h1, h2]
  by_cases h3 : (msg.header.is_amf0_data || msg.header.is_amf3_data) = true
  · simp only [h1, h2, h3, if_true, if_false, Bool.false_eq_true]
  · simp only [h1, h2, h3, h, if_false, Bool.false_eq_true]

theorem read_packet_queue_head (rtmp : SrsRtmpClient) (fuel : Nat) (context : Context)
    (msg : SrsCommonMessage) (rest : List SrsCommonMessage)
    (hq : context.msgs = msg :: rest) (h : msg.header.is_aggregate = false) :
    srs_rtmp_read_packet rtmp (fuel + 1) context
      = (some ERROR_SUCCESS, packet_of msg, { context with msgs := rest }) := by
  unfold srs_rtmp_read_packet
  simp [hq, go_packet_not_aggregate _ msg h]

theorem read_packets_queue (rtmp : SrsRtmpClient) (fuel : Nat) (cs : List SrsCommonMessage) :
    ∀ (context : Context) (rest : List SrsCommonMessage),
      context.msgs = cs ++ rest → (∀ c ∈ cs, c.header.is_aggregate = false) →
      read_packets rtmp (fuel + 1) cs.length context
        = (cs.map (fun c => (some ERROR_SUCCESS, packet_of c)), { context with msgs := rest }) := by
  induction cs with
  | nil =>
    intro context rest hq _
    simp only [List.nil_append] at hq
    simp [read_packets, ← hq]
  | cons c cs ih =>
    intro context rest hq hc
    have h1 := read_packet_queue_head rtmp fuel context c (cs ++ rest) hq (hc c (by simp))
    simp only [List.length_cons, read_packets, h1, List.map_cons]
    rw [ih { context with msgs := cs ++ rest } rest rfl (fun x hx => hc x (by simp [hx]))]

theorem toInt8_media :
    toInt8 8 = 8 ∧ toInt8 9 = 9 ∧ toInt8 18 = 18 ∧ toInt8 15 = 15 := by
  decide

theorem byte_val_media :
    ((8 : Byte) : Nat) = 8 ∧ ((9 : Byte) : Nat) = 9 ∧ ((18 : Byte) : Nat) = 18
      ∧ ((15 : Byte) : Nat) = 15 := by
  decide

theorem childOf_not_aggregate (T cid delta : Int) (r : SubRecord)
    (h : r.tagType = 8 ∨ r.tagType = 9 ∨ r.tagType = 18 ∨ r.tagType = 15) :
    (childOf T cid delta r).header.is_aggregate = false := by
  unfold childOf
  obtain ⟨e8, e9, e18, e15⟩ := toInt8_media
  rcases h with h | h | h | h <;> by_cases hb : r.body = [] <;>
    simp [h, hb, SrsMessageHeader.is_aggregate, e8, e9, e18, e15]

theorem aggregateChildren_not_aggregate (T cid : Int) (rs : List SubRecord)
    (h : ∀ r ∈ rs, r.tagType = 8 ∨ r.tagType = 9 ∨ r.tagType = 18 ∨ r.tagType = 15) :
    ∀ delta, ∀ c ∈ aggregateChildren T cid delta rs, c.header.is_aggregate = false := by
  induction rs with
  | nil => intro _ c hc; simp [aggregateChildren] at hc
  | cons r rs ih =>
    intro delta c hc
    simp only [aggregateChildren, List.mem_cons] at hc
    rcases hc with hc | hc
    · rw [hc]; exact childOf_not_aggregate T cid delta r (h r (by simp))
    · exact ih (fun x hx => h x (by simp [hx])) _ c hc

theorem packet_of_child (T cid delta : Int) (r : SubRecord)
    (h : r.tagType = 8 ∨ r.tagType = 9 ∨ r.tagType = 18 ∨ r.tagType = 15) :
    (packet_of (childOf T cid delta r)).type = (if r.tagType = 15 then 18 else (r.tagType.val : Int))
      ∧ (packet_of (childOf T cid delta r)).data = (if r.body = [] then none else some r.body) := by
  unfold childOf packet_of
  obtain ⟨e8, e9, e18, e15⟩ := toInt8_media
  obtain ⟨v8, v9, v18, v15⟩ := byte_val_media
  rcases h with h | h | h | h <;> by_cases hb : r.body = [] <;>
    simp [h, hb, SrsMessageHeader.is_audio, SrsMessageHeader.is_video,
      SrsMessageHeader.is_amf0_data, SrsMessageHeader.is_amf3_data, e8, e9, e18, e15,
      v8, v9, v18, v15, SRS_RTMP_TYPE_AUDIO, SRS_RTMP_TYPE_VIDEO, SRS_RTMP_TYPE_SCRIPT]

theorem packet_of_children (T cid : Int) (rs : List SubRecord)
    (h : ∀ r ∈ rs, r.tagType = 8 ∨ r.tagType = 9 ∨ r.tagType = 18 ∨ r.tagType = 15) :
    ∀ delta, (aggregateChildren T cid delta rs).map
        (fun c => ((packet_of c).type, (packet_of c).data))
      = rs.map (fun r => ((if r.tagType = 15 then 18 else (r.tagType.val : Int)),
          (if r.body = [] then none else some r.body))) := by
  induction rs with
  | nil => intro _; rfl
  | cons r rs ih =>
    intro delta
    simp only [aggregateChildren, List.map_cons]
    rw [ih (fun x hx => h x (by simp [hx]))]
    rw [(packet_of_child T cid delta r (h r (by simp))).1,
      (packet_of_child T cid delta r (h r (by simp))).2]

/-- C8 (counterexample): a call that starts with a non-empty queue can call `recv_message`.
Over `nestedClient` the first call on a fresh session receives an aggregate whose
sub-records are an audio tag and an empty tag of type 22; it returns the audio child and
leaves the second child queued, one `recv_message` call having been made.  The second call
starts with that non-empty queue, takes its first element, which is an aggregate without
children, and then calls `recv_message` (the count becomes 2) and returns its error. -/
theorem read_packet_queued_aggregate_reads_socket :
    (srs_rtmp_read_packet nestedClient 3 {}).1 = some ERROR_SUCCESS
      ∧ (srs_rtmp_read_packet nestedClient 3 {}).2.1.type = 8
      ∧ (srs_rtmp_read_packet nestedClient 3 {}).2.2.msgs ≠ []
      ∧ (srs_rtmp_read_packet nestedClient 3 {}).2.2.nb_recv = 1
      ∧ (srs_rtmp_read_packet nestedClient 3
          (srs_rtmp_read_packet nestedClient 3 {}).2.2).2.2.nb_recv = 2
      ∧ (srs_rtmp_read_packet nestedClient 3
          (srs_rtmp_read_packet nestedClient 3 {}).2.2).1 = some (ERROR_OTHER 2) := by
  decide

/-- C8 (amended): `srs_rtmp_read_packet` consumes the queue front-first before any socket
read.  (1) Whenever the queue is non-empty and its first element is not itself an
aggregate, the call returns that element and removes it, the rest of the context, in
particular the number of `recv_message` calls, being unchanged (the result does not depend
on the socket).  (2) When the queue is empty and `recv_message` yields an aggregate of
k >= 1 complete audio/video/data sub-records, the k successive calls return the k children
in record order (the i-th with the type and body of the i-th sub-record), `recv_message`
has been called exactly once over the k calls, and the queue is empty again. -/
theorem read_packet_queue_first (rtmp : SrsRtmpClient) (fuel : Nat) (context : Context) :
    (∀ msg rest, context.msgs = msg :: rest → msg.header.is_aggregate = false →
        srs_rtmp_read_packet rtmp (fuel + 1) context
          = (some ERROR_SUCCESS, packet_of msg, { context with msgs := rest }))
      ∧ (∀ (agg : SrsCommonMessage) (rs : List SubRecord),
          context.msgs = [] →
          rtmp.recv context.nb_recv = .ok (some agg) →
          agg.header.message_type = 22 →
          agg.payload = some (aggregatePayload rs) →
          agg.size = (aggregatePayload rs).length →
          rs ≠ [] →
          (∀ r ∈ rs, r.body.length < 16777216
            ∧ (r.tagType = 8 ∨ r.tagType = 9 ∨ r.tagType = 18 ∨ r.tagType = 15)) →
          read_packets rtmp (fuel + 2) rs.length context
              = ((aggregateChildren agg.header.timestamp agg.header.perfer_cid (-1) rs).map
                    (fun c => (some ERROR_SUCCESS, packet_of c)),
                  { context with nb_recv := context.nb_recv + 1 })
            ∧ (aggregateChildren agg.header.timestamp agg.header.perfer_cid (-1) rs).map
                  (fun c => ((packet_of c).type, (packet_of c).data))
                = rs.map (fun r => ((if r.tagType = 15 then 18 else (r.tagType.val : Int)),
                    (if r.body = [] then none else some r.body)))) := by
  refine ⟨fun msg rest hq h => read_packet_queue_head rtmp fuel context msg rest hq h, ?_⟩
  intro agg rs hq hrecv htype hp hs hne hrs
  rcases context with ⟨msgs, sid, sps, pps, sflag, sch, pch, asc, sent, nrecv⟩
  simp only at hq hrecv
  subst hq
  have hb : ∀ r ∈ rs, r.body.length < 16777216 := fun r hr => (hrs r hr).1
  have ht : ∀ r ∈ rs, r.tagType = 8 ∨ r.tagType = 9 ∨ r.tagType = 18 ∨ r.tagType = 15 :=
    fun r hr => (hrs r hr).2
  refine ⟨?_, packet_of_children _ _ rs ht (-1)⟩
  obtain ⟨r, rs', rfl⟩ : ∃ r rs', rs = r :: rs' := by
    cases rs with
    | nil => exact absurd rfl hne
    | cons r rs' => exact ⟨r, rs', rfl⟩
  have hagg := on_aggregate_records (⟨[], sid, sps, pps, sflag, sch, pch, asc, sent, nrecv + 1⟩ : Context) agg (r :: rs') hb hp hs
  have hgo : srs_rtmp_go_packet (⟨[], sid, sps, pps, sflag, sch, pch, asc, sent, nrecv + 1⟩ : Context) agg {}
      = (some ERROR_SUCCESS, (⟨aggregateChildren agg.header.timestamp agg.header.perfer_cid (-1) (r :: rs'), sid, sps, pps, sflag, sch, pch, asc, sent, nrecv + 1⟩ : Context), {}, false) := by
    simp only [srs_rtmp_go_packet, SrsMessageHeader.is_audio, SrsMessageHeader.is_video,
      SrsMessageHeader.is_amf0_data, SrsMessageHeader.is_amf3_data,
      SrsMessageHeader.is_aggregate, htype, hagg]
    simp
  have hnagg := aggregateChildren_not_aggregate agg.header.timestamp agg.header.perfer_cid (r :: rs') ht (-1)
  have hfirst : srs_rtmp_read_packet rtmp (fuel + 2) (⟨[], sid, sps, pps, sflag, sch, pch, asc, sent, nrecv⟩ : Context)
      = (some ERROR_SUCCESS, packet_of (childOf agg.header.timestamp agg.header.perfer_cid (-1) r),
          (⟨aggregateChildren agg.header.timestamp agg.header.perfer_cid (nextDelta agg.header.timestamp (-1) r) rs', sid, sps, pps, sflag, sch, pch, asc, sent, nrecv + 1⟩ : Context)) := by
    rw [srs_rtmp_read_packet]
    simp only [hrecv, hgo]
    simp only [bne_self_eq_false, Bool.false_eq_true, if_false]
    rw [read_packet_queue_head rtmp fuel _ (childOf agg.header.timestamp agg.header.perfer_cid (-1) r)
      (aggregateChildren agg.header.timestamp agg.header.perfer_cid (nextDelta agg.header.timestamp (-1) r) rs') rfl
      (hnagg _ (by simp [aggregateChildren]))]
  have hlen := aggregateChildren_length agg.header.timestamp agg.header.perfer_cid rs' (nextDelta agg.header.timestamp (-1) r)
  have hrest := read_packets_queue rtmp (fuel + 1)
    (aggregateChildren agg.header.timestamp agg.header.perfer_cid (nextDelta agg.header.timestamp (-1) r) rs')
    (⟨aggregateChildren agg.header.timestamp agg.header.perfer_cid (nextDelta agg.header.timestamp (-1) r) rs', sid, sps, pps, sflag, sch, pch, asc, sent, nrecv + 1⟩ : Context) [] (by simp)
    (fun c hc => hnagg c (by simp [aggregateChildren, hc]))
  rw [hlen] at hrest
  simp only [List.length_cons, read_packets, hfirst, hrest, aggregateChildren, List.map_cons]

/-- C8 (witness): over `aggregateClient`, whose first `recv_message` yields the
aggregate of `twoRecords`, two calls on a fresh session return the video child (timestamp
1000, body `17 01`) and then the audio child (timestamp 1020, no payload); `recv_message`
was called once. -/
theorem read_packet_queue_first_witness :
    read_packets aggregateClient 2 2 {}
      = ([(some ERROR_SUCCESS,
            { type := 9, timestamp := 1000, data := some [0x17, 0x01], size := 2 }),
          (some ERROR_SUCCESS, { type := 8, timestamp := 1020, data := none, size := 0 })],
         { nb_recv := 1 }) := by
  have h := ((read_packet_queue_first aggregateClient 0 {}).2
    (aggregateMessage 1000 1 twoRecords) twoRecords rfl rfl rfl rfl rfl (by decide)
    (by decide)).1
  rw [show twoRecords.length = 2 from rfl] at h
  rw [h]
  decide

/-! ## C11: a frame before the first sequence header is dropped -/

/-- C11: when no sequence header has been sent (`h264_sps_pps_sent` is false) and neither
the SPS nor the PPS change is pending, `srs_write_h264_raw_frame` for an IDR (5) or non-IDR
(1) NALU returns ERROR_H264_DROP_BEFORE_SPS_PPS and the context is unchanged: no packet is
written and sps, pps, both changed flags and `h264_sps_pps_sent` are as before. -/
theorem raw_frame_dropped_before_sequence_header (rtmp : SrsRtmpClient)
    (avc : SrsRawH264Stream) (context : Context) (frame : List Byte) (dts pts : Nat)
    (hnut : nalu_type frame = 5 ∨ nalu_type frame = 1)
    (hsent : context.h264_sps_pps_sent = false)
    (hsps : context.h264_sps_changed = false) (hpps : context.h264_pps_changed = false) :
    srs_write_h264_raw_frame rtmp avc context frame dts pts
      = (ERROR_H264_DROP_BEFORE_SPS_PPS, context) := by
  have hk : nalu_type frame = 5 ∨ nalu_type frame = 1 ∨ nalu_type frame = 9 := by
    rcases hnut with h | h
    · exact Or.inl h
    · exact Or.inr (Or.inl h)
  rw [raw_frame_known_nalu rtmp avc context frame dts pts hk,
    write_h264_sps_pps_unchanged rtmp avc context dts pts hsps hpps]
  simp [srs_write_h264_ipb_frame, hsent]

/-- C11 (witness): an IDR frame on a fresh session. -/
theorem raw_frame_dropped_before_sequence_header_witness :
    (nalu_type idrNalu = 5 ∨ nalu_type idrNalu = 1)
      ∧ srs_write_h264_raw_frame okClient specAvc {} idrNalu 0 0
        = (ERROR_H264_DROP_BEFORE_SPS_PPS, {}) :=
  ⟨by decide,
    raw_frame_dropped_before_sequence_header okClient specAvc {} idrNalu 0 0 (by decide)
      rfl rfl rfl⟩

/-! ## C12: duplicated SPS and PPS -/

/-- C12: for an SPS NALU (type 7) whose demuxed SPS is `sps`, `srs_write_h264_raw_frame`
returns ERROR_H264_DUPLICATED_SPS if and only if `sps` equals the stored SPS, and then the
context is unchanged; otherwise it returns success, stores `sps`, sets `h264_sps_changed`
and changes nothing else (pps, `h264_pps_changed`, `h264_sps_pps_sent` and the packets
written are as before).  The same holds for a PPS NALU (type 8) with
ERROR_H264_DUPLICATED_PPS, `h264_pps` and `h264_pps_changed`. -/
theorem raw_frame_sps_pps_duplicated (rtmp : SrsRtmpClient) (avc : SrsRawH264Stream)
    (context : Context) (frame : List Byte) (dts pts : Nat) :
    (nalu_type frame = 7 → ∀ sps, avc.sps_demux frame = .ok sps →
        ((srs_write_h264_raw_frame rtmp avc context frame dts pts).1
              = ERROR_H264_DUPLICATED_SPS ↔ context.h264_sps = sps)
          ∧ (context.h264_sps = sps →
              srs_write_h264_raw_frame rtmp avc context frame dts pts
                = (ERROR_H264_DUPLICATED_SPS, context))
          ∧ (context.h264_sps ≠ sps →
              srs_write_h264_raw_frame rtmp avc context frame dts pts
                = (ERROR_SUCCESS, { context with h264_sps_changed := true, h264_sps := sps })))
      ∧ (nalu_type frame = 8 → ∀ pps, avc.pps_demux frame = .ok pps →
          ((srs_write_h264_raw_frame rtmp avc context frame dts pts).1
                = ERROR_H264_DUPLICATED_PPS ↔ context.h264_pps = pps)
            ∧ (context.h264_pps = pps →
                srs_write_h264_raw_frame rtmp avc context frame dts pts
                  = (ERROR_H264_DUPLICATED_PPS, context))
            ∧ (context.h264_pps ≠ pps →
                srs_write_h264_raw_frame rtmp avc context frame dts pts
                  = (ERROR_SUCCESS,
                      { context with h264_pps_changed := true, h264_pps := pps }))) := by
  constructor
  · intro hnut sps hsps
    have hne := nalu_type_ne_nil frame 7 hnut (by decide)
    have hs : is_sps frame = true := by simp [is_sps, hnut]
    by_cases heq : context.h264_sps = sps
    · have hr : srs_write_h264_raw_frame rtmp avc context frame dts pts
          = (ERROR_H264_DUPLICATED_SPS, context) := by
        simp [srs_write_h264_raw_frame, hne, hs, hsps, heq]
      exact ⟨by simp [hr, heq], fun _ => hr, fun h => absurd heq h⟩
    · have hr : srs_write_h264_raw_frame rtmp avc context frame dts pts
          = (ERROR_SUCCESS, { context with h264_sps_changed := true, h264_sps := sps }) := by
        simp [srs_write_h264_raw_frame, hne, hs, hsps, heq]
      exact ⟨by simp [hr, heq], fun h => absurd h heq, fun _ => hr⟩
  · intro hnut pps hpps
    have hne := nalu_type_ne_nil frame 8 hnut (by decide)
    have hs : is_sps frame = false := by simp [is_sps, hnut]
    have hp : is_pps frame = true := by simp [is_pps, hnut]
    by_cases heq : context.h264_pps = pps
    · have hr : srs_write_h264_raw_frame rtmp avc context frame dts pts
          = (ERROR_H264_DUPLICATED_PPS, context) := by
        simp [srs_write_h264_raw_frame, hne, hs, hp, hpps, heq]
      exact ⟨by simp [hr, heq], fun _ => hr, fun h => absurd heq h⟩
    · have hr : srs_write_h264_raw_frame rtmp avc context frame dts pts
          = (ERROR_SUCCESS, { context with h264_pps_changed := true, h264_pps := pps }) := by
        simp [srs_write_h264_raw_frame, hne, hs, hp, hpps, heq]
      exact ⟨by simp [hr, heq], fun h => absurd h heq, fun _ => hr⟩

/-- C12 (witness): on `sentContext`, which stores `spsNalu` and `ppsNalu`, the same SPS is
reported as duplicated and leaves the context as it is, another SPS is stored and marks the
change; likewise for the PPS. -/
theorem raw_frame_sps_pps_duplicated_witness :
    srs_write_h264_raw_frame okClient specAvc sentContext spsNalu 0 0
        = (ERROR_H264_DUPLICATED_SPS, sentContext)
      ∧ srs_write_h264_raw_frame okClient specAvc sentContext otherSpsNalu 0 0
        = (ERROR_SUCCESS, { sentContext with h264_sps_changed := true, h264_sps := otherSpsNalu })
      ∧ srs_write_h264_raw_frame okClient specAvc sentContext ppsNalu 0 0
        = (ERROR_H264_DUPLICATED_PPS, sentContext)
      ∧ srs_write_h264_raw_frame okClient specAvc sentContext otherPpsNalu 0 0
        = (ERROR_SUCCESS,
            { sentContext with h264_pps_changed := true, h264_pps := otherPpsNalu }) :=
  ⟨((raw_frame_sps_pps_duplicated okClient specAvc sentContext spsNalu 0 0).1 (by decide)
      spsNalu rfl).2.1 rfl,
   ((raw_frame_sps_pps_duplicated okClient specAvc sentContext otherSpsNalu 0 0).1 (by decide)
      otherSpsNalu rfl).2.2 (by decide),
   ((raw_frame_sps_pps_duplicated okClient specAvc sentContext ppsNalu 0 0).2 (by decide)
      ppsNalu rfl).2.1 rfl,
   ((raw_frame_sps_pps_duplicated okClient specAvc sentContext otherPpsNalu 0 0).2 (by decide)
      otherPpsNalu rfl).2.2 (by decide)⟩

/-! ## C13: when srs_utils_parse_timestamp fails -/

/-- C13: `srs_utils_parse_timestamp` returns ERROR_FLV_INVALID_VIDEO_TAG if and only if the
type is video (9) and either the codec of the tag is neither H.264 nor HEVC, or the tag is
not a sequence header and has fewer than 5 bytes; in every other case it returns
success. -/
theorem parse_timestamp_invalid_iff (flv : SrsFlvVideo) (time : Nat) (type : Int)
    (data : List Byte) (ppts : Nat) :
    ((srs_utils_parse_timestamp flv time type data ppts).1 = ERROR_FLV_INVALID_VIDEO_TAG
        ↔ type = 9 ∧ ((flv.h264 data = false ∧ flv.hevc data = false)
            ∨ (flv.sh data = false ∧ data.length < 5)))
      ∧ ((srs_utils_parse_timestamp flv time type data ppts).1 ≠ ERROR_FLV_INVALID_VIDEO_TAG →
          (srs_utils_parse_timestamp flv time type data ppts).1 = ERROR_SUCCESS) := by
  unfold srs_utils_parse_timestamp SRS_RTMP_TYPE_VIDEO
  by_cases ht : type = 9
  · by_cases hc : (!flv.h264 data && !flv.hevc data) = true
    · have hc2 : flv.h264 data = false ∧ flv.hevc data = false := by simpa using hc
      simp [ht, hc2.1, hc2.2]
    · have hc3 : ¬ (flv.h264 data = false ∧ flv.hevc data = false) := by simpa using hc
      by_cases hs : flv.sh data = true
      · simp [ht, hc, hs, hc3]
      · have hs2 : flv.sh data = false := by simpa using hs
        by_cases hl : data.length < 5
        · simp [ht, hc, hs2, hl]
        · simp [ht, hc, hs2, hl, hc3]
  · simp [ht]

/-! ## C14: pts equals dts for non-video packets and for sequence headers -/

/-- C14: `srs_utils_parse_timestamp` succeeds and sets pts to the given timestamp for every
packet whose type is not video (9), and for every video packet whose codec is H.264 or HEVC
and that is a sequence header, whatever its bytes are. -/
theorem parse_timestamp_pts_eq_dts (flv : SrsFlvVideo) (time : Nat) (type : Int)
    (data : List Byte) (ppts : Nat) :
    (type ≠ 9 → srs_utils_parse_timestamp flv time type data ppts = (ERROR_SUCCESS, time))
      ∧ (type = 9 → (flv.h264 data = true ∨ flv.hevc data = true) → flv.sh data = true →
          srs_utils_parse_timestamp flv time type data ppts = (ERROR_SUCCESS, time)) := by
  unfold srs_utils_parse_timestamp SRS_RTMP_TYPE_VIDEO
  constructor
  · intro ht
    simp [ht]
  · intro ht hc hs
    have hc2 : (!flv.h264 data && !flv.hevc data) = false := by
      rcases hc with h | h <;> simp [h]
    simp [ht, hc2, hs]

/-- C14 (witness): an audio packet at time 1000, and the H.264 sequence header
`17 00 FF FF FF ..` at time 1000, both have pts 1000. -/
theorem parse_timestamp_pts_eq_dts_witness :
    srs_utils_parse_timestamp (specFlvVideo 12 13) 1000 8 [0xaf, 0x01, 0x21] 0
        = (ERROR_SUCCESS, 1000)
      ∧ srs_utils_parse_timestamp (specFlvVideo 12 13) 1000 9
          [0x17, 0x00, 0xff, 0xff, 0xff, 0x01] 0 = (ERROR_SUCCESS, 1000) :=
  ⟨(parse_timestamp_pts_eq_dts (specFlvVideo 12 13) 1000 8 [0xaf, 0x01, 0x21] 0).1 (by decide),
   (parse_timestamp_pts_eq_dts (specFlvVideo 12 13) 1000 9
      [0x17, 0x00, 0xff, 0xff, 0xff, 0x01] 0).2 rfl (Or.inl rfl) rfl⟩

/-! ## C15: AAC data that is not ADTS is refused -/

set_option maxRecDepth 100000 in
theorem byte_high_nibble (b : Byte) : (b.val &&& 0xf0) = 0xf0 ↔ b.val / 16 = 15 := by
  revert b
  decide

/-- C15: `srs_audio_write_raw_frame` with sound format AAC (10) and a frame that is shorter
than two bytes or whose first two bytes do not carry the sync word `0xFFF` in their 12 most
significant bits returns ERROR_AAC_REQUIRED_ADTS and leaves the context unchanged: no packet
is written and `aac_specific_config` is as before. -/
theorem audio_write_requires_adts (fuel : Nat) (rtmp : SrsRtmpClient) (aac : SrsRawAacStream)
    (context : Context) (rate size type timestamp : Nat) (frame : List Byte)
    (h : ∀ b0 b1 rest, frame = b0 :: b1 :: rest → (b0.val * 256 + b1.val) / 16 ≠ 0xFFF) :
    srs_audio_write_raw_frame fuel rtmp aac context 10 rate size type frame timestamp
      = (some ERROR_AAC_REQUIRED_ADTS, context) := by
  have hadts : srs_aac_is_adts frame = false := by
    unfold srs_aac_is_adts srs_aac_startswith_adts
    match frame, h with
    | [], _ => rfl
    | [_], _ => rfl
    | b0 :: b1 :: rest, h =>
      have h1 := h b0 b1 rest rfl
      have hb0 := b0.isLt
      have hb1 := b1.isLt
      simp only []
      by_cases e0 : b0.val = 0xff
      · have e1 : ¬ (b1.val &&& 0xf0) = 0xf0 := by
          intro e1
          apply h1
          have h2 := (byte_high_nibble b1).mp e1
          omega
        simp [e0, e1]
      · simp [e0]
  simp [srs_audio_write_raw_frame, SrsAudioCodecIdAAC, hadts]

/-- C15 (witness): raw AAC bytes without ADTS header on `sentContext`. -/
theorem audio_write_requires_adts_witness :
    srs_audio_write_raw_frame 3 okClient specAac sentContext 10 3 1 1 [0x21, 0x10, 0x04] 0
      = (some ERROR_AAC_REQUIRED_ADTS, sentContext) :=
  audio_write_requires_adts 3 okClient specAac sentContext 3 1 1 0 [0x21, 0x10, 0x04]
    (by
      intro b0 b1 rest h
      simp only [List.cons.injEq] at h
      obtain ⟨h0, h1, _⟩ := h
      subst h0 h1
      decide)

/-! ## C19: the composition time is read as an unsigned value -/

/-- C19 (counterexample): for the H.264 NALU tag `27 01 FF FF FF ..` at time 1000,
`srs_utils_parse_timestamp` succeeds with pts = 1000 + 16777215 = 16778215, not 999. -/
theorem parse_timestamp_cts_ff_not_minus_one :
    srs_utils_parse_timestamp (specFlvVideo 12 13) 1000 9
        [0x27, 0x01, 0xff, 0xff, 0xff, 0x00, 0x00, 0x00, 0x01, 0x41] 0
        = (ERROR_SUCCESS, 16778215)
      ∧ (srs_utils_parse_timestamp (specFlvVideo 12 13) 1000 9
          [0x27, 0x01, 0xff, 0xff, 0xff, 0x00, 0x00, 0x00, 0x01, 0x41] 0).2 ≠ 1000 - 1 := by
  decide

/-- C19 (amended): `srs_utils_parse_timestamp` interprets the 3-byte composition time of a
video tag as an unsigned 24-bit integer: for an H.264 or HEVC tag that is not a sequence
header and whose bytes 2..4 are FF FF FF it succeeds with
pts = (dts + 16777215) mod 2^32, and this is never (dts - 1) mod 2^32. -/
theorem parse_timestamp_cts_unsigned (flv : SrsFlvVideo) (time ppts : Nat) (b0 b1 : Byte)
    (rest : List Byte)
    (hcodec : flv.h264 (b0 :: b1 :: 0xff :: 0xff :: 0xff :: rest) = true
      ∨ flv.hevc (b0 :: b1 :: 0xff :: 0xff :: 0xff :: rest) = true)
    (hsh : flv.sh (b0 :: b1 :: 0xff :: 0xff :: 0xff :: rest) = false) :
    srs_utils_parse_timestamp flv time SRS_RTMP_TYPE_VIDEO
        (b0 :: b1 :: 0xff :: 0xff :: 0xff :: rest) ppts
        = (ERROR_SUCCESS, (time + 16777215) % 4294967296)
      ∧ (time + 16777215) % 4294967296 ≠ (time + 4294967295) % 4294967296 := by
  have hc : (!flv.h264 (b0 :: b1 :: 0xff :: 0xff :: 0xff :: rest)
      && !flv.hevc (b0 :: b1 :: 0xff :: 0xff :: 0xff :: rest)) = false := by
    rcases hcodec with h | h <;> simp [h]
  constructor
  · simp [srs_utils_parse_timestamp, hc, hsh]
    rfl
  · omega

/-- C19 (witness): the tag `27 01 FF FF FF ..` at time 1000. -/
theorem parse_timestamp_cts_unsigned_witness :
    srs_utils_parse_timestamp (specFlvVideo 12 13) 1000 SRS_RTMP_TYPE_VIDEO
        [0x27, 0x01, 0xff, 0xff, 0xff, 0x41] 0
        = (ERROR_SUCCESS, (1000 + 16777215) % 4294967296)
      ∧ (1000 + 16777215) % 4294967296 ≠ (1000 + 4294967295) % 4294967296 :=
  parse_timestamp_cts_unsigned (specFlvVideo 12 13) 1000 0 0x27 0x01 [0x41] (Or.inl rfl) rfl

/-! ## C16: the FLV tag of an MP4 sample -/

set_option maxRecDepth 100000 in
theorem audio_header_bits (c : Fin 16) (r : Fin 4) (b : Fin 2) (ch : Fin 2) :
    ((c.val <<< 4) % 256 ||| (r.val <<< 2) % 256 ||| (b.val <<< 1) % 256 ||| ch.val) % 256
      = c.val * 16 + r.val * 4 + b.val * 2 + ch.val := by
  revert c r b ch
  decide

set_option maxRecDepth 100000 in
theorem video_header_bits (f : Fin 16) (c : Fin 16) :
    ((f.val <<< 4) % 256 ||| c.val % 256) % 256 = f.val * 16 + c.val := by
  revert f c
  decide

/-- C16: `srs_mp4_to_flv_tag` returns success and sets `time` to the dts of the sample.  For
an audio sample (handler type `soun`) it sets the type to audio and writes the header byte
`codec<<4 | sample_rate<<2 | sound_bits<<1 | channels` (for fields within their bit widths
this is `codec*16 + sample_rate*4 + sound_bits*2 + channels`), then, only for AAC, one
packet-type byte (0 for a sequence header, else 1), then the unmodified payload.  For a
video sample of codec AVC, HEVC or AV1 it sets the type to video and writes the header byte
`frame_type<<4 | codec`, one packet-type byte (0 for a sequence header, else 1), the low 24
bits of pts - dts as 3 big-endian bytes, then the unmodified payload. -/
theorem mp4_to_flv_tag_layout (k : SrsCodecIds) (s : srs_mp4_sample_t) (type : Int) :
    (srs_mp4_to_flv_tag k s type).ret = ERROR_SUCCESS
      ∧ (srs_mp4_to_flv_tag k s type).time = s.dts
      ∧ (s.handler_type = k.SrsMp4HandlerTypeSOUN →
          (srs_mp4_to_flv_tag k s type).type = 8
            ∧ (srs_mp4_to_flv_tag k s type).data
              = [Fin.ofNat ((s.codec <<< 4) % 256 ||| (s.sample_rate <<< 2) % 256
                    ||| (s.sound_bits <<< 1) % 256 ||| s.channels)]
                ++ (if s.codec = 10 then [if s.frame_trait = 0 then (0 : Byte) else 1] else [])
                ++ s.sample
            ∧ (s.codec < 16 → s.sample_rate < 4 → s.sound_bits < 2 → s.channels < 2 →
                ((srs_mp4_to_flv_tag k s type).data.head?).map (fun b => b.val)
                  = some (s.codec * 16 + s.sample_rate * 4 + s.sound_bits * 2 + s.channels)))
      ∧ (s.handler_type ≠ k.SrsMp4HandlerTypeSOUN →
          (s.codec = 7 ∨ s.codec = k.SrsVideoCodecIdHEVC ∨ s.codec = k.SrsVideoCodecIdAV1) →
          (srs_mp4_to_flv_tag k s type).type = 9
            ∧ (srs_mp4_to_flv_tag k s type).data
              = [Fin.ofNat ((s.frame_type <<< 4) % 256 ||| s.codec % 256),
                 if s.frame_trait = 0 then (0 : Byte) else 1]
                ++ [Fin.ofNat (toUInt32 ((s.pts : Int) - (s.dts : Int)) / 65536),
                    Fin.ofNat (toUInt32 ((s.pts : Int) - (s.dts : Int)) / 256),
                    Fin.ofNat (toUInt32 ((s.pts : Int) - (s.dts : Int)))]
                ++ s.sample
            ∧ (s.frame_type < 16 → s.codec < 16 →
                ((srs_mp4_to_flv_tag k s type).data.head?).map (fun b => b.val)
                  = some (s.frame_type * 16 + s.codec))) := by
  refine ⟨?_, ?_, ?_, ?_⟩
  · unfold srs_mp4_to_flv_tag
    split
    · rfl
    · dsimp only
      split <;> rfl
  · unfold srs_mp4_to_flv_tag
    split
    · rfl
    · dsimp only
      split <;> rfl
  · intro hs
    refine ⟨?_, ?_, ?_⟩
    · simp [srs_mp4_to_flv_tag, hs, SRS_RTMP_TYPE_AUDIO]
    · simp [srs_mp4_to_flv_tag, hs, SrsAudioCodecIdAAC, SrsAudioAacFrameTraitSequenceHeader]
    · intro h1 h2 h3 h4
      have h := audio_header_bits ⟨s.codec, h1⟩ ⟨s.sample_rate, h2⟩ ⟨s.sound_bits, h3⟩
        ⟨s.channels, h4⟩
      simp only at h
      simp [srs_mp4_to_flv_tag, hs, fin_ofNat_val, h]
  · intro hs hc
    have hc2 : s.codec = SrsVideoCodecIdAVC ∨ s.codec = k.SrsVideoCodecIdHEVC
        ∨ s.codec = k.SrsVideoCodecIdAV1 := hc
    refine ⟨?_, ?_, ?_⟩
    · simp [srs_mp4_to_flv_tag, hs, hc2, SRS_RTMP_TYPE_VIDEO]
    · simp [srs_mp4_to_flv_tag, hs, hc2, SrsVideoAvcFrameTraitSequenceHeader, u24be]
    · intro h1 h2
      have h := video_header_bits ⟨s.frame_type, h1⟩ ⟨s.codec, h2⟩
      simp only at h
      simp [srs_mp4_to_flv_tag, hs, hc2, fin_ofNat_val, h]

/-- C16 (witness): the AAC sample gives the audio tag `AF 01 21 10` at time 1000, the H.264
sample with pts - dts = 40 gives the video tag `27 01 00 00 28 ..` at time 1000. -/
theorem mp4_to_flv_tag_layout_witness :
    srs_mp4_to_flv_tag specIds aacSample 0
        = { ret := ERROR_SUCCESS, type := 8, time := 1000, data := [0xaf, 0x01, 0x21, 0x10] }
      ∧ srs_mp4_to_flv_tag specIds avcSample 0
        = { ret := ERROR_SUCCESS, type := 9, time := 1000,
            data := [0x27, 0x01, 0x00, 0x00, 0x28, 0x00, 0x00, 0x00, 0x01, 0x41] }
      ∧ ((srs_mp4_to_flv_tag specIds aacSample 0).data.head?).map (fun b => b.val)
        = some (10 * 16 + 3 * 4 + 1 * 2 + 1) :=
  ⟨by decide, by decide,
    ((mp4_to_flv_tag_layout specIds aacSample 0).2.2.1 rfl).2.2 (by decide) (by decide)
      (by decide) (by decide)⟩

/-! ## C20: the getters of the video tag header -/

/-- C20: the video tag getters decode the header as frame_type(4) | codec_id(4).
`srs_utils_flv_video_codec_id` returns 0 for an empty tag and `data[0] & 0x0F` otherwise.
`srs_utils_flv_video_frame_type` returns `data[0] >> 4` when the tag is not empty, the codec
is H.264 or HEVC and that value is in 1..5, and -1 otherwise.
`srs_utils_flv_video_avc_packet_type` returns `data[1]` when the tag has at least 2 bytes,
the codec is H.264 or HEVC and `data[1] <= 2`, and -1 otherwise (in particular for a tag of
fewer than 2 bytes). -/
theorem video_getters (flv : SrsFlvVideo) :
    srs_utils_flv_video_codec_id [] = 0
      ∧ (∀ (b0 : Byte) (rest : List Byte),
          srs_utils_flv_video_codec_id (b0 :: rest) = ((b0.val % 16 : Nat) : Int))
      ∧ srs_utils_flv_video_frame_type flv [] = -1
      ∧ (∀ (b0 : Byte) (rest : List Byte),
          srs_utils_flv_video_frame_type flv (b0 :: rest)
            = if (flv.h264 (b0 :: rest) = true ∨ flv.hevc (b0 :: rest) = true)
                  ∧ 1 ≤ b0.val / 16 ∧ b0.val / 16 ≤ 5
              then ((b0.val / 16 : Nat) : Int) else -1)
      ∧ srs_utils_flv_video_avc_packet_type flv [] = -1
      ∧ (∀ b0 : Byte, srs_utils_flv_video_avc_packet_type flv [b0] = -1)
      ∧ (∀ (b0 b1 : Byte) (rest : List Byte),
          srs_utils_flv_video_avc_packet_type flv (b0 :: b1 :: rest)
            = if (flv.h264 (b0 :: b1 :: rest) = true ∨ flv.hevc (b0 :: b1 :: rest) = true)
                  ∧ b1.val ≤ 2
              then ((b1.val : Nat) : Int) else -1) := by
  have hlow : ∀ b : Byte, b.val &&& 0x0F = b.val % 16 := by
    intro b
    exact Nat.and_pow_two_sub_one_eq_mod b.val 4
  have hhigh : ∀ b : Byte, (b.val >>> 4) &&& 0x0f = b.val / 16 := by
    intro b
    have hb := b.isLt
    have h1 : b.val >>> 4 = b.val / 16 := by
      rw [Nat.shiftRight_eq_div_pow]
    rw [h1]
    have h2 := Nat.and_pow_two_sub_one_eq_mod (b.val / 16) 4
    have h3 : b.val / 16 % 2 ^ 4 = b.val / 16 := by
      apply Nat.mod_eq_of_lt
      norm_num
      omega
    rw [h3] at h2
    exact h2
  refine ⟨rfl, ?_, rfl, ?_, rfl, ?_, ?_⟩
  · intro b0 rest
    simp only [srs_utils_flv_video_codec_id, hlow]
  · intro b0 rest
    unfold srs_utils_flv_video_frame_type
    by_cases hc : (!flv.h264 (b0 :: rest) && !flv.hevc (b0 :: rest)) = true
    · have hc2 : flv.h264 (b0 :: rest) = false ∧ flv.hevc (b0 :: rest) = false := by
        simpa using hc
      simp [hc2.1, hc2.2]
    · have hc3 : flv.h264 (b0 :: rest) = true ∨ flv.hevc (b0 :: rest) = true := by
        cases h1 : flv.h264 (b0 :: rest) <;> cases h2 : flv.hevc (b0 :: rest) <;>
          simp [h1, h2] at hc ⊢
      simp only [List.length_cons, List.getD_cons_zero, hhigh, hc, hc3]
      by_cases hr : 1 ≤ b0.val / 16 ∧ b0.val / 16 ≤ 5
      · have hr2 : ¬ (b0.val / 16 < 1 ∨ b0.val / 16 > 5) := by omega
        simp [hr, hr2]
        intro h
        omega
      · have hr2 : b0.val / 16 < 1 ∨ b0.val / 16 > 5 := by omega
        simp [hr, hr2]
        intro h1 h2
        omega
  · intro b0
    rfl
  · intro b0 b1 rest
    unfold srs_utils_flv_video_avc_packet_type
    by_cases hc : (!flv.h264 (b0 :: b1 :: rest) && !flv.hevc (b0 :: b1 :: rest)) = true
    · have hc2 : flv.h264 (b0 :: b1 :: rest) = false ∧ flv.hevc (b0 :: b1 :: rest) = false := by
        simpa using hc
      simp [hc2.1, hc2.2]
    · have hc3 : flv.h264 (b0 :: b1 :: rest) = true ∨ flv.hevc (b0 :: b1 :: rest) = true := by
        cases h1 : flv.h264 (b0 :: b1 :: rest) <;> cases h2 : flv.hevc (b0 :: b1 :: rest) <;>
          simp [h1, h2] at hc ⊢
      by_cases hr : b1.val ≤ 2
      · have hr2 : ¬ (b1.val > 2) := by omega
        simp [hc, hc3, hr, hr2]
      · have hr2 : b1.val > 2 := by omega
        simp [hc, hc3, hr, hr2]

/-! ## Lemmas on the NALU inspector -/

theorem shl_or_eq_add (a b i : Nat) (hb : b < 2 ^ i) : a <<< i ||| b = a * 2 ^ i + b := by
  rw [Nat.shiftLeft_eq, Nat.mul_comm]
  exact (Nat.mul_add_lt_is_or hb a).symm

theorem be32_decode (a b c d : Nat) (hb : b < 256) (hc : c < 256) (hd : d < 256) :
    a <<< 24 ||| b <<< 16 ||| c <<< 8 ||| d = a * 16777216 + b * 65536 + c * 256 + d := by
  have p8 : (2 : Nat) ^ 8 = 256 := by norm_num
  have p16 : (2 : Nat) ^ 16 = 65536 := by norm_num
  have p24 : (2 : Nat) ^ 24 = 16777216 := by norm_num
  have hb16 : b <<< 16 = b * 65536 := by rw [Nat.shiftLeft_eq, p16]
  have hc8 : c <<< 8 = c * 256 := by rw [Nat.shiftLeft_eq, p8]
  have h1 : a <<< 24 ||| b <<< 16 = a * 16777216 + b * 65536 := by
    rw [hb16, shl_or_eq_add a (b * 65536) 24 (by rw [p24]; omega), p24]
  have h2 : a * 16777216 + b * 65536 = (a * 256 + b) <<< 16 := by
    rw [Nat.shiftLeft_eq, p16]
    omega
  have h3 : (a * 256 + b) <<< 16 ||| c <<< 8 = a * 16777216 + b * 65536 + c * 256 := by
    rw [hc8, shl_or_eq_add (a * 256 + b) (c * 256) 16 (by rw [p16]; omega), p16]
    omega
  have h4 : a * 16777216 + b * 65536 + c * 256 = (a * 65536 + b * 256 + c) <<< 8 := by
    rw [Nat.shiftLeft_eq, p8]
    omega
  rw [h1, h2, h3, h4, shl_or_eq_add _ d 8 (by rw [p8]; exact hd), p8]
  omega

theorem peek_append (beyond : Nat → Byte) (front rest : List Byte) (i : Nat)
    (hi : i < rest.length) :
    peek beyond (front ++ rest) (front.length + i) = (rest.getD i 0).val := by
  unfold peek
  rw [List.getD_append_right _ _ _ _ (by omega)]
  have h : front.length + i - front.length = i := by omega
  rw [h, List.getD_eq_getElem _ _ hi, List.getD_eq_getElem _ _ hi]

theorem nalu_payload_length_nonneg (nalus : List (List Byte)) :
    nalus.length ≤ (nalu_payload nalus).length := by
  induction nalus with
  | nil => simp [nalu_payload]
  | cons n rest ih =>
    simp only [nalu_payload, List.length_append, List.length_cons, u32be, List.length_nil]
    omega

theorem getD_table (table : List String) (oob : String) (t : Nat) (ht : t ≠ table.length) :
    (if t > table.length then "Unkown" else table.getD t oob) = table.getD t "Unkown" := by
  by_cases h : t > table.length
  · rw [if_pos h, List.getD_eq_default _ _ (by omega)]
  · have hlt : t < table.length := by omega
    rw [if_neg h, List.getD_eq_getElem _ _ hlt, List.getD_eq_getElem _ _ hlt]

set_option maxRecDepth 100000 in
theorem h264_entry_fits (t : Fin 32) :
    c_snprintf 64 (H264_NALU_NAME.getD t.val "Unkown" ++ "(" ++ toString t.val ++ ") ")
      = H264_NALU_NAME.getD t.val "Unkown" ++ "(" ++ toString t.val ++ ") " := by
  revert t
  decide

set_option maxRecDepth 100000 in
theorem hevc_entry_fits (t : Fin 64) :
    c_snprintf 64 (HEVC_NALU_NAME.getD t.val "Unkown" ++ "(" ++ toString t.val ++ ") ")
      = HEVC_NALU_NAME.getD t.val "Unkown" ++ "(" ++ toString t.val ++ ") " := by
  revert t
  decide

theorem and_1f_lt (b : Nat) : b &&& 0x1f < 32 := by
  have h := Nat.and_pow_two_sub_one_eq_mod b 5
  have h2 : (2 : Nat) ^ 5 - 1 = 0x1f := by norm_num
  rw [h2] at h
  rw [h]
  exact Nat.mod_lt _ (by norm_num)

theorem and_7e_shr_lt (b : Nat) : (b &&& 0x7e) >>> 1 < 64 := by
  have h1 : b &&& 0x7e ≤ 0x7e := Nat.and_le_right
  rw [Nat.shiftRight_eq_div_pow]
  omega

theorem visit_nalu_list (k : SrsCodecIds) (oob : String) (beyond : Nat → Byte)
    (data : List Byte) (avc : Bool) (codec_id : Int) (w : NaluWalk) (len p2 : Nat)
    (n : List Byte)
    (hcodec : codec_id = if avc then 7 else (k.SrsVideoCodecIdHEVC : Int))
    (hk : (k.SrsVideoCodecIdHEVC : Int) ≠ 7)
    (ht : spec_nalu_type avc n ≠ (nalu_name_table avc).length) :
    (human_h2645_nalu_visit k oob beyond data codec_id w len p2 (n.headD 0).val).nalu_list
      = w.nalu_list ++ spec_nalu_entry avc n := by
  cases avc with
  | true =>
    have hc : codec_id = ((SrsVideoCodecIdAVC : Nat) : Int) := by
      rw [hcodec]
      rfl
    have ht2 : (n.headD 0).val &&& 0x1f ≠ H264_NALU_NAME.length := ht
    have hname := getD_table H264_NALU_NAME oob _ ht2
    have hfit := h264_entry_fits ⟨(n.headD 0).val &&& 0x1f, and_1f_lt _⟩
    simp only at hfit
    unfold human_h2645_nalu_visit
    rw [if_pos hc]
    simp only [get_nalu_name]
    rw [if_pos hc, hname, hfit]
    rfl
  | false =>
    have hc : codec_id = (k.SrsVideoCodecIdHEVC : Int) := by
      rw [hcodec]
      rfl
    have hc7 : ¬ codec_id = ((SrsVideoCodecIdAVC : Nat) : Int) := by
      rw [hc]
      exact hk
    have ht2 : ((n.headD 0).val &&& 0x7e) >>> 1 ≠ HEVC_NALU_NAME.length := ht
    have hname := getD_table HEVC_NALU_NAME oob _ ht2
    have hfit := hevc_entry_fits ⟨((n.headD 0).val &&& 0x7e) >>> 1, and_7e_shr_lt _⟩
    simp only at hfit
    unfold human_h2645_nalu_visit
    rw [if_neg hc7, if_pos hc]
    simp only [get_nalu_name]
    rw [if_neg hc7, if_pos hc, hname, hfit]
    rfl

theorem nalu_loop_unfold (k : SrsCodecIds) (oob : String) (beyond : Nat → Byte)
    (codec_id : Int) (front n rest : List Byte) (w : NaluWalk) (fuel : Nat)
    (hp : w.p = front.length)
    (hleft : w.left_size = ((u32be n.length ++ n ++ rest).length : Int))
    (hn : 2 ≤ n.length)
    (hsize : (front ++ (u32be n.length ++ n ++ rest)).length < 2147483648) :
    human_h2645_nalu_loop k oob beyond (front ++ (u32be n.length ++ n ++ rest)) codec_id
        (fuel + 1) w
      = human_h2645_nalu_loop k oob beyond (front ++ (u32be n.length ++ n ++ rest)) codec_id
          fuel
          { human_h2645_nalu_visit k oob beyond (front ++ (u32be n.length ++ n ++ rest))
              codec_id
              { w with
                p := w.p + 4 + 1, left_size := w.left_size - 4,
                reads := w.reads ++ [w.p, w.p + 1, w.p + 2, w.p + 3] ++ [w.p + 4] }
              n.length (w.p + 4 + 1) (n.headD 0).val with
            p := w.p + 4 + 1 + toUInt32 ((n.length : Int) - 1),
            left_size := toInt32 (w.left_size - 4 - (n.length : Int)) } := by
  have hlen : (u32be n.length ++ n ++ rest).length = 4 + n.length + rest.length := by
    simp [u32be]
    omega
  have hsz : front.length + (4 + n.length + rest.length) < 2147483648 := by
    rw [List.length_append, hlen] at hsize
    exact hsize
  have hpk : ∀ i, i < (u32be n.length ++ n ++ rest).length →
      peek beyond (front ++ (u32be n.length ++ n ++ rest)) (w.p + i)
        = ((u32be n.length ++ n ++ rest).getD i 0).val := by
    intro i hi
    rw [hp]
    exact peek_append beyond front _ i hi
  have h0 : peek beyond (front ++ (u32be n.length ++ n ++ rest)) w.p
      = n.length / 16777216 % 256 := hpk 0 (by omega)
  have h1 : peek beyond (front ++ (u32be n.length ++ n ++ rest)) (w.p + 1)
      = n.length / 65536 % 256 := hpk 1 (by omega)
  have h2 : peek beyond (front ++ (u32be n.length ++ n ++ rest)) (w.p + 2)
      = n.length / 256 % 256 := hpk 2 (by omega)
  have h3 : peek beyond (front ++ (u32be n.length ++ n ++ rest)) (w.p + 3)
      = n.length % 256 := hpk 3 (by omega)
  have h4 : peek beyond (front ++ (u32be n.length ++ n ++ rest)) (w.p + 4)
      = (n.headD 0).val := by
    rw [hpk 4 (by omega)]
    cases n with
    | nil => simp at hn
    | cons b n' => rfl
  have hlen0 : (peek beyond (front ++ (u32be n.length ++ n ++ rest)) w.p <<< 24
      ||| peek beyond (front ++ (u32be n.length ++ n ++ rest)) (w.p + 1) <<< 16
      ||| peek beyond (front ++ (u32be n.length ++ n ++ rest)) (w.p + 2) <<< 8
      ||| peek beyond (front ++ (u32be n.length ++ n ++ rest)) (w.p + 3)) % 4294967296
      = n.length := by
    rw [h0, h1, h2, h3, be32_decode _ _ _ _ (Nat.mod_lt _ (by norm_num))
      (Nat.mod_lt _ (by norm_num)) (Nat.mod_lt _ (by norm_num))]
    omega
  have hne1 : ¬ n.length = 1 := by omega
  have hpos : ¬ ¬ (w.left_size > 0) := by
    rw [hleft, hlen]
    omega
  have hge4 : ¬ w.left_size < 4 := by
    rw [hleft, hlen]
    omega
  have hfit : ¬ ((n.length : Int) > w.left_size - 4) := by
    rw [hleft, hlen]
    omega
  rw [human_h2645_nalu_loop]
  dsimp only
  rw [if_neg hpos, if_neg hge4, hlen0, if_neg hne1, if_neg hne1, if_neg hfit, h4]

theorem nalu_loop_lists (k : SrsCodecIds) (oob : String) (beyond : Nat → Byte) (avc : Bool)
    (codec_id : Int)
    (hcodec : codec_id = if avc then 7 else (k.SrsVideoCodecIdHEVC : Int))
    (hk : (k.SrsVideoCodecIdHEVC : Int) ≠ 7)
    (nalus : List (List Byte)) :
    ∀ (front : List Byte) (w : NaluWalk) (fuel : Nat),
      w.p = front.length →
      w.left_size = ((nalu_payload nalus).length : Int) →
      (front ++ nalu_payload nalus).length < 2147483648 →
      (∀ n ∈ nalus, 2 ≤ n.length ∧ spec_nalu_type avc n ≠ (nalu_name_table avc).length) →
      nalus.length < fuel →
      ∃ w', human_h2645_nalu_loop k oob beyond (front ++ nalu_payload nalus) codec_id fuel w
          = some w'
        ∧ w'.nalu_list = w.nalu_list ++ spec_nalu_list avc nalus := by
  induction nalus with
  | nil =>
    intro front w fuel hp hleft hsize hn hfuel
    obtain ⟨f, rfl⟩ : ∃ f, fuel = f + 1 := ⟨fuel - 1, by omega⟩
    refine ⟨w, ?_, ?_⟩
    · rw [human_h2645_nalu_loop, if_pos]
      rw [hleft]
      simp [nalu_payload]
    · simp [spec_nalu_list]
  | cons n rest ih =>
    intro front w fuel hp hleft hsize hn hfuel
    obtain ⟨f, rfl⟩ : ∃ f, fuel = f + 1 := ⟨fuel - 1, by omega⟩
    have hn1 := hn n (by simp)
    have hdata : front ++ nalu_payload (n :: rest)
        = front ++ (u32be n.length ++ n ++ nalu_payload rest) := rfl
    have hdata2 : front ++ nalu_payload (n :: rest)
        = (front ++ (u32be n.length ++ n)) ++ nalu_payload rest := by
      rw [hdata]
      simp
    have hlen : (u32be n.length ++ n ++ nalu_payload rest).length
        = 4 + n.length + (nalu_payload rest).length := by
      simp [u32be]
      omega
    have hsz : front.length + (4 + n.length + (nalu_payload rest).length) < 2147483648 := by
      rw [hdata, List.length_append, hlen] at hsize
      exact hsize
    have hleft2 : w.left_size = (4 + n.length + (nalu_payload rest).length : Nat) := by
      rw [hleft]
      exact congrArg Nat.cast hlen
    rw [hdata, nalu_loop_unfold k oob beyond codec_id front n (nalu_payload rest) w f hp
      hleft hn1.1 (by rw [← hdata]; exact hsize)]
    rw [← hdata, hdata2]
    have hsize2 : (front ++ (u32be n.length ++ n) ++ nalu_payload rest).length
        < 2147483648 := by
      rw [← hdata2]
      exact hsize
    obtain ⟨w', hw', hl'⟩ := ih (front ++ (u32be n.length ++ n))
      { human_h2645_nalu_visit k oob beyond
          (front ++ (u32be n.length ++ n) ++ nalu_payload rest) codec_id
          { w with
            p := w.p + 4 + 1, left_size := w.left_size - 4,
            reads := w.reads ++ [w.p, w.p + 1, w.p + 2, w.p + 3] ++ [w.p + 4] }
          n.length (w.p + 4 + 1) (n.headD 0).val with
        p := w.p + 4 + 1 + toUInt32 ((n.length : Int) - 1),
        left_size := toInt32 (w.left_size - 4 - (n.length : Int)) } f
      (by
        simp only [List.length_append, u32be, List.length_cons, List.length_nil]
        rw [hp]
        unfold toUInt32
        omega)
      (by
        simp only
        rw [hleft2]
        unfold toInt32
        push_cast
        omega)
      hsize2
      (fun m hm => hn m (by simp [hm]))
      (by simp at hfuel; omega)
    refine ⟨w', hw', ?_⟩
    rw [hl']
    simp only
    rw [visit_nalu_list k oob beyond _ avc codec_id _ _ _ n hcodec hk hn1.2]
    simp only [spec_nalu_list, String.append_assoc]

/-! ## C17: the NALU list of the inspector -/

/-- C17 (as stated, refuted): the H.264 NALU tag whose payload is the two length-prefixed
NALUs `0A` (end of sequence, 1 byte) and `65 88` (IDR) satisfies the premise of the claim,
yet the returned string is `NALU: EOS(10) ` followed by the dump and does not list the
IDR: a length prefix equal to 1 makes the function take the payload for Annex-B and scan
for a start code, so the first NALU swallows the rest of the payload. -/
theorem human_h2645_nalu_one_byte_nalu_swallows_rest :
    eosIdrTag = avcNaluPrelude ++ nalu_payload [[0x0a], [0x65, 0x88]]
      ∧ srs_utils_flv_video_codec_id eosIdrTag = 7
      ∧ srs_utils_flv_video_avc_packet_type (specFlvVideo 12 13) eosIdrTag = 1
      ∧ spec_nalu_list true [[0x0a], [0x65, 0x88]] = "EOS(10) I(5) "
      ∧ (human_h2645_nalu 3 specIds (specFlvVideo 12 13) "" beyondAA eosIdrTag).map
          (fun r => r.str) = some "NALU: EOS(10) \nEOS:00 00 02 65 88 AA \n" := by
  decide

/-- C17 (amended): for every H.264 or HEVC NALU video tag (packet type 1) of fewer than 2^31
bytes whose bytes after the 5-byte prelude are a sequence of NALUs each prefixed by its
big-endian u32 length, each NALU at least 2 bytes long and of a type other than the number
of entries of the name table (12 for H.264, 41 for HEVC), `human_h2645_nalu` returns (given
fuel for one iteration per NALU and one more) a string that begins with `NALU: ` followed,
for each NALU in payload order, by `<name>(<type>) ` and then a line feed, where type is
`byte0 & 0x1F` for H.264 and `(byte0 & 0x7E) >> 1` for HEVC and name is the entry of that
type in the name table of the codec, or `Unkown` for a type past the table. -/
theorem human_h2645_nalu_lists_nalus (fuel : Nat) (k : SrsCodecIds) (flv : SrsFlvVideo)
    (oob : String) (beyond : Nat → Byte) (avc : Bool) (pre : List Byte)
    (nalus : List (List Byte))
    (hpre : pre.length = 5)
    (hsize : (pre ++ nalu_payload nalus).length < 2147483648)
    (hcodec : srs_utils_flv_video_codec_id (pre ++ nalu_payload nalus)
      = if avc then 7 else (k.SrsVideoCodecIdHEVC : Int))
    (hk : (k.SrsVideoCodecIdHEVC : Int) ≠ 7)
    (hpt : srs_utils_flv_video_avc_packet_type flv (pre ++ nalu_payload nalus) = 1)
    (hn : ∀ n ∈ nalus, 2 ≤ n.length ∧ spec_nalu_type avc n ≠ (nalu_name_table avc).length)
    (hfuel : nalus.length < fuel) :
    ∃ nalu_data reads,
      human_h2645_nalu fuel k flv oob beyond (pre ++ nalu_payload nalus)
        = some { str := "NALU: " ++ spec_nalu_list avc nalus ++ "\n" ++ nalu_data,
                 reads := reads } := by
  obtain ⟨w', hw', hl'⟩ := nalu_loop_lists k oob beyond avc
    (srs_utils_flv_video_codec_id (pre ++ nalu_payload nalus)) hcodec hk nalus pre
    { p := 5, left_size := ((pre ++ nalu_payload nalus).length : Int) - 5,
      nalu_list := "NALU: ", nalu_data := "", reads := [] } fuel
    (by rw [hpre])
    (by
      simp only [List.length_append, hpre]
      push_cast
      omega)
    hsize hn hfuel
  have hc : ¬ (srs_utils_flv_video_codec_id (pre ++ nalu_payload nalus)
        ≠ ((SrsVideoCodecIdAVC : Nat) : Int)
      ∧ srs_utils_flv_video_codec_id (pre ++ nalu_payload nalus)
        ≠ (k.SrsVideoCodecIdHEVC : Int)) := by
    rw [hcodec]
    cases avc with
    | true =>
      intro h
      exact h.1 rfl
    | false =>
      intro h
      exact h.2 rfl
  refine ⟨w'.nalu_data, w'.reads, ?_⟩
  unfold human_h2645_nalu
  dsimp only
  rw [if_neg hc, if_neg (by rw [hpt]; simp), hw']
  simp only [hl']

/-- C17 (witness): the H.264 NALU tag with the SPS `67 42 00 1F` and the IDR `65 88 84`
meets the hypotheses; the returned string begins with `NALU: SPS(7) I(5) `. -/
theorem human_h2645_nalu_lists_nalus_witness :
    spec_nalu_list true [spsNalu, idrNalu] = "SPS(7) I(5) "
      ∧ ∃ nalu_data reads,
        human_h2645_nalu 3 specIds (specFlvVideo 12 13) "" beyondAA
            (avcNaluPrelude ++ nalu_payload [spsNalu, idrNalu])
          = some { str := "NALU: " ++ spec_nalu_list true [spsNalu, idrNalu] ++ "\n"
                     ++ nalu_data,
                   reads := reads } :=
  ⟨by decide,
    human_h2645_nalu_lists_nalus 3 specIds (specFlvVideo 12 13) "" beyondAA true
      avcNaluPrelude [spsNalu, idrNalu] (by decide) (by decide) (by decide) (by decide)
      (by decide) (by decide) (by decide)⟩

/-! ## C18: the hex dump of the inspector -/

/-- C18 (the code evaluated): for the H.264 NALU tag whose only NALU is an SPS (type 7) of
20 bytes, header `67` and body `01 02 .. 13`, the dump line is `SPS:` followed by the 16
bytes `02 .. 11`: the H.264 branch tests `HEVC_NALU_SPS` (33) where `H264_NALU_SPS` (7) is
meant, so the SPS is cut at 16 bytes, and the dump reads `p[i+1]`, so the first byte of the
body is left out.  The bytes `01`, `12` and `13` of the body are not in the line. -/
theorem human_h2645_nalu_h264_sps_dump_cut :
    longSpsTag = avcNaluPrelude ++ nalu_payload [longSpsNalu]
      ∧ spec_nalu_type true longSpsNalu = H264_NALU_SPS
      ∧ longSpsNalu.length = 20
      ∧ (human_h2645_nalu 2 specIds (specFlvVideo 12 13) "" beyondAA longSpsTag).map
          (fun r => r.str)
        = some "NALU: SPS(7) \nSPS:02 03 04 05 06 07 08 09 0A 0B 0C 0D 0E 0F 10 11 \n" := by
  decide

/-! ## C21: the getters of the audio tag header -/

set_option maxRecDepth 100000 in
theorem sound_format_byte (b : Byte) :
    srs_utils_flv_audio_sound_format [b]
      = if b.val / 16 = 12 then -1 else ((b.val / 16 : Nat) : Int) := by
  revert b
  decide

set_option maxRecDepth 100000 in
theorem sound_size_byte (b : Byte) :
    srs_utils_flv_audio_sound_size [b] = ((b.val / 2 % 2 : Nat) : Int) := by
  revert b
  decide

set_option maxRecDepth 100000 in
theorem sound_type_byte (b : Byte) :
    srs_utils_flv_audio_sound_type [b] = ((b.val % 2 : Nat) : Int) := by
  revert b
  decide

set_option maxRecDepth 100000 in
theorem sound_format_uint8 (b : Byte) :
    toUInt32 (srs_utils_flv_audio_sound_format [b]) % 256
      = if b.val / 16 = 12 then 255 else b.val / 16 := by
  revert b
  decide

set_option maxRecDepth 100000 in
theorem uint8_to_char_byte (b : Byte) : uint8_to_char b.val = toInt8 b := by
  revert b
  decide

theorem sound_format_head (b0 : Byte) (rest : List Byte) :
    srs_utils_flv_audio_sound_format (b0 :: rest) = srs_utils_flv_audio_sound_format [b0] := by
  simp [srs_utils_flv_audio_sound_format]

/-- C21: the audio tag getters decode the first byte as
sound_format(4) | sound_rate(2) | sound_size(1) | sound_type(1).  For a tag of at least one
byte `srs_utils_flv_audio_sound_format` returns the high nibble `data[0] / 16`, except -1
for the value 12, `srs_utils_flv_audio_sound_size` returns bit 1 and
`srs_utils_flv_audio_sound_type` returns bit 0.  `srs_utils_flv_audio_aac_packet_type`
returns the char `data[1]` when the tag has at least 2 bytes and the format is AAC (10) or
Opus (13), and -1 otherwise (in particular for a tag of fewer than 2 bytes). -/
theorem audio_getters :
    (∀ (b0 : Byte) (rest : List Byte),
        srs_utils_flv_audio_sound_format (b0 :: rest)
          = if b0.val / 16 = 12 then -1 else ((b0.val / 16 : Nat) : Int))
      ∧ (∀ (b0 : Byte) (rest : List Byte),
        srs_utils_flv_audio_sound_size (b0 :: rest) = ((b0.val / 2 % 2 : Nat) : Int))
      ∧ (∀ (b0 : Byte) (rest : List Byte),
        srs_utils_flv_audio_sound_type (b0 :: rest) = ((b0.val % 2 : Nat) : Int))
      ∧ srs_utils_flv_audio_aac_packet_type [] = -1
      ∧ (∀ b0 : Byte, srs_utils_flv_audio_aac_packet_type [b0] = -1)
      ∧ (∀ (b0 b1 : Byte) (rest : List Byte),
        srs_utils_flv_audio_aac_packet_type (b0 :: b1 :: rest)
          = if b0.val / 16 = 10 ∨ b0.val / 16 = 13 then toInt8 b1 else -1) := by
  refine ⟨?_, ?_, ?_, rfl, ?_, ?_⟩
  · intro b0 rest
    rw [sound_format_head, sound_format_byte]
  · intro b0 rest
    have h : srs_utils_flv_audio_sound_size (b0 :: rest) = srs_utils_flv_audio_sound_size [b0] := by
      simp [srs_utils_flv_audio_sound_size]
    rw [h, sound_size_byte]
  · intro b0 rest
    have h : srs_utils_flv_audio_sound_type (b0 :: rest) = srs_utils_flv_audio_sound_type [b0] := by
      simp [srs_utils_flv_audio_sound_type]
    rw [h, sound_type_byte]
  · intro b0
    rfl
  · intro b0 b1 rest
    unfold srs_utils_flv_audio_aac_packet_type
    rw [if_neg (by simp)]
    dsimp only
    rw [sound_format_head b0 (b1 :: rest), sound_format_uint8 b0]
    have hb := b0.isLt
    simp only [List.getD_cons_succ, List.getD_cons_zero, uint8_to_char_byte, SrsAudioCodecIdAAC,
      SrsAudioCodecIdOpus]
    by_cases h12 : b0.val / 16 = 12
    · rw [if_pos h12, if_pos (by omega), if_neg (by omega)]
    · rw [if_neg h12]
      by_cases h : b0.val / 16 = 10 ∨ b0.val / 16 = 13
      · rw [if_neg (by omega), if_pos h]
      · rw [if_pos (by omega), if_neg h]

/-! ## C23: the socket timeouts after connecting -/

/-- C23: after `srs_rtmp_connect_server`, whatever the connect returns, the send timeout of
the session is the one it had before unless that was the no-timeout sentinel, in which case
it is 30000 ms, and independently the same holds for the receive timeout.  So after
`srs_rtmp_set_timeout recv send` and the connect the send timeout is `send` (30000 if `send`
is the sentinel) and the receive timeout is `recv` (30000 if `recv` is the sentinel), and on
a fresh session both are 30000.  The socket is given the same values, scaled by
`SRS_UTIME_MILLISECONDS`. -/
theorem connect_server_timeouts (u : SrsUtimeConsts) (connect : SrsErrorCode)
    (context : TimeoutContext) (recv send : Int) :
    (srs_rtmp_connect_server u connect context).2.stimeout
        = (if context.stimeout = u.SRS_UTIME_NO_TIMEOUT then 30000 else context.stimeout)
      ∧ (srs_rtmp_connect_server u connect context).2.rtimeout
        = (if context.rtimeout = u.SRS_UTIME_NO_TIMEOUT then 30000 else context.rtimeout)
      ∧ (srs_rtmp_connect_server u connect (srs_rtmp_set_timeout u context recv send).2).2.stimeout
        = (if send = u.SRS_UTIME_NO_TIMEOUT then 30000 else send)
      ∧ (srs_rtmp_connect_server u connect (srs_rtmp_set_timeout u context recv send).2).2.rtimeout
        = (if recv = u.SRS_UTIME_NO_TIMEOUT then 30000 else recv)
      ∧ (srs_rtmp_connect_server u connect (TimeoutContext.fresh u)).2.stimeout = 30000
      ∧ (srs_rtmp_connect_server u connect (TimeoutContext.fresh u)).2.rtimeout = 30000
      ∧ (srs_rtmp_connect_server u connect
            (srs_rtmp_set_timeout u context recv send).2).2.skt_send_timeout
        = some ((if send = u.SRS_UTIME_NO_TIMEOUT then 30000 else send)
            * u.SRS_UTIME_MILLISECONDS)
      ∧ (srs_rtmp_connect_server u connect
            (srs_rtmp_set_timeout u context recv send).2).2.skt_recv_timeout
        = some ((if recv = u.SRS_UTIME_NO_TIMEOUT then 30000 else recv)
            * u.SRS_UTIME_MILLISECONDS) := by
  have key : ∀ c : TimeoutContext,
      (srs_rtmp_connect_server u connect c).2
        = { stimeout := if c.stimeout = u.SRS_UTIME_NO_TIMEOUT then 30000 else c.stimeout,
            rtimeout := if c.rtimeout = u.SRS_UTIME_NO_TIMEOUT then 30000 else c.rtimeout,
            skt_send_timeout :=
              if c.stimeout = u.SRS_UTIME_NO_TIMEOUT then
                some (30000 * u.SRS_UTIME_MILLISECONDS)
              else c.skt_send_timeout,
            skt_recv_timeout :=
              if c.rtimeout = u.SRS_UTIME_NO_TIMEOUT then
                some (30000 * u.SRS_UTIME_MILLISECONDS)
              else c.skt_recv_timeout } := by
    intro c
    unfold srs_rtmp_connect_server
    by_cases hs : c.stimeout = u.SRS_UTIME_NO_TIMEOUT <;>
      by_cases hr : c.rtimeout = u.SRS_UTIME_NO_TIMEOUT <;>
      by_cases hc : connect = ERROR_SUCCESS <;>
      simp [hs, hr, hc, SRS_SOCKET_DEFAULT_TMMS]
  refine ⟨?_, ?_, ?_, ?_, ?_, ?_, ?_, ?_⟩
  · rw [key]
  · rw [key]
  · rw [key]
    rfl
  · rw [key]
    rfl
  · rw [key]
    simp [TimeoutContext.fresh]
  · rw [key]
    simp [TimeoutContext.fresh]
  · rw [key]
    simp only [srs_rtmp_set_timeout]
    split <;> rfl
  · rw [key]
    simp only [srs_rtmp_set_timeout]
    split <;> rfl

/-! ## C24: the size of the tag of an MP4 sample -/

/-- C24 (the code evaluated): for the HEVC video sample and for the AV1 video sample of 5
bytes `srs_mp4_sizeof` is 6 while `srs_mp4_to_flv_tag` writes 10 bytes, 4 more than the
caller was told to allocate; for the H.264 video sample both are 10 and for the AAC sample
of 2 bytes both are 4.  `srs_mp4_sizeof` adds the 5 bytes of prelude for AVC only. -/
theorem mp4_sizeof_short_for_hevc_av1 :
    srs_mp4_sizeof specIds hevcSample = 6
      ∧ (srs_mp4_to_flv_tag specIds hevcSample 0).data.length = 10
      ∧ srs_mp4_sizeof specIds av1Sample = 6
      ∧ (srs_mp4_to_flv_tag specIds av1Sample 0).data.length = 10
      ∧ srs_mp4_sizeof specIds avcSample = 10
      ∧ (srs_mp4_to_flv_tag specIds avcSample 0).data.length = 10
      ∧ srs_mp4_sizeof specIds aacSample = 4
      ∧ (srs_mp4_to_flv_tag specIds aacSample 0).data.length = 4 := by
  decide

/-! ## C25: the indices read by the NALU inspector -/

/-- C25 (the code evaluated): `human_h2645_nalu` reads past the buffer.  On the tag of 9
bytes whose payload is the length prefix `00 00 00 00` it reads the NALU type at index 9;
on the tag of 13 bytes `.. 00 00 00 01 41 00 00 00` the start-code scan reads index 13; on
the tag of 20 bytes holding an SPS and an IDR the hex dump of the last NALU reads index
20.  The lists are the indices read that are not below the size. -/
theorem human_h2645_nalu_reads_past_buffer :
    zeroLenTag.length = 9
      ∧ (human_h2645_nalu 3 specIds (specFlvVideo 12 13) pastTable beyondAA zeroLenTag).map
          (fun r => r.reads.filter (fun i => decide (zeroLenTag.length ≤ i))) = some [9]
      ∧ annexbZerosTag.length = 13
      ∧ (human_h2645_nalu 3 specIds (specFlvVideo 12 13) pastTable beyondAA annexbZerosTag).map
          (fun r => (r.reads.filter (fun i => decide (annexbZerosTag.length ≤ i))).take 1)
        = some [13]
      ∧ spsIdrTag.length = 20
      ∧ (human_h2645_nalu 3 specIds (specFlvVideo 12 13) pastTable beyondAA spsIdrTag).map
          (fun r => r.reads.filter (fun i => decide (spsIdrTag.length ≤ i))) = some [20] := by
  decide

/-! ## C26: the index into the NALU name tables -/

/-- C26 (the code evaluated): the name tables have 12 and 41 entries; for the H.264 type 12
and for the HEVC type 41 `get_nalu_name` does not return `Unkown` but the entry at index 12,
respectively 41, one past the table (the bound test is `>` where `>=` is needed).  The type
is reachable: for the H.264 tag with the NALU `0C 00` the NALU list of `human_h2645_nalu`
holds the string found past the table. -/
theorem get_nalu_name_indexes_past_table :
    H264_NALU_NAME.length = 12 ∧ HEVC_NALU_NAME.length = 41
      ∧ (∀ oob : String, get_nalu_name specIds oob 7 12 = oob)
      ∧ (∀ oob : String, get_nalu_name specIds oob 12 41 = oob)
      ∧ get_nalu_name specIds pastTable 7 13 = "Unkown"
      ∧ get_nalu_name specIds pastTable 12 42 = "Unkown"
      ∧ (human_h2645_nalu 3 specIds (specFlvVideo 12 13) pastTable beyondAA fillerTag).map
          (fun r => r.str) = some "NALU: PAST-THE-TABLE(12) \nPAST-THE-TABLE:AA \n"
      ∧ (human_h2645_nalu 3 specIds (specFlvVideo 12 13) pastTable beyondAA hevcType41Tag).map
          (fun r => r.str) = some "NALU: PAST-THE-TABLE(41) \nPAST-THE-TABLE:01 \n" := by
  refine ⟨by decide, by decide, fun _ => rfl, fun _ => rfl, by decide, by decide, by decide,
    by decide⟩

/-! ## C29: from an MP4 sample to a tag and back -/

set_option maxRecDepth 100000 in
theorem video_header_nibbles (f : Fin 16) (c : Fin 16) :
    (((f.val <<< 4) % 256 ||| c.val % 256) % 256) &&& 0x0F = c.val
      ∧ ((((f.val <<< 4) % 256 ||| c.val % 256) % 256) >>> 4) &&& 0x0f = f.val := by
  revert f c
  decide

/-- C29: for every video sample with codec H.264 or HEVC (the HEVC id fitting the 4 bits of
the header), frame_type in 1..5, a frame trait other than sequence header and
0 <= pts - dts < 2^24 (pts below 2^32), the tag produced by `srs_mp4_to_flv_tag` is decoded
back exactly, for every codec detector that takes the tag for H.264 or HEVC and not for a
sequence header: `srs_utils_parse_timestamp` at dts with the type set by the converter
succeeds with pts, `srs_utils_flv_video_codec_id` returns the codec,
`srs_utils_flv_video_frame_type` returns frame_type and
`srs_utils_flv_video_avc_packet_type` returns 1. -/
theorem mp4_tag_round_trip (k : SrsCodecIds) (flv : SrsFlvVideo) (s : srs_mp4_sample_t)
    (type : Int) (ppts : Nat)
    (hvideo : s.handler_type ≠ k.SrsMp4HandlerTypeSOUN)
    (hcodec : s.codec = 7 ∨ s.codec = k.SrsVideoCodecIdHEVC)
    (hk : s.codec < 16)
    (hft : 1 ≤ s.frame_type ∧ s.frame_type ≤ 5)
    (htrait : s.frame_trait ≠ 0)
    (hcts : s.dts ≤ s.pts ∧ s.pts - s.dts < 16777216)
    (hpts : s.pts < 4294967296)
    (hdet : flv.h264 (srs_mp4_to_flv_tag k s type).data = true
      ∨ flv.hevc (srs_mp4_to_flv_tag k s type).data = true)
    (hsh : flv.sh (srs_mp4_to_flv_tag k s type).data = false) :
    srs_utils_parse_timestamp flv s.dts (srs_mp4_to_flv_tag k s type).type
        (srs_mp4_to_flv_tag k s type).data ppts = (ERROR_SUCCESS, s.pts)
      ∧ srs_utils_flv_video_codec_id (srs_mp4_to_flv_tag k s type).data = (s.codec : Int)
      ∧ srs_utils_flv_video_frame_type flv (srs_mp4_to_flv_tag k s type).data
        = (s.frame_type : Int)
      ∧ srs_utils_flv_video_avc_packet_type flv (srs_mp4_to_flv_tag k s type).data = 1 := by
  have hc2 : s.codec = SrsVideoCodecIdAVC ∨ s.codec = k.SrsVideoCodecIdHEVC
      ∨ s.codec = k.SrsVideoCodecIdAV1 := by
    rcases hcodec with h | h
    · exact Or.inl h
    · exact Or.inr (Or.inl h)
  have hcts_val : toUInt32 ((s.pts : Int) - (s.dts : Int)) = s.pts - s.dts := by
    unfold toUInt32
    omega
  have htag : srs_mp4_to_flv_tag k s type
      = { ret := ERROR_SUCCESS, type := 9, time := s.dts,
          data := Fin.ofNat ((s.frame_type <<< 4) % 256 ||| s.codec % 256) :: 1
            :: Fin.ofNat ((s.pts - s.dts) / 65536) :: Fin.ofNat ((s.pts - s.dts) / 256)
            :: Fin.ofNat (s.pts - s.dts) :: s.sample } := by
    simp [srs_mp4_to_flv_tag, hvideo, hc2, SrsVideoAvcFrameTraitSequenceHeader, htrait, u24be,
      hcts_val, SRS_RTMP_TYPE_VIDEO]
  rw [htag] at hdet hsh
  rw [htag]
  have hnib := video_header_nibbles ⟨s.frame_type, by omega⟩ ⟨s.codec, hk⟩
  simp only at hnib
  have hdet2 : (!flv.h264 (Fin.ofNat ((s.frame_type <<< 4) % 256 ||| s.codec % 256) :: 1
            :: Fin.ofNat ((s.pts - s.dts) / 65536) :: Fin.ofNat ((s.pts - s.dts) / 256)
            :: Fin.ofNat (s.pts - s.dts) :: s.sample)
        && !flv.hevc (Fin.ofNat ((s.frame_type <<< 4) % 256 ||| s.codec % 256) :: 1
            :: Fin.ofNat ((s.pts - s.dts) / 65536) :: Fin.ofNat ((s.pts - s.dts) / 256)
            :: Fin.ofNat (s.pts - s.dts) :: s.sample)) = false := by
    rcases hdet with h | h <;> simp [h]
  refine ⟨?_, ?_, ?_, ?_⟩
  · unfold srs_utils_parse_timestamp
    rw [if_neg (by simp [SRS_RTMP_TYPE_VIDEO]), if_neg (by rw [hdet2]; simp),
      if_neg (by rw [hsh]; simp), if_neg (by simp)]
    simp only [List.getD_cons_succ, List.getD_cons_zero, fin_ofNat_val]
    congr 1
    omega
  · simp only [srs_utils_flv_video_codec_id, fin_ofNat_val, hnib.1]
  · unfold srs_utils_flv_video_frame_type
    rw [if_neg (by simp), if_neg (by rw [hdet2]; simp)]
    simp only [List.getD_cons_zero, fin_ofNat_val, hnib.2]
    rw [if_neg (by omega)]
  · unfold srs_utils_flv_video_avc_packet_type
    rw [if_neg (by simp), if_neg (by rw [hdet2]; simp)]
    simp

/-- C29 (witness): the H.264 sample and the HEVC sample with dts 1000 and pts 1040 meet the
hypotheses with the codec detector of the specification. -/
theorem mp4_tag_round_trip_witness :
    (srs_utils_parse_timestamp (specFlvVideo 12 13) avcSample.dts
          (srs_mp4_to_flv_tag specIds avcSample 0).type
          (srs_mp4_to_flv_tag specIds avcSample 0).data 0 = (ERROR_SUCCESS, avcSample.pts)
        ∧ srs_utils_flv_video_codec_id (srs_mp4_to_flv_tag specIds avcSample 0).data
          = (avcSample.codec : Int)
        ∧ srs_utils_flv_video_frame_type (specFlvVideo 12 13)
            (srs_mp4_to_flv_tag specIds avcSample 0).data = (avcSample.frame_type : Int)
        ∧ srs_utils_flv_video_avc_packet_type (specFlvVideo 12 13)
            (srs_mp4_to_flv_tag specIds avcSample 0).data = 1)
      ∧ srs_utils_parse_timestamp (specFlvVideo 12 13) hevcSample.dts
          (srs_mp4_to_flv_tag specIds hevcSample 0).type
          (srs_mp4_to_flv_tag specIds hevcSample 0).data 0 = (ERROR_SUCCESS, hevcSample.pts) :=
  ⟨mp4_tag_round_trip specIds (specFlvVideo 12 13) avcSample 0 0 (by decide) (by decide)
      (by decide) (by decide) (by decide) (by decide) (by decide) (by decide) (by decide),
    (mp4_tag_round_trip specIds (specFlvVideo 12 13) hevcSample 0 0 (by decide) (by decide)
      (by decide) (by decide) (by decide) (by decide) (by decide) (by decide) (by decide)).1⟩

/-! ## C30: what srs_write_h264_ipb_frame writes -/

/-- C30: once a sequence header has been sent, `srs_write_h264_ipb_frame` (1) for a NALU of
a type other than 5 and 1 returns success with the session unchanged, nothing being
written; (2) for an IDR (type 5) or non-IDR (type 1) NALU that `mux_ipb_frame` muxes to
`ibp` writes exactly one packet and returns the code of its send: a video packet (type 9)
with RTMP timestamp dts whose data is the header byte `frame_type<<4 | 7` with frame type 1
(key frame) for IDR and 2 (inter frame) for non-IDR, the AVC packet type 1 (NALU), the
composition time pts - dts and `ibp`; (3) when `mux_ipb_frame` fails returns its error with
the session unchanged.  So a packet is written only for the types 5 and 1. -/
theorem ipb_frame_written_only_for_idr_non_idr (rtmp : SrsRtmpClient)
    (avc : SrsRawH264Stream) (context : Context) (frame : List Byte) (dts pts : Nat)
    (hsent : context.h264_sps_pps_sent = true) :
    (nalu_type frame ≠ 5 → nalu_type frame ≠ 1 →
        srs_write_h264_ipb_frame rtmp avc context frame dts pts = (ERROR_SUCCESS, context))
      ∧ (∀ ibp, (nalu_type frame = 5 ∨ nalu_type frame = 1) →
          avc.mux_ipb_frame frame = .ok ibp →
          srs_write_h264_ipb_frame rtmp avc context frame dts pts
            = (rtmp.send context.sent.length
                { type := 9, timestamp := dts,
                  data := [if nalu_type frame = 5 then 0x17 else 0x27, 0x01]
                    ++ u24be (toUInt32 ((pts : Int) - (dts : Int))) ++ ibp },
               { context with
                 sent := context.sent ++
                   [{ type := 9, timestamp := dts,
                      data := [if nalu_type frame = 5 then 0x17 else 0x27, 0x01]
                        ++ u24be (toUInt32 ((pts : Int) - (dts : Int))) ++ ibp }] }))
      ∧ (∀ e, (nalu_type frame = 5 ∨ nalu_type frame = 1) →
          avc.mux_ipb_frame frame = .error e →
          srs_write_h264_ipb_frame rtmp avc context frame dts pts = (e, context))
      ∧ ((srs_write_h264_ipb_frame rtmp avc context frame dts pts).2.sent ≠ context.sent →
          nalu_type frame = 5 ∨ nalu_type frame = 1) := by
  refine ⟨?_, ?_, ?_, ?_⟩
  · intro h5 h1
    simp [srs_write_h264_ipb_frame, hsent, h5, h1, SrsAvcNaluTypeIDR, SrsAvcNaluTypeNonIDR]
  · intro ibp hnut hibp
    rw [write_h264_ipb_frame_written rtmp avc context frame ibp dts pts hsent hnut hibp]
    rcases hnut with h | h
    · rw [if_pos h, if_pos h]
      rfl
    · have h5 : ¬ nalu_type frame = 5 := by omega
      rw [if_neg h5, if_neg h5]
      rfl
  · intro e hnut hibp
    rcases hnut with h | h <;>
      simp [srs_write_h264_ipb_frame, hsent, hibp, h, SrsAvcNaluTypeIDR, SrsAvcNaluTypeNonIDR]
  · intro hw
    by_contra hn
    have h5 : nalu_type frame ≠ 5 := fun h => hn (Or.inl h)
    have h1 : nalu_type frame ≠ 1 := fun h => hn (Or.inr h)
    apply hw
    simp [srs_write_h264_ipb_frame, hsent, h5, h1, SrsAvcNaluTypeIDR, SrsAvcNaluTypeNonIDR]

/-- C30 (witness): on a session whose sequence header was sent, the IDR `65 88 84` is
written as the key frame packet `17 01 00 00 00` followed by the length-prefixed NALU. -/
theorem ipb_frame_written_only_for_idr_non_idr_witness :
    srs_write_h264_ipb_frame okClient specAvc sentContext idrNalu 40 40
      = (ERROR_SUCCESS,
         { sentContext with
           sent := sentContext.sent ++
             [{ type := 9, timestamp := 40,
                data := [0x17, 0x01, 0x00, 0x00, 0x00, 0x00, 0x00, 0x00, 0x03, 0x65, 0x88,
                  0x84] }] }) := by
  have h := (ipb_frame_written_only_for_idr_non_idr okClient specAvc sentContext idrNalu 40 40
    rfl).2.1 [0x00, 0x00, 0x00, 0x03, 0x65, 0x88, 0x84] (Or.inl (by decide)) (by rfl)
  rw [h]
  decide

/-! ## C28: when srs_rtmp_on_aggregate succeeds -/

theorem fin_ofNat_eq (x : Nat) (b : Byte) (h : x % 256 = b.val) : (Fin.ofNat x : Fin 256) = b :=
  Fin.ext (by rw [fin_ofNat_val]; exact h)

theorem encode_of_bytes (b0 d0 d1 d2 t0 t1 t2 th s0 s1 s2 p0 p1 p2 p3 : Byte)
    (body rest : List Byte)
    (hbody : body.length = d0.val * 65536 + d1.val * 256 + d2.val) :
    ∃ r : SubRecord, r.body.length < 16777216
      ∧ b0 :: d0 :: d1 :: d2 :: t0 :: t1 :: t2 :: th :: s0 :: s1 :: s2
          :: (body ++ p0 :: p1 :: p2 :: p3 :: rest) = r.encode ++ rest := by
  have hd0 := d0.isLt
  have hd1 := d1.isLt
  have hd2 := d2.isLt
  have ht0 := t0.isLt
  have ht1 := t1.isLt
  have ht2 := t2.isLt
  have hth := th.isLt
  have hs0 := s0.isLt
  have hs1 := s1.isLt
  have hs2 := s2.isLt
  have hp0 := p0.isLt
  have hp1 := p1.isLt
  have hp2 := p2.isLt
  have hp3 := p3.isLt
  refine ⟨{ tagType := b0,
            timestamp := th.val * 16777216 + t0.val * 65536 + t1.val * 256 + t2.val,
            streamId := s0.val * 65536 + s1.val * 256 + s2.val,
            body := body,
            previousTagSize := p0.val * 16777216 + p1.val * 65536 + p2.val * 256 + p3.val },
    by rw [hbody]; omega, ?_⟩
  simp only [SubRecord.encode, u24be, u32be, List.cons_append, List.nil_append,
    List.append_assoc, hbody]
  rw [fin_ofNat_eq _ d0 (by omega), fin_ofNat_eq _ d1 (by omega), fin_ofNat_eq _ d2 (by omega),
    fin_ofNat_eq _ t0 (by omega), fin_ofNat_eq _ t1 (by omega), fin_ofNat_eq _ t2 (by omega),
    fin_ofNat_eq _ th (by omega), fin_ofNat_eq _ s0 (by omega), fin_ofNat_eq _ s1 (by omega),
    fin_ofNat_eq _ s2 (by omega), fin_ofNat_eq _ p0 (by omega), fin_ofNat_eq _ p1 (by omega),
    fin_ofNat_eq _ p2 (by omega), fin_ofNat_eq _ p3 (by omega)]

theorem on_aggregate_loop_head (T cid : Int) (fuel : Nat) (bytes : List Byte) (delta : Int)
    (msgs : List SrsCommonMessage) (hne : bytes ≠ []) :
    (∃ (r : SubRecord) (rest : List Byte), r.body.length < 16777216 ∧ bytes = r.encode ++ rest)
      ∨ srs_rtmp_on_aggregate_loop T cid (fuel + 1) ⟨bytes⟩ delta msgs
          = (some ERROR_RTMP_AGGREGATE, msgs) := by
  rcases bytes with _ | ⟨b0, bytes⟩
  · exact absurd rfl hne
  rcases bytes with _ | ⟨d0, bytes⟩
  · right
    simp [srs_rtmp_on_aggregate_loop, SrsBuffer.empty, SrsBuffer.require, SrsBuffer.read_1bytes]
  rcases bytes with _ | ⟨d1, bytes⟩
  · right
    simp [srs_rtmp_on_aggregate_loop, SrsBuffer.empty, SrsBuffer.require, SrsBuffer.read_1bytes]
  rcases bytes with _ | ⟨d2, bytes⟩
  · right
    simp [srs_rtmp_on_aggregate_loop, SrsBuffer.empty, SrsBuffer.require, SrsBuffer.read_1bytes]
  rcases bytes with _ | ⟨t0, bytes⟩
  · right
    simp [srs_rtmp_on_aggregate_loop, SrsBuffer.empty, SrsBuffer.require, SrsBuffer.read_1bytes,
      SrsBuffer.read_3bytes]
  rcases bytes with _ | ⟨t1, bytes⟩
  · right
    simp [srs_rtmp_on_aggregate_loop, SrsBuffer.empty, SrsBuffer.require, SrsBuffer.read_1bytes,
      SrsBuffer.read_3bytes]
  rcases bytes with _ | ⟨t2, bytes⟩
  · right
    simp [srs_rtmp_on_aggregate_loop, SrsBuffer.empty, SrsBuffer.require, SrsBuffer.read_1bytes,
      SrsBuffer.read_3bytes]
  rcases bytes with _ | ⟨th, bytes⟩
  · right
    simp [srs_rtmp_on_aggregate_loop, SrsBuffer.empty, SrsBuffer.require, SrsBuffer.read_1bytes,
      SrsBuffer.read_3bytes]
  rcases bytes with _ | ⟨s0, bytes⟩
  · right
    simp [srs_rtmp_on_aggregate_loop, SrsBuffer.empty, SrsBuffer.require, SrsBuffer.read_1bytes,
      SrsBuffer.read_3bytes]
  rcases bytes with _ | ⟨s1, bytes⟩
  · right
    simp [srs_rtmp_on_aggregate_loop, SrsBuffer.empty, SrsBuffer.require, SrsBuffer.read_1bytes,
      SrsBuffer.read_3bytes]
  rcases bytes with _ | ⟨s2, rest⟩
  · right
    simp [srs_rtmp_on_aggregate_loop, SrsBuffer.empty, SrsBuffer.require, SrsBuffer.read_1bytes,
      SrsBuffer.read_3bytes]
  by_cases hbody : d0.val * 65536 + d1.val * 256 + d2.val ≤ rest.length
  · by_cases hpts : 4 ≤ (rest.drop (d0.val * 65536 + d1.val * 256 + d2.val)).length
    · left
      rcases hd : rest.drop (d0.val * 65536 + d1.val * 256 + d2.val) with
        _ | ⟨p0, _ | ⟨p1, _ | ⟨p2, _ | ⟨p3, rest2⟩⟩⟩⟩
      · rw [hd] at hpts; simp at hpts
      · rw [hd] at hpts; simp at hpts
      · rw [hd] at hpts; simp at hpts
      · rw [hd] at hpts; simp at hpts
      · obtain ⟨r, hr, he⟩ := encode_of_bytes b0 d0 d1 d2 t0 t1 t2 th s0 s1 s2 p0 p1 p2 p3
          (rest.take (d0.val * 65536 + d1.val * 256 + d2.val)) rest2
          (by rw [List.length_take]; omega)
        refine ⟨r, rest2, hr, ?_⟩
        rw [← he, ← hd, List.take_append_drop]
    · right
      have hlen := List.length_drop (d0.val * 65536 + d1.val * 256 + d2.val) rest
      simp only [srs_rtmp_on_aggregate_loop, SrsBuffer.empty, SrsBuffer.require,
        SrsBuffer.read_1bytes, SrsBuffer.read_3bytes, SrsBuffer.read_bytes, List.isEmpty_cons,
        List.length_cons]
      by_cases h0 : d0.val * 65536 + d1.val * 256 + d2.val = 0
      · rw [h0] at hpts hlen
        simp at hpts
        simp [h0]
        omega
      · have hpos : 0 < d0.val * 65536 + d1.val * 256 + d2.val := by omega
        have hposI : (0 : Int) < (d0.val : Int) * 65536 + (d1.val : Int) * 256 + (d2.val : Int) := by
          omega
        have htoNat : ((d0.val : Int) * 65536 + (d1.val : Int) * 256 + (d2.val : Int)).toNat
            = d0.val * 65536 + d1.val * 256 + d2.val := by omega
        simp [hbody, hpos, h0, hposI, htoNat]
        omega
  · right
    have hpos : 0 < d0.val * 65536 + d1.val * 256 + d2.val := by omega
    simp only [srs_rtmp_on_aggregate_loop, SrsBuffer.empty, SrsBuffer.require,
      SrsBuffer.read_1bytes, SrsBuffer.read_3bytes, SrsBuffer.read_bytes, List.isEmpty_cons,
      List.length_cons]
    simp [hbody, hpos]
    omega

theorem on_aggregate_loop_code (T cid : Int) :
    ∀ (fuel : Nat) (bytes : List Byte) (delta : Int) (msgs : List SrsCommonMessage),
      bytes.length < fuel →
      (srs_rtmp_on_aggregate_loop T cid fuel ⟨bytes⟩ delta msgs).1 = some ERROR_SUCCESS
        ∨ (srs_rtmp_on_aggregate_loop T cid fuel ⟨bytes⟩ delta msgs).1
            = some ERROR_RTMP_AGGREGATE := by
  intro fuel
  induction fuel with
  | zero =>
    intro bytes delta msgs hf
    exact absurd hf (Nat.not_lt_zero _)
  | succ f ih =>
    intro bytes delta msgs hf
    by_cases hne : bytes = []
    · left
      subst hne
      simp [srs_rtmp_on_aggregate_loop, SrsBuffer.empty]
    · rcases on_aggregate_loop_head T cid f bytes delta msgs hne with ⟨r, rest, hr, he⟩ | h
      · subst he
        rw [on_aggregate_loop_step T cid f r rest delta msgs hr]
        apply ih
        rw [List.length_append, encode_length] at hf
        omega
      · right
        rw [h]

theorem on_aggregate_loop_success (T cid : Int) :
    ∀ (fuel : Nat) (bytes : List Byte) (delta : Int) (msgs : List SrsCommonMessage),
      (srs_rtmp_on_aggregate_loop T cid fuel ⟨bytes⟩ delta msgs).1 = some ERROR_SUCCESS →
      ∃ rs : List SubRecord, (∀ r ∈ rs, r.body.length < 16777216)
        ∧ bytes = aggregatePayload rs := by
  intro fuel
  induction fuel with
  | zero =>
    intro bytes delta msgs h
    simp [srs_rtmp_on_aggregate_loop] at h
  | succ f ih =>
    intro bytes delta msgs h
    by_cases hne : bytes = []
    · exact ⟨[], by simp, by rw [hne]; rfl⟩
    · rcases on_aggregate_loop_head T cid f bytes delta msgs hne with ⟨r, rest, hr, he⟩ | h2
      · subst he
        rw [on_aggregate_loop_step T cid f r rest delta msgs hr] at h
        obtain ⟨rs, hrs, hrest⟩ := ih rest _ _ h
        refine ⟨r :: rs, ?_, ?_⟩
        · intro x hx
          rcases List.mem_cons.mp hx with hx | hx
          · rw [hx]
            exact hr
          · exact hrs x hx
        · rw [aggregatePayload_cons, hrest]
      · rw [h2] at h
        simp at h

/-- C28: `srs_rtmp_on_aggregate` returns success if and only if the payload (the first
`size` bytes of the message) is a possibly empty concatenation of complete sub-records, each
of 11 header bytes, `dataSize` body bytes and the 4 bytes of the previous tag size; in every
other case, that is when the payload ends inside a sub-record, it returns
`ERROR_RTMP_AGGREGATE`.  The function always returns. -/
theorem on_aggregate_success_iff (context : Context) (msg : SrsCommonMessage) :
    ((srs_rtmp_on_aggregate context msg).1 = some ERROR_SUCCESS
        ↔ ∃ rs : List SubRecord, (∀ r ∈ rs, r.body.length < 16777216)
            ∧ (msg.payload.getD []).take msg.size.toNat = aggregatePayload rs)
      ∧ ((srs_rtmp_on_aggregate context msg).1 = some ERROR_SUCCESS
        ∨ (srs_rtmp_on_aggregate context msg).1 = some ERROR_RTMP_AGGREGATE)
      ∧ (∀ r : SubRecord, r.encode.length = 11 + r.body.length + 4) := by
  refine ⟨⟨?_, ?_⟩, ?_, ?_⟩
  · intro h
    exact on_aggregate_loop_success _ _ _ _ _ _ h
  · rintro ⟨rs, hrs, hp⟩
    have hl := aggregatePayload_length rs
    simp only [srs_rtmp_on_aggregate]
    rw [hp, on_aggregate_loop_records _ _ rs hrs _ _ _ (by omega)]
  · exact on_aggregate_loop_code _ _ _ _ _ _ (Nat.lt_succ_self _)
  · intro r
    rw [encode_length]
    omega

/-! ## C22: the line of an audio packet -/

theorem human_sbytes_eq (sbytes0 : String) (data : List Byte) (h : 1 ≤ data.length) :
    human_sbytes sbytes0 data = spec_hex data := by
  rcases data with _ | ⟨b0, data⟩
  · simp at h
  rcases data with _ | ⟨b1, data⟩
  · rfl
  rcases data with _ | ⟨b2, data⟩
  · rfl
  rcases data with _ | ⟨b3, data⟩
  · rfl
  rcases data with _ | ⟨b4, data⟩
  · rfl
  rcases data with _ | ⟨b5, data⟩
  · rfl
  rcases data with _ | ⟨b6, data⟩
  · rfl
  rcases data with _ | ⟨b7, data⟩
  · rfl
  have hmin : min 8 (b0 :: b1 :: b2 :: b3 :: b4 :: b5 :: b6 :: b7 :: data).length = 8 := by
    simp
  unfold human_sbytes
  rw [hmin]
  rfl

theorem snprintf_at_fits (nb_buffer : Int) (line : String)
    (h : (line.length : Int) < nb_buffer) (hint : nb_buffer < 2147483648) :
    snprintf_at "" 0 nb_buffer line = line := by
  have hsz : (nb_buffer % 18446744073709551616).toNat = nb_buffer.toNat := by omega
  have hmin : min line.length (nb_buffer.toNat - 1) = line.length := by omega
  unfold snprintf_at
  simp only [hsz, hmin]
  rw [if_neg (by omega), if_pos (Nat.zero_le _)]
  show String.mk (List.take 0 "".data ++ List.take line.data.length line.data) = line
  rw [List.take_length]
  rfl

theorem format_d_timestamp (timestamp : Nat) (hts : timestamp < 2147483648) :
    format_d (toInt32 (timestamp : Int)) = toString timestamp := by
  have h : toInt32 (timestamp : Int) = (timestamp : Int) := by
    unfold toInt32
    omega
  rw [h]
  rfl

/-- C22: for every audio packet (type 8) with 1 <= size, timestamp below 2^31 and a buffer
large enough to hold the result (`nb_buffer`, an `int`, greater than the length of the
line), `srs_human_format_rtmp_packet` returns success and leaves in the buffer exactly
`Audio packet type=Audio, dts=<d>, pts=<p>, size=<s>, <fmt>(<rate>,<size>,<chan>,<aac_pkt>),
(<hex>)` where d = p = timestamp, s = size, the five names are the entries of the
`*2string` tables for the values of the corresponding header getters, and `<hex>` renders
the first min(8, size) bytes each as `0x%02x `, cut to 39 characters. -/
theorem format_audio_packet_line (env : FormatEnv) (nb_buffer : Int) (timestamp : Nat)
    (data : List Byte)
    (hsize : 1 ≤ data.length) (hts : timestamp < 2147483648)
    (hbuf : ((spec_audio_line timestamp data).length : Int) < nb_buffer)
    (hint : nb_buffer < 2147483648) :
    (srs_human_format_rtmp_packet env nb_buffer 8 timestamp data).map
        (fun o => (o.ret, o.text))
      = some (ERROR_SUCCESS, spec_audio_line timestamp data) := by
  have hparse : srs_utils_parse_timestamp env.flv timestamp 8 data 0
      = (ERROR_SUCCESS, timestamp) := by
    simp [srs_utils_parse_timestamp, SRS_RTMP_TYPE_VIDEO]
  have hline : "Audio packet type=" ++ srs_human_flv_tag_type2string 8 ++ ", dts="
      ++ format_d (toInt32 timestamp) ++ ", pts=" ++ format_d (toInt32 timestamp) ++ ", size="
      ++ format_d (data.length : Int) ++ ", "
      ++ srs_human_flv_audio_sound_format2string (srs_utils_flv_audio_sound_format data) ++ "("
      ++ srs_human_flv_audio_sound_rate2string (srs_utils_flv_audio_sound_rate data) ++ ","
      ++ srs_human_flv_audio_sound_size2string (srs_utils_flv_audio_sound_size data) ++ ","
      ++ srs_human_flv_audio_sound_type2string (srs_utils_flv_audio_sound_type data) ++ ","
      ++ srs_human_flv_audio_aac_packet_type2string (srs_utils_flv_audio_aac_packet_type data)
      ++ "), (" ++ human_sbytes env.sbytes0 data ++ ")" = spec_audio_line timestamp data := by
    rw [human_sbytes_eq env.sbytes0 data hsize, format_d_timestamp timestamp hts]
    rfl
  unfold srs_human_format_rtmp_packet
  simp only [hparse]
  rw [if_neg (by simp), if_neg (by simp [SRS_RTMP_TYPE_VIDEO]),
    if_pos (by simp [ SRS_RTMP_TYPE_AUDIO])]
  rw [hline, snprintf_at_fits nb_buffer _ hbuf hint]
  rfl

set_option maxRecDepth 100000 in
/-- C22 (witness): the AAC tag of 10 bytes `AF 01 21 10 04 60 8C 1C FF FE` at timestamp 1234
with a buffer of 1024 bytes; the hex part holds 8 bytes and 39 characters. -/
theorem format_audio_packet_line_witness :
    (srs_human_format_rtmp_packet plainEnv 1024 8 1234 aacLongTag).map
        (fun o => (o.ret, o.text))
      = some (ERROR_SUCCESS, spec_audio_line 1234 aacLongTag)
      ∧ spec_audio_line 1234 aacLongTag
        = "Audio packet type=Audio, dts=1234, pts=1234, size=10, AAC(44KHz,16bit,Stereo,Raw), (0xaf 0x01 0x21 0x10 0x04 0x60 0x8c 0x1c)" :=
  ⟨format_audio_packet_line plainEnv 1024 1234 aacLongTag (by decide) (by decide) (by decide)
    (by decide), by decide⟩

/-! ## C27: the indices of the buffer written by the formatter -/

set_option maxRecDepth 100000 in
/-- C27 (the code evaluated): for the script-data packet (type 18) of one byte `02` at
timestamp 0, an AMF0 parser that rejects the data and a buffer of 32 bytes,
`srs_human_format_rtmp_packet` writes the index 46: the line has 46 characters, `snprintf`
writes the indices 0..31 and returns 46, and the terminator is then stored at
`buffer[nb]` with `nb` = 46.  With a buffer of 1024 bytes every index written is below
1024. -/
theorem format_script_packet_writes_past_buffer :
    (srs_human_format_rtmp_packet plainEnv 32 18 0 [0x02]).map
        (fun o => o.writes.filter (fun i => decide ((32 : Int) ≤ (i : Int)))) = some [46]
      ∧ (srs_human_format_rtmp_packet plainEnv 1024 18 0 [0x02]).map
          (fun o => (o.text, o.writes.filter (fun i => decide ((1024 : Int) ≤ (i : Int)))))
        = some ("Data packet type=Data, time=0, size=1, (0x02 )", []) := by
  decide

/-! ## C36: the sound rate of an audio tag -/

set_option maxRecDepth 100000 in
theorem byte_shr4_and (b : Byte) : (b.val >>> 4) &&& 0x0f = b.val / 16 := by
  revert b
  decide

set_option maxRecDepth 100000 in
theorem sound_rate_field (b : Byte) :
    uint8_to_char ((b.val >>> 2) &&& 0x03) = (((b.val >>> 2) &&& 3 : Nat) : Int) := by
  revert b
  decide

/-- C36: `srs_utils_flv_audio_sound_rate` returns -1 for every tag shorter than 3 bytes,
whatever its format; for a tag of at least 3 bytes it returns the 2-bit field
`(data[0] >> 2) & 3`, except that for sound format 13 (Opus) with the SamplingRate trait
bit (4) set in `data[1]` it returns the char `data[2]`. -/
theorem audio_sound_rate :
    srs_utils_flv_audio_sound_rate [] = -1
      ∧ (∀ b0 : Byte, srs_utils_flv_audio_sound_rate [b0] = -1)
      ∧ (∀ b0 b1 : Byte, srs_utils_flv_audio_sound_rate [b0, b1] = -1)
      ∧ (∀ (b0 b1 b2 : Byte) (rest : List Byte),
          srs_utils_flv_audio_sound_rate (b0 :: b1 :: b2 :: rest)
            = if b0.val / 16 = 13 ∧ b1.val &&& 4 = 4 then toInt8 b2
              else (((b0.val >>> 2) &&& 3 : Nat) : Int)) := by
  refine ⟨rfl, fun _ => rfl, fun _ _ => rfl, ?_⟩
  intro b0 b1 b2 rest
  unfold srs_utils_flv_audio_sound_rate
  rw [if_neg (by simp)]
  simp only [List.getD_cons_succ, List.getD_cons_zero, byte_shr4_and, sound_rate_field,
    uint8_to_char_byte, SrsAudioCodecIdOpus, SrsAudioOpusFrameTraitSamplingRate]
  by_cases h13 : b0.val / 16 = 13
  · by_cases h4 : b1.val &&& 4 = 4
    · rw [if_neg (by omega), if_pos h4, if_pos ⟨h13, h4⟩]
    · rw [if_neg (by omega), if_neg h4, if_neg (fun h => h4 h.2)]
  · rw [if_pos h13, if_neg (fun h => h13 h.1)]

/-! ## C34: the frame size of an ADTS header -/

set_option maxRecDepth 100000 in
theorem adts_size_ch3 (b : Byte) :
    (toUInt32 (toInt8 b) <<< 11) % 4294967296 &&& 0x1800 = (b.val &&& 0x03) <<< 11 := by
  revert b
  decide

set_option maxRecDepth 100000 in
theorem adts_size_ch4 (b : Byte) :
    (toUInt32 (toInt8 b) <<< 3) % 4294967296 &&& 0x07f8 = b.val <<< 3 := by
  revert b
  decide

set_option maxRecDepth 100000 in
theorem adts_size_ch5 (b : Byte) : toUInt32 (toInt8 b >>> 5) &&& 0x0007 = b.val >>> 5 := by
  revert b
  decide

set_option maxRecDepth 100000 in
theorem adts_size_ch3_lt (b : Byte) : (b.val &&& 0x03) <<< 11 < 2 ^ 13 := by
  revert b
  decide

set_option maxRecDepth 100000 in
theorem adts_size_ch4_lt (b : Byte) : b.val <<< 3 < 2 ^ 13 := by
  revert b
  decide

set_option maxRecDepth 100000 in
theorem adts_size_ch5_lt (b : Byte) : b.val >>> 5 < 2 ^ 13 := by
  revert b
  decide

theorem adts_size_lt (b3 b4 b5 : Byte) :
    ((b3.val &&& 0x03) <<< 11) ||| (b4.val <<< 3) ||| (b5.val >>> 5) < 8192 := by
  have h := Nat.or_lt_two_pow (Nat.or_lt_two_pow (adts_size_ch3_lt b3) (adts_size_ch4_lt b4))
    (adts_size_ch5_lt b5)
  have p13 : (2 : Nat) ^ 13 = 8192 := by norm_num
  rw [p13] at h
  exact h

/-- C34: `srs_aac_adts_frame_size` returns -1 when the buffer does not start with the ADTS
sync word or has 7 bytes or fewer; otherwise it returns the 13-bit ADTS frame length
`((b3 & 0x03) << 11) | (b4 << 3) | (b5 >> 5)` of the bytes 3, 4 and 5 taken as unsigned,
for every byte value, also those with the top bit set, although the code computes it on
sign-extended chars; this value is in 0..8191. -/
theorem adts_frame_size (aac_raw_data : List Byte) :
    srs_aac_adts_frame_size aac_raw_data
        = (if srs_aac_is_adts aac_raw_data = false ∨ aac_raw_data.length ≤ 7 then -1
           else ((((aac_raw_data.getD 3 0).val &&& 0x03) <<< 11
             ||| ((aac_raw_data.getD 4 0).val <<< 3)
             ||| ((aac_raw_data.getD 5 0).val >>> 5) : Nat) : Int))
      ∧ (((aac_raw_data.getD 3 0).val &&& 0x03) <<< 11
          ||| ((aac_raw_data.getD 4 0).val <<< 3)
          ||| ((aac_raw_data.getD 5 0).val >>> 5)) ≤ 8191 := by
  have hlt := adts_size_lt (aac_raw_data.getD 3 0) (aac_raw_data.getD 4 0)
    (aac_raw_data.getD 5 0)
  refine ⟨?_, by omega⟩
  unfold srs_aac_adts_frame_size
  by_cases hadts : srs_aac_is_adts aac_raw_data = true
  · by_cases hlen : aac_raw_data.length ≤ 7
    · rw [if_neg (by simp [hadts]), if_pos hlen, if_pos (Or.inr hlen)]
    · rw [if_neg (by simp [hadts]), if_neg hlen, if_neg (by simp [hadts, hlen])]
      simp only [adts_size_ch3, adts_size_ch4, adts_size_ch5]
      unfold toInt32
      omega
  · have hf : srs_aac_is_adts aac_raw_data = false := by simpa using hadts
    rw [if_pos (by simp [hf]), if_pos (Or.inl hf)]

/-! ## C33: the timestamp reported by srs_rtmp_read_packet -/

theorem packet_of_timestamp (msg : SrsCommonMessage) :
    (packet_of msg).timestamp
        = (if msg.header.is_audio = true ∨ msg.header.is_video = true then
            toUInt32 msg.header.timestamp else 0)
      ∧ (msg.header.is_audio = false → msg.header.is_video = false →
          (packet_of msg).type
            = if msg.header.is_amf0_data = true ∨ msg.header.is_amf3_data = true then 18
              else msg.header.message_type) := by
  unfold packet_of
  by_cases h1 : msg.header.is_audio = true
  · simp [h1]
  by_cases h2 : msg.header.is_video = true
  · simp [h1, h2]
  by_cases h3 : (msg.header.is_amf0_data || msg.header.is_amf3_data) = true
  · have h3b : msg.header.is_amf0_data = true ∨ msg.header.is_amf3_data = true := by
      simpa using h3
    simp [h1, h2, h3, h3b, SRS_RTMP_TYPE_SCRIPT]
  · have h3b : ¬ (msg.header.is_amf0_data = true ∨ msg.header.is_amf3_data = true) := by
      simpa using h3
    simp [h1, h2, h3, h3b]

theorem read_packet_recv_head (rtmp : SrsRtmpClient) (fuel : Nat) (context : Context)
    (msg : SrsCommonMessage)
    (hq : context.msgs = []) (hr : rtmp.recv context.nb_recv = .ok (some msg))
    (h : msg.header.is_aggregate = false) :
    srs_rtmp_read_packet rtmp (fuel + 1) context
      = (some ERROR_SUCCESS, packet_of msg, { context with nb_recv := context.nb_recv + 1 }) := by
  rw [srs_rtmp_read_packet, hq]
  simp only [hr]
  rw [go_packet_not_aggregate _ _ h]
  simp

/-- C33: `srs_rtmp_read_packet` reports the timestamp of the message header only for audio
and video messages.  For every message it surfaces, taken from the queue or received from
the socket, that is for every message that is not an aggregate, the call succeeds and the
reported timestamp is the header timestamp (as `uint32_t`) when the message is audio or
video and 0 otherwise, whatever the header timestamp is; a message that is neither audio
nor video is reported with type 18 when it is AMF0 or AMF3 data and with its raw message
type otherwise. -/
theorem read_packet_timestamp (rtmp : SrsRtmpClient) (fuel : Nat) (context : Context)
    (msg : SrsCommonMessage) (rest : List SrsCommonMessage)
    (hsrc : context.msgs = msg :: rest
      ∨ (context.msgs = [] ∧ rtmp.recv context.nb_recv = .ok (some msg)))
    (h : msg.header.is_aggregate = false) :
    (srs_rtmp_read_packet rtmp (fuel + 1) context).1 = some ERROR_SUCCESS
      ∧ (srs_rtmp_read_packet rtmp (fuel + 1) context).2.1.timestamp
        = (if msg.header.is_audio = true ∨ msg.header.is_video = true then
            toUInt32 msg.header.timestamp else 0)
      ∧ (msg.header.is_audio = false → msg.header.is_video = false →
          (srs_rtmp_read_packet rtmp (fuel + 1) context).2.1.type
            = if msg.header.is_amf0_data = true ∨ msg.header.is_amf3_data = true then 18
              else msg.header.message_type)
      ∧ (srs_rtmp_read_packet rtmp (fuel + 1) context).2.1.data = msg.payload := by
  have hp : srs_rtmp_read_packet rtmp (fuel + 1) context
      = (some ERROR_SUCCESS, packet_of msg, (srs_rtmp_read_packet rtmp (fuel + 1) context).2.2) := by
    rcases hsrc with hq | ⟨hq, hr⟩
    · rw [read_packet_queue_head rtmp fuel context msg rest hq h]
    · rw [read_packet_recv_head rtmp fuel context msg hq hr h]
  have hd : (packet_of msg).data = msg.payload := by
    unfold packet_of
    split
    · rfl
    · split
      · rfl
      · split <;> rfl
  rw [hp]
  exact ⟨rfl, (packet_of_timestamp msg).1, (packet_of_timestamp msg).2, hd⟩

/-- C33 (witness): a queued command message (type 20) and a received AMF3 data message (type
15), both with header timestamp 777, are reported with timestamp 0, as type 20 and as type
18; the queued audio message is reported with its header timestamp. -/
theorem read_packet_timestamp_witness :
    ((srs_rtmp_read_packet okClient 1 { msgs := [commandMessage] }).2.1.timestamp = 0
        ∧ (srs_rtmp_read_packet okClient 1 { msgs := [commandMessage] }).2.1.type = 20)
      ∧ (srs_rtmp_read_packet { okClient with recv := fun _ => .ok (some amf3Message) } 1
          {}).2.1.type = 18
      ∧ (srs_rtmp_read_packet { okClient with recv := fun _ => .ok (some amf3Message) } 1
          {}).2.1.timestamp = 0 := by
  have h1 := read_packet_timestamp okClient 0 { msgs := [commandMessage] } commandMessage []
    (Or.inl rfl) (by decide)
  have h2 := read_packet_timestamp { okClient with recv := fun _ => .ok (some amf3Message) } 0
    {} amf3Message [] (Or.inr ⟨rfl, rfl⟩) (by decide)
  refine ⟨⟨?_, ?_⟩, ?_, ?_⟩
  · rw [h1.2.1]
    decide
  · rw [h1.2.2.1 (by decide) (by decide)]
    decide
  · rw [h2.2.2.1 (by decide) (by decide)]
    decide
  · rw [h2.2.1]
    decide

/-! ## C35: the sequence header is sent when either parameter set changed -/

/-- C35 (as stated, refuted): on a session whose sequence header was sent and in which
only the PPS changed since (`h264_sps_changed` is false), writing the next IDR frame sends
the sequence header and then the frame; the same holds when only the SPS changed. -/
theorem sequence_header_sent_when_only_one_changed :
    ppsChangedContext.h264_sps_changed = false ∧ ppsChangedContext.h264_pps_changed = true
      ∧ srs_write_h264_raw_frame okClient specAvc ppsChangedContext idrNalu 40 40
        = (ERROR_SUCCESS,
           { ppsChangedContext with
             h264_pps_changed := false,
             sent := ppsChangedContext.sent ++
               [avc_sequence_header_packet
                  (u16be spsNalu.length ++ spsNalu ++ u16be ppsNalu.length ++ ppsNalu) 40,
                avc_nalu_packet (u32be idrNalu.length ++ idrNalu) 1 40 40] })
      ∧ spsChangedContext.h264_sps_changed = true ∧ spsChangedContext.h264_pps_changed = false
      ∧ srs_write_h264_raw_frame okClient specAvc spsChangedContext idrNalu 40 40
        = (ERROR_SUCCESS,
           { spsChangedContext with
             h264_sps_changed := false,
             sent := spsChangedContext.sent ++
               [avc_sequence_header_packet
                  (u16be spsNalu.length ++ spsNalu ++ u16be ppsNalu.length ++ ppsNalu) 40,
                avc_nalu_packet (u32be idrNalu.length ++ idrNalu) 1 40 40] }) := by
  decide

/-- C35 (amended): the H.264 sequence header is sent when at least one of the SPS and the PPS
has changed since the last send.  For an IDR or non-IDR frame and stored parameter sets
that `mux_sequence_header` muxes to `sh`: if either change flag is set, the first packet
that `srs_write_h264_raw_frame` writes is the sequence header and both flags are cleared;
if neither is set, no sequence header is among the packets written. -/
theorem sequence_header_sent_when_either_changed (rtmp : SrsRtmpClient)
    (avc : SrsRawH264Stream) (context : Context) (frame sh : List Byte) (dts pts : Nat)
    (hnut : nalu_type frame = 5 ∨ nalu_type frame = 1)
    (hsh : avc.mux_sequence_header context.h264_sps context.h264_pps dts pts = .ok sh) :
    (context.h264_sps_changed = true ∨ context.h264_pps_changed = true →
        ∃ tail, (srs_write_h264_raw_frame rtmp avc context frame dts pts).2.sent
              = context.sent ++ avc_sequence_header_packet sh dts :: tail
          ∧ is_avc_sequence_header (avc_sequence_header_packet sh dts) = true
          ∧ (srs_write_h264_raw_frame rtmp avc context frame dts pts).2.h264_sps_changed = false
          ∧ (srs_write_h264_raw_frame rtmp avc context frame dts pts).2.h264_pps_changed
            = false)
      ∧ (context.h264_sps_changed = false ∧ context.h264_pps_changed = false →
          ∃ tail, (srs_write_h264_raw_frame rtmp avc context frame dts pts).2.sent
                = context.sent ++ tail
            ∧ ∀ p ∈ tail, is_avc_sequence_header p = false) := by
  have hnut3 : nalu_type frame = 5 ∨ nalu_type frame = 1 ∨ nalu_type frame = 9 := by
    rcases hnut with h | h
    · exact Or.inl h
    · exact Or.inr (Or.inl h)
  constructor
  · intro hch
    rw [raw_frame_known_nalu _ _ _ _ _ _ hnut3,
      write_h264_sps_pps_changed rtmp avc context dts pts sh hch hsh]
    by_cases hsend : rtmp.send context.sent.length (avc_sequence_header_packet sh dts)
        = ERROR_SUCCESS
    · simp only [hsend, bne_self_eq_false, Bool.false_eq_true, if_false]
      rcases write_h264_ipb_frame_cases rtmp avc
          { context with
            h264_sps_changed := false, h264_pps_changed := false, h264_sps_pps_sent := true,
            sent := context.sent ++ [avc_sequence_header_packet sh dts] } frame dts pts
        with h | ⟨ibp, ft, _, _, _, h⟩
      · rw [h]
        exact ⟨[], by simp, (is_sh_sequence_header_packet sh dts).1, rfl, rfl⟩
      · rw [h]
        exact ⟨[avc_nalu_packet ibp ft dts pts], by simp,
          (is_sh_sequence_header_packet sh dts).1, rfl, rfl⟩
    · have hne : (rtmp.send context.sent.length (avc_sequence_header_packet sh dts)
          != ERROR_SUCCESS) = true := by simpa using hsend
      simp only [hne, if_true]
      refine ⟨[], ?_, (is_sh_sequence_header_packet sh dts).1, ?_⟩
      · simp
      · simp
  · rintro ⟨h1, h2⟩
    rw [raw_frame_known_nalu _ _ _ _ _ _ hnut3,
      write_h264_sps_pps_unchanged rtmp avc context dts pts h1 h2]
    simp only [bne_self_eq_false, Bool.false_eq_true, if_false]
    rcases write_h264_ipb_frame_cases rtmp avc context frame dts pts
      with h | ⟨ibp, ft, _, _, hft, h⟩
    · rw [h]
      exact ⟨[], by simp, by simp⟩
    · rw [h]
      refine ⟨[avc_nalu_packet ibp ft dts pts], rfl, ?_⟩
      intro p hp
      have hp2 : p = avc_nalu_packet ibp ft dts pts := by simpa using hp
      rw [hp2]
      exact (is_nalu_nalu_packet ibp ft dts pts (by
        rcases hft with ⟨_, h⟩ | ⟨_, h⟩
        · exact Or.inl h
        · exact Or.inr h)).2

/-- C35 (witness): the session in which only the PPS changed, and the session in which
nothing changed. -/
theorem sequence_header_sent_when_either_changed_witness :
    (∃ tail, (srs_write_h264_raw_frame okClient specAvc ppsChangedContext idrNalu 40 40).2.sent
          = ppsChangedContext.sent
            ++ avc_sequence_header_packet
                (u16be spsNalu.length ++ spsNalu ++ u16be ppsNalu.length ++ ppsNalu) 40 :: tail
        ∧ is_avc_sequence_header (avc_sequence_header_packet
            (u16be spsNalu.length ++ spsNalu ++ u16be ppsNalu.length ++ ppsNalu) 40) = true
        ∧ (srs_write_h264_raw_frame okClient specAvc ppsChangedContext idrNalu 40 40).2.h264_sps_changed
          = false
        ∧ (srs_write_h264_raw_frame okClient specAvc ppsChangedContext idrNalu 40 40).2.h264_pps_changed
          = false)
      ∧ ∃ tail, (srs_write_h264_raw_frame okClient specAvc sentContext idrNalu 40 40).2.sent
            = sentContext.sent ++ tail
          ∧ ∀ p ∈ tail, is_avc_sequence_header p = false :=
  ⟨(sequence_header_sent_when_either_changed okClient specAvc ppsChangedContext idrNalu
      (u16be spsNalu.length ++ spsNalu ++ u16be ppsNalu.length ++ ppsNalu) 40 40
      (Or.inl (by decide)) rfl).1 (Or.inr rfl),
   (sequence_header_sent_when_either_changed okClient specAvc sentContext idrNalu
      (u16be spsNalu.length ++ spsNalu ++ u16be ppsNalu.length ++ ppsNalu) 40 40
      (Or.inl (by decide)) rfl).2 ⟨rfl, rfl⟩⟩

/-! ## C32: the same batch written twice -/

/-- C32: on a session in the state that a successful write of the batch [SPS, PPS, IDR]
leaves (the demuxed SPS and PPS stored, sequence header sent, no change pending), writing
the identical batch again with `srs_h264_write_raw_frames` writes exactly one packet, the
NALU packet of the IDR (a key frame, no sequence header), leaves the H.264 state unchanged
and returns ERROR_H264_DUPLICATED_PPS, the last of the two duplicate codes, although the
IDR was written. -/
theorem identical_batch_again (fuel : Nat) (rtmp : SrsRtmpClient) (avc : SrsRawH264Stream)
    (context : Context) (batch fs fp fi sps pps ibp : List Byte) (dts pts : Nat)
    (hd : DemuxesTo avc ⟨batch⟩ [fs, fp, fi])
    (hfs : nalu_type fs = 7) (hfp : nalu_type fp = 8) (hfi : nalu_type fi = 5)
    (hsps : avc.sps_demux fs = .ok sps) (hpps : avc.pps_demux fp = .ok pps)
    (hs1 : context.h264_sps = sps) (hs2 : context.h264_pps = pps)
    (hs3 : context.h264_sps_pps_sent = true)
    (hs4 : context.h264_sps_changed = false) (hs5 : context.h264_pps_changed = false)
    (hibp : avc.mux_ipb_frame fi = .ok ibp)
    (hsend : rtmp.send context.sent.length (avc_nalu_packet ibp 1 dts pts) = ERROR_SUCCESS)
    (hfuel : 3 < fuel) :
    srs_h264_write_raw_frames fuel rtmp avc context batch dts pts
        = (some ERROR_H264_DUPLICATED_PPS,
            { context with sent := context.sent ++ [avc_nalu_packet ibp 1 dts pts] })
      ∧ is_avc_nalu (avc_nalu_packet ibp 1 dts pts) = true
      ∧ is_avc_sequence_header (avc_nalu_packet ibp 1 dts pts) = false := by
  have hne1 := nalu_type_ne_nil fs 7 hfs (by decide)
  have hne2 := nalu_type_ne_nil fp 8 hfp (by decide)
  have h1 : srs_write_h264_raw_frame rtmp avc context fs dts pts
      = (ERROR_H264_DUPLICATED_SPS, context) := by
    simp [srs_write_h264_raw_frame, hne1, is_sps, hfs, hsps, hs1]
  have h2 : srs_write_h264_raw_frame rtmp avc context fp dts pts
      = (ERROR_H264_DUPLICATED_PPS, context) := by
    simp [srs_write_h264_raw_frame, hne2, is_sps, is_pps, hfp, hpps, hs2]
  have h3 : srs_write_h264_raw_frame rtmp avc context fi dts pts
      = (ERROR_SUCCESS,
          { context with sent := context.sent ++ [avc_nalu_packet ibp 1 dts pts] }) := by
    rw [raw_frame_known_nalu _ _ _ _ _ _ (Or.inl hfi),
      write_h264_sps_pps_unchanged rtmp avc _ dts pts hs4 hs5]
    simp only [bne_self_eq_false, Bool.false_eq_true, if_false]
    rw [write_h264_ipb_frame_written rtmp avc _ fi ibp dts pts hs3 (Or.inl hfi) hibp]
    simp [hfi, hsend]
  refine ⟨?_, (is_nalu_nalu_packet ibp 1 dts pts (Or.inl rfl)).1,
    (is_nalu_nalu_packet ibp 1 dts pts (Or.inl rfl)).2⟩
  unfold srs_h264_write_raw_frames
  rw [raw_frames_loop_eq rtmp avc dts pts [fs, fp, fi] fuel context _ _ hd
    (by simpa using hfuel)
    (by
      simp only [write_h264_frames, h1, h2, h3]
      intro c hc
      simp only [List.mem_cons, List.mem_singleton, List.not_mem_nil, or_false] at hc
      rcases hc with h | h | h
      · right; rw [h]; rfl
      · right; rw [h]; rfl
      · left; exact h)]
  simp [write_h264_frames, h1, h2, h3, last_error_code]

/-- C32 (witness): the batch `<sps> <pps> <idr>` written on a fresh session at dts 0 leaves
`afterBatchContext` with success; written again at dts 40 it returns
ERROR_H264_DUPLICATED_PPS and adds the NALU packet of the IDR only. -/
theorem identical_batch_again_witness :
    srs_h264_write_raw_frames 4 okClient specAvc {} spsPpsIdrBatch 0 0
        = (some ERROR_SUCCESS, afterBatchContext)
      ∧ srs_h264_write_raw_frames 4 okClient specAvc afterBatchContext spsPpsIdrBatch 40 40
        = (some ERROR_H264_DUPLICATED_PPS,
            { afterBatchContext with
              sent := afterBatchContext.sent
                ++ [avc_nalu_packet (u32be idrNalu.length ++ idrNalu) 1 40 40] }) :=
  ⟨by decide,
    (identical_batch_again 4 okClient specAvc afterBatchContext spsPpsIdrBatch spsNalu ppsNalu
      idrNalu spsNalu ppsNalu (u32be idrNalu.length ++ idrNalu) 40 40 spsPpsIdrBatch_demux
      (by decide) (by decide) (by decide) rfl rfl rfl rfl rfl rfl rfl rfl rfl (by decide)).1⟩

/-! ## C38: strlcpy -/

theorem getD_eq_headD_drop (src : List Byte) (s : Nat) :
    src.getD s 0 = (src.drop s).headD 0 := by
  induction src generalizing s with
  | nil => simp
  | cons c rest ih =>
    cases s with
    | zero => rfl
    | succ s =>
      simp only [List.getD_cons_succ, List.drop_succ_cons]
      exact ih s

theorem c_str_nil : c_str [] = [] := rfl

theorem c_str_cons_zero (rest : List Byte) : c_str (0 :: rest) = [] := by
  simp [c_str]

theorem c_str_cons_ne (c : Byte) (rest : List Byte) (h : c ≠ 0) :
    c_str (c :: rest) = c :: c_str rest := by
  simp [c_str, h]

theorem strlcpy_skip_eq (rest : List Byte) : strlcpy_skip rest = (c_str rest).length + 1 := by
  induction rest with
  | nil => rfl
  | cons c rest ih =>
    by_cases h : c = 0
    · subst h
      simp [strlcpy_skip, c_str_cons_zero]
    · simp [strlcpy_skip, h, c_str_cons_ne c rest h, ih]
      omega

theorem c_str_drop (src : List Byte) :
    ∀ m, m ≤ (c_str src).length → c_str (src.drop m) = (c_str src).drop m := by
  induction src with
  | nil => intro m _; simp [c_str_nil]
  | cons c rest ih =>
    intro m hm
    cases m with
    | zero => rfl
    | succ m =>
      by_cases h : c = 0
      · subst h
        rw [c_str_cons_zero] at hm
        simp at hm
      · rw [c_str_cons_ne c rest h] at hm ⊢
        simp only [List.drop_succ_cons]
        exact ih m (by simpa using hm)

theorem strlcpy_copy_eq (src : List Byte) :
    ∀ (n s : Nat) (dst : List Byte),
      strlcpy_copy src n s dst
        = if (c_str (src.drop s)).length < n then
            (n - (c_str (src.drop s)).length, s + (c_str (src.drop s)).length + 1,
              dst ++ c_str (src.drop s) ++ [0])
          else (0, s + n, dst ++ (c_str (src.drop s)).take n) := by
  intro n
  induction n with
  | zero =>
    intro s dst
    simp [strlcpy_copy]
  | succ n ih =>
    intro s dst
    rw [strlcpy_copy, getD_eq_headD_drop]
    rcases hdrop : src.drop s with _ | ⟨c, rest⟩
    · simp [c_str_nil]
    · have hnext : src.drop (s + 1) = rest := by
        have h := List.tail_drop src s
        rw [hdrop] at h
        simpa using h.symm
      by_cases h : c = 0
      · subst h
        simp [c_str_cons_zero]
      · simp only [List.headD_cons, h, if_false]
        rw [ih (s + 1) (dst ++ [c]), hnext, c_str_cons_ne c rest h]
        by_cases hl : (c_str rest).length < n
        · rw [if_pos hl, if_pos (by simp; omega)]
          simp
          omega
        · rw [if_neg hl, if_neg (by simp; omega)]
          simp
          omega

theorem strlcpy_fits (src : List Byte) (m : Nat) (hl : (c_str src).length < m) :
    strlcpy src (m + 1) = { ret := (c_str src).length, dst := c_str src ++ [0] } := by
  have hcopy := strlcpy_copy_eq src m 0 []
  rw [List.drop_zero, if_pos hl] at hcopy
  have hne : ¬ (m - (c_str src).length = 0) := by omega
  simp only [strlcpy, Nat.add_sub_cancel, if_pos (Nat.succ_ne_zero m), hcopy, if_neg hne]
  simp

theorem strlcpy_truncates (src : List Byte) (m : Nat) (hl : m ≤ (c_str src).length) :
    strlcpy src (m + 1) = { ret := (c_str src).length, dst := (c_str src).take m ++ [0] } := by
  have hcopy := strlcpy_copy_eq src m 0 []
  rw [List.drop_zero, if_neg (by omega)] at hcopy
  simp only [strlcpy, Nat.add_sub_cancel, if_pos (Nat.succ_ne_zero m), hcopy, if_true,
    Nat.zero_add, strlcpy_skip_eq, c_str_drop src m hl, List.length_drop, List.nil_append]
  have h : m + ((c_str src).length - m + 1) - 1 = (c_str src).length := by omega
  rw [h]

theorem strlcpy_zero (src : List Byte) :
    strlcpy src 0 = { ret := (c_str src).length, dst := [] } := by
  simp [strlcpy, strlcpy_skip_eq]

/-- C38: `strlcpy(dst, src, siz)` returns the length of the C string in `src` for every
source and every `siz`.  When `siz >= 1` it stores into `dst`, from index 0 on, the first
min(strlen(src), siz - 1) characters of `src` followed by a NUL, and when `siz = 0` it
stores nothing; in both cases no index `>= siz` is written.  The whole string was copied
exactly when the value returned is below `siz`, that is truncation occurred exactly when
the value returned is `>= siz`. -/
theorem strlcpy_spec (src : List Byte) (siz : Nat) :
    (strlcpy src siz).ret = (c_str src).length
      ∧ (strlcpy src siz).dst
        = (if siz = 0 then []
           else (c_str src).take (min (c_str src).length (siz - 1)) ++ [0])
      ∧ (strlcpy src siz).dst.length ≤ siz
      ∧ ((strlcpy src siz).dst = c_str src ++ [0] ↔ (strlcpy src siz).ret < siz) := by
  cases siz with
  | zero =>
    rw [strlcpy_zero]
    refine ⟨rfl, rfl, Nat.le_refl _, ?_⟩
    constructor
    · intro h
      have hlen := congrArg List.length h
      simp at hlen
    · intro h
      exact absurd h (Nat.not_lt_zero _)
  | succ m =>
    by_cases hl : (c_str src).length < m
    · rw [strlcpy_fits src m hl]
      have hmin : min (c_str src).length m = (c_str src).length := by omega
      refine ⟨rfl, ?_, ?_, ?_⟩
      · rw [if_neg (Nat.succ_ne_zero m), Nat.add_sub_cancel, hmin, List.take_length]
      · simp only [List.length_append, List.length_singleton]
        omega
      · constructor
        · intro _
          show (c_str src).length < m + 1
          omega
        · intro _
          rfl
    · have hle : m ≤ (c_str src).length := by omega
      rw [strlcpy_truncates src m hle]
      have hmin : min (c_str src).length m = m := by omega
      refine ⟨rfl, ?_, ?_, ?_⟩
      · rw [if_neg (Nat.succ_ne_zero m), Nat.add_sub_cancel, hmin]
      · simp only [List.length_append, List.length_singleton, List.length_take]
        omega
      · constructor
        · intro he
          have hlen := congrArg List.length he
          simp only [List.length_append, List.length_singleton, List.length_take] at hlen
          show (c_str src).length < m + 1
          omega
        · intro hlt
          have hlt2 : (c_str src).length < m + 1 := hlt
          have hm : (c_str src).length = m := by omega
          show List.take m (c_str src) ++ [0] = c_str src ++ [0]
          rw [← hm, List.take_length]

/-- The string `hi` copied by `strlcpy` with the sizes 0, 1, 2 and 3. -/
theorem strlcpy_examples :
    strlcpy [104, 105] 0 = { ret := 2, dst := [] }
      ∧ strlcpy [104, 105] 1 = { ret := 2, dst := [0] }
      ∧ strlcpy [104, 105] 2 = { ret := 2, dst := [104, 0] }
      ∧ strlcpy [104, 105] 3 = { ret := 2, dst := [104, 105, 0] } := by
  decide

/-! ## C37: the NALU walk terminates -/

theorem toInt32_le_self (x : Int) (h : 0 ≤ x) : toInt32 x ≤ x := by
  unfold toInt32
  omega

theorem nalu_loop_progress (k : SrsCodecIds) (oob : String) (beyond : Nat → Byte)
    (data : List Byte) (codec_id : Int) (fuel : Nat) (w : NaluWalk) :
    (∃ r, human_h2645_nalu_loop k oob beyond data codec_id (fuel + 1) w = some r)
      ∨ ∃ w', human_h2645_nalu_loop k oob beyond data codec_id (fuel + 1) w
            = human_h2645_nalu_loop k oob beyond data codec_id fuel w'
          ∧ w'.left_size ≤ w.left_size - 4 := by
  rw [human_h2645_nalu_loop]
  dsimp only
  by_cases h1 : ¬ (w.left_size > 0)
  · left
    rw [if_pos h1]
    exact ⟨_, rfl⟩
  rw [if_neg h1]
  by_cases h2 : w.left_size < 4
  · left
    rw [if_pos h2]
    exact ⟨_, rfl⟩
  rw [if_neg h2]
  generalize hlen : (if (peek beyond data w.p <<< 24 ||| peek beyond data (w.p + 1) <<< 16
            ||| peek beyond data (w.p + 2) <<< 8 ||| peek beyond data (w.p + 3)) % 4294967296 = 1
          then (annexb_scan beyond data (w.left_size - 4).toNat (w.p + 4) 0
            (w.reads ++ [w.p, w.p + 1, w.p + 2, w.p + 3])).1
          else (peek beyond data w.p <<< 24 ||| peek beyond data (w.p + 1) <<< 16
            ||| peek beyond data (w.p + 2) <<< 8 ||| peek beyond data (w.p + 3))
              % 4294967296) = len
  by_cases h3 : (len : Int) > w.left_size - 4
  · left
    rw [if_pos h3]
    exact ⟨_, rfl⟩
  · right
    rw [if_neg h3]
    refine ⟨_, rfl, ?_⟩
    dsimp only
    have h4 := toInt32_le_self (w.left_size - 4 - (len : Int)) (by omega)
    omega

theorem nalu_loop_terminates (k : SrsCodecIds) (oob : String) (beyond : Nat → Byte)
    (data : List Byte) (codec_id : Int) :
    ∀ (fuel : Nat) (w : NaluWalk), w.left_size ≤ 4 * (fuel : Int) →
      ∃ r, human_h2645_nalu_loop k oob beyond data codec_id (fuel + 1) w = some r := by
  intro fuel
  induction fuel with
  | zero =>
    intro w hw
    rcases nalu_loop_progress k oob beyond data codec_id 0 w with h | ⟨w', h, hle⟩
    · exact h
    · refine ⟨w, ?_⟩
      rw [human_h2645_nalu_loop, if_pos (by simp at hw; omega)]
  | succ n ih =>
    intro w hw
    rcases nalu_loop_progress k oob beyond data codec_id (n + 1) w with h | ⟨w', h, hle⟩
    · exact h
    · rw [h]
      apply ih
      push_cast at hw
      omega

/-- C37: the NALU walk of `human_h2645_nalu` terminates on every input.  Each loop
iteration either exits or goes on with a remaining size `left_size` that is smaller by at
least 4, whatever the declared NALU length is (0, 1 with the Annex-B heuristic, or larger
than the remaining bytes); so with fuel for `size + 1` iterations the function returns a
result for every buffer. -/
theorem human_h2645_nalu_terminates (k : SrsCodecIds) (flv : SrsFlvVideo) (oob : String)
    (beyond : Nat → Byte) (data : List Byte) :
    (∃ r, human_h2645_nalu (data.length + 1) k flv oob beyond data = some r)
      ∧ ∀ (codec_id : Int) (fuel : Nat) (w : NaluWalk),
          (∃ r, human_h2645_nalu_loop k oob beyond data codec_id (fuel + 1) w = some r)
            ∨ ∃ w', human_h2645_nalu_loop k oob beyond data codec_id (fuel + 1) w
                  = human_h2645_nalu_loop k oob beyond data codec_id fuel w'
                ∧ w'.left_size ≤ w.left_size - 4 := by
  refine ⟨?_, fun codec_id fuel w => nalu_loop_progress k oob beyond data codec_id fuel w⟩
  unfold human_h2645_nalu
  dsimp only
  split
  · exact ⟨_, rfl⟩
  · split
    · exact ⟨_, rfl⟩
    · obtain ⟨r, hr⟩ := nalu_loop_terminates k oob beyond data
        (srs_utils_flv_video_codec_id data) data.length
        { p := 5, left_size := (data.length : Int) - 5, nalu_list := "NALU: ", nalu_data := "",
          reads := [] } (by simp only; omega)
      rw [hr]
      exact ⟨_, rfl⟩

/-! ## C31: srs_rtmp_on_aggregate is not atomic on failure -/

theorem encode_getD_size (r : SubRecord) :
    ((r.encode.getD 1 0).val, (r.encode.getD 2 0).val, (r.encode.getD 3 0).val)
      = (r.body.length / 65536 % 256, r.body.length / 256 % 256, r.body.length % 256) := by
  simp [SubRecord.encode, u24be, fin_ofNat_val]

theorem truncated_not_record (r : SubRecord) (n : Nat) (hr : r.body.length < 16777216)
    (hn : n < r.encode.length) :
    ¬ ∃ (r2 : SubRecord) (rest : List Byte),
        r2.body.length < 16777216 ∧ r.encode.take n = r2.encode ++ rest := by
  rintro ⟨r2, rest, hr2, he⟩
  have hlen := congrArg List.length he
  rw [List.length_take, List.length_append, encode_length, encode_length] at hlen
  rw [encode_length] at hn
  have hn15 : 15 ≤ n := by omega
  have hget : ∀ i, i < 4 → (r.encode.take n).getD i 0 = r.encode.getD i 0 := by
    intro i hi
    rw [List.getD_eq_getElem?_getD, List.getD_eq_getElem?_getD, List.getElem?_take,
      if_pos (by omega)]
  have hget2 : ∀ i, i < 4 → (r2.encode ++ rest).getD i 0 = r2.encode.getD i 0 := by
    intro i hi
    have hl : i < r2.encode.length := by rw [encode_length]; omega
    rw [List.getD_eq_getElem?_getD, List.getD_eq_getElem?_getD, List.getElem?_append_left hl]
  have h1 := encode_getD_size r
  have h2 := encode_getD_size r2
  rw [← hget 1 (by omega), ← hget 2 (by omega), ← hget 3 (by omega), he,
    hget2 1 (by omega), hget2 2 (by omega), hget2 3 (by omega), h2] at h1
  simp only [Prod.mk.injEq] at h1
  omega

theorem on_aggregate_loop_truncated (T cid : Int) (tail : List Byte) (hne : tail ≠ [])
    (htail : ¬ ∃ (r : SubRecord) (rest : List Byte),
      r.body.length < 16777216 ∧ tail = r.encode ++ rest)
    (rs : List SubRecord) (hb : ∀ r ∈ rs, r.body.length < 16777216) :
    ∀ (fuel : Nat) (delta : Int) (msgs : List SrsCommonMessage), rs.length < fuel →
      srs_rtmp_on_aggregate_loop T cid fuel ⟨aggregatePayload rs ++ tail⟩ delta msgs
        = (some ERROR_RTMP_AGGREGATE, msgs ++ aggregateChildren T cid delta rs) := by
  induction rs with
  | nil =>
    intro fuel delta msgs hf
    obtain ⟨f, rfl⟩ : ∃ f, fuel = f + 1 := ⟨fuel - 1, by simp at hf; omega⟩
    rcases on_aggregate_loop_head T cid f tail delta msgs hne with h | h
    · exact absurd h htail
    · simpa [aggregatePayload, aggregateChildren] using h
  | cons r rs ih =>
    intro fuel delta msgs hf
    obtain ⟨f, rfl⟩ : ∃ f, fuel = f + 1 := ⟨fuel - 1, by simp at hf; omega⟩
    rw [aggregatePayload_cons, List.append_assoc,
      on_aggregate_loop_step _ _ _ _ _ _ _ (hb r (by simp)),
      ih (fun x hx => hb x (by simp [hx])) f _ _ (by simpa using hf)]
    simp [aggregateChildren]

/-- C31: `srs_rtmp_on_aggregate` is not atomic on failure.  When the payload consists of
the complete sub-records `rs` followed by a truncated one (the first `n` bytes of a record,
0 < n < its length), it returns ERROR_RTMP_AGGREGATE and the children parsed from `rs`
remain appended to the session queue; when the queue was empty before and the children are
audio, video or data messages, the following `rs.length` calls of `srs_rtmp_read_packet`
return them, in order, without reading the socket. -/
theorem on_aggregate_not_atomic (rtmp : SrsRtmpClient) (fuel : Nat) (context : Context)
    (msg : SrsCommonMessage) (rs : List SubRecord) (r : SubRecord) (n : Nat)
    (hb : ∀ x ∈ rs, x.body.length < 16777216) (hr : r.body.length < 16777216)
    (hn0 : 0 < n) (hn : n < r.encode.length)
    (hp : msg.payload = some (aggregatePayload rs ++ r.encode.take n))
    (hs : msg.size = (aggregatePayload rs ++ r.encode.take n).length) :
    srs_rtmp_on_aggregate context msg
        = (some ERROR_RTMP_AGGREGATE,
            { context with msgs := context.msgs
                ++ aggregateChildren msg.header.timestamp msg.header.perfer_cid (-1) rs })
      ∧ (aggregateChildren msg.header.timestamp msg.header.perfer_cid (-1) rs).length
        = rs.length
      ∧ (context.msgs = [] →
          (∀ x ∈ rs, x.tagType = 8 ∨ x.tagType = 9 ∨ x.tagType = 18 ∨ x.tagType = 15) →
          read_packets rtmp (fuel + 1) rs.length (srs_rtmp_on_aggregate context msg).2
            = ((aggregateChildren msg.header.timestamp msg.header.perfer_cid (-1) rs).map
                  (fun c => (some ERROR_SUCCESS, packet_of c)),
                { context with msgs := [] })) := by
  have htake_ne : r.encode.take n ≠ [] := by
    intro h
    have hl : (r.encode.take n).length = 0 := by rw [h]; rfl
    rw [List.length_take] at hl
    omega
  have hl := aggregatePayload_length rs
  have hmain : srs_rtmp_on_aggregate context msg
      = (some ERROR_RTMP_AGGREGATE,
          { context with msgs := context.msgs
              ++ aggregateChildren msg.header.timestamp msg.header.perfer_cid (-1) rs }) := by
    simp only [srs_rtmp_on_aggregate, hp, hs, Option.getD_some, Int.toNat_ofNat,
      List.take_length]
    rw [on_aggregate_loop_truncated _ _ (r.encode.take n) htake_ne
      (truncated_not_record r n hr hn) rs hb _ _ _
      (by rw [List.length_append]; omega)]
  refine ⟨hmain, aggregateChildren_length _ _ rs _, ?_⟩
  intro hq htypes
  rw [hmain]
  have h := read_packets_queue rtmp fuel
    (aggregateChildren msg.header.timestamp msg.header.perfer_cid (-1) rs)
    { context with msgs := context.msgs
        ++ aggregateChildren msg.header.timestamp msg.header.perfer_cid (-1) rs } []
    (by simp [hq]) (aggregateChildren_not_aggregate _ _ rs htypes _)
  rw [aggregateChildren_length] at h
  exact h

/-- C31 (witness): an aggregate with header timestamp 1000 whose payload is the two records
of `twoRecords` and the first 12 bytes of a third record: the call fails and two children
are queued, which the next two reads return. -/
theorem on_aggregate_not_atomic_witness :
    srs_rtmp_on_aggregate {} truncatedAggregate
        = (some ERROR_RTMP_AGGREGATE,
            { msgs := aggregateChildren 1000 0 (-1) twoRecords })
      ∧ (aggregateChildren 1000 0 (-1) twoRecords).length = 2
      ∧ read_packets okClient 1 2 (srs_rtmp_on_aggregate {} truncatedAggregate).2
        = ((aggregateChildren 1000 0 (-1) twoRecords).map
              (fun c => (some ERROR_SUCCESS, packet_of c)), {}) := by
  have h := on_aggregate_not_atomic okClient 0 {} truncatedAggregate twoRecords (tsRecord 540)
    12 (by decide) (by decide) (by decide) (by decide) rfl rfl
  exact ⟨h.1, h.2.1, h.2.2 rfl (by decide)⟩

end SrsLibrtmp
